import Mathlib

/-!
Verification of the rod/truss finite-element pipeline exercised by
`fem/data/bridge01.py`.  The script drives an external solver
(`FEMmesh` / `FEMsolver`); the solver itself is modelled from the
specification, while the bridge data, boundary conditions and report
construction are embedded from the script.

Because the bridge's diagonal members have length `2·√5`, concrete
computations are carried out in the field `ℚ(√5)`, represented by pairs
of rationals.
-/

/-- The field `ℚ(√5)`: the value `⟨a, b⟩` stands for `a + b·√5`. -/
structure Qr5 where
  a : ℚ
  b : ℚ
deriving DecidableEq

namespace Qr5

@[ext]
theorem ext2 {x y : Qr5} (ha : x.a = y.a) (hb : x.b = y.b) : x = y := by
  cases x; cases y; simp_all

theorem five_not_square : ¬ IsSquare (5 : ℚ) := by
  have h5 : ¬ IsSquare (5 : ℕ) := ((by norm_num : Nat.Prime 5).prime).not_square
  intro h
  apply h5
  rw [show (5 : ℚ) = ((5 : ℕ) : ℚ) by norm_num, Rat.isSquare_natCast_iff] at h
  exact h

/-- The conjugate discriminant `a² - 5b²` vanishes only at zero, since 5 is not
a rational square. -/
theorem disc_ne_zero {p q : ℚ} (h : ¬ (p = 0 ∧ q = 0)) : p ^ 2 - 5 * q ^ 2 ≠ 0 := by
  intro hd
  by_cases hq : q = 0
  · subst hq
    have hp : p = 0 := by nlinarith
    exact h ⟨hp, rfl⟩
  · apply five_not_square
    refine ⟨p / q, ?_⟩
    field_simp
    nlinarith

/-- Addition in `ℚ(√5)`, componentwise. -/
def qadd (x y : Qr5) : Qr5 := ⟨x.a + y.a, x.b + y.b⟩

/-- Negation in `ℚ(√5)`. -/
def qneg (x : Qr5) : Qr5 := ⟨-x.a, -x.b⟩

/-- Multiplication in `ℚ(√5)`: `(a + b√5)(c + d√5) = (ac + 5bd) + (ad + bc)√5`. -/
def qmul (x y : Qr5) : Qr5 := ⟨x.a * y.a + 5 * (x.b * y.b), x.a * y.b + x.b * y.a⟩

/-- Inverse via the conjugate: `(a + b√5)⁻¹ = (a - b√5) / (a² - 5b²)`. -/
def qinv (x : Qr5) : Qr5 :=
  ⟨x.a / (x.a ^ 2 - 5 * x.b ^ 2), -x.b / (x.a ^ 2 - 5 * x.b ^ 2)⟩

theorem qadd_assoc (x y z : Qr5) : qadd (qadd x y) z = qadd x (qadd y z) := by
  ext <;> simp [qadd] <;> ring

theorem qadd_comm (x y : Qr5) : qadd x y = qadd y x := by
  ext <;> simp [qadd] <;> ring

theorem qadd_zero (x : Qr5) : qadd x ⟨0, 0⟩ = x := by
  ext <;> simp [qadd]

theorem qzero_add (x : Qr5) : qadd ⟨0, 0⟩ x = x := by
  ext <;> simp [qadd]

theorem qneg_add_cancel (x : Qr5) : qadd (qneg x) x = ⟨0, 0⟩ := by
  ext <;> simp [qadd, qneg]

theorem qmul_assoc (x y z : Qr5) : qmul (qmul x y) z = qmul x (qmul y z) := by
  ext <;> simp [qmul] <;> ring

theorem qmul_comm (x y : Qr5) : qmul x y = qmul y x := by
  ext <;> simp [qmul] <;> ring

theorem qone_mul (x : Qr5) : qmul ⟨1, 0⟩ x = x := by
  ext <;> simp [qmul]

theorem qmul_one (x : Qr5) : qmul x ⟨1, 0⟩ = x := by
  ext <;> simp [qmul]

theorem qzero_mul (x : Qr5) : qmul ⟨0, 0⟩ x = ⟨0, 0⟩ := by
  ext <;> simp [qmul]

theorem qmul_zero (x : Qr5) : qmul x ⟨0, 0⟩ = ⟨0, 0⟩ := by
  ext <;> simp [qmul]

theorem qleft_distrib (x y z : Qr5) : qmul x (qadd y z) = qadd (qmul x y) (qmul x z) := by
  ext <;> simp [qmul, qadd] <;> ring

theorem qright_distrib (x y z : Qr5) : qmul (qadd x y) z = qadd (qmul x z) (qmul y z) := by
  ext <;> simp [qmul, qadd] <;> ring

theorem qmul_inv_cancel {x : Qr5} (hx : x ≠ ⟨0, 0⟩) : qmul x (qinv x) = ⟨1, 0⟩ := by
  have hx0 : ¬ (x.a = 0 ∧ x.b = 0) := by
    intro ⟨h1, h2⟩
    exact hx (by ext <;> simp_all)
  have hd := disc_ne_zero hx0
  ext
  · show x.a * (x.a / _) + 5 * (x.b * (-x.b / _)) = 1
    field_simp
    ring
  · show x.a * (-x.b / _) + x.b * (x.a / _) = 0
    field_simp
    ring

theorem qinv_zero : qinv ⟨0, 0⟩ = ⟨0, 0⟩ := by
  ext <;> simp [qinv]

/-- Build a `Qr5` value from a rational (the `b`-component is zero). -/
def ofRat (q : ℚ) : Qr5 := ⟨q, 0⟩

theorem ofRat_qmul (p r : ℚ) : qmul (ofRat p) (ofRat r) = ofRat (p * r) := by
  ext <;> simp [qmul, ofRat]

theorem qinv_ofRat (r : ℚ) : qinv (ofRat r) = ofRat r⁻¹ := by
  by_cases hr : r = 0
  · subst hr
    ext <;> simp [qinv, ofRat]
  · ext <;> simp [qinv, ofRat]
    rw [pow_two, eq_comm, inv_eq_iff_eq_inv, inv_div]
    field_simp

instance instZero : Zero Qr5 := ⟨⟨0, 0⟩⟩

instance instOne : One Qr5 := ⟨⟨1, 0⟩⟩

instance instAdd : Add Qr5 := ⟨qadd⟩

instance instNeg : Neg Qr5 := ⟨qneg⟩

instance instMul : Mul Qr5 := ⟨qmul⟩

instance instInv : Inv Qr5 := ⟨qinv⟩

instance instNatCast : NatCast Qr5 := ⟨fun n => ⟨(n : ℚ), 0⟩⟩

instance instIntCast : IntCast Qr5 := ⟨fun n => ⟨(n : ℚ), 0⟩⟩

instance instNNRatCast : NNRatCast Qr5 := ⟨fun q => ⟨(q : ℚ), 0⟩⟩

instance instRatCast : RatCast Qr5 := ⟨fun q => ⟨(q : ℚ), 0⟩⟩

instance instField : Field Qr5 where
  add := qadd
  neg := qneg
  mul := qmul
  inv := qinv
  add_assoc := qadd_assoc
  zero_add := qzero_add
  add_zero := qadd_zero
  add_comm := qadd_comm
  left_distrib := qleft_distrib
  right_distrib := qright_distrib
  zero_mul := qzero_mul
  mul_zero := qmul_zero
  mul_assoc := qmul_assoc
  one_mul := qone_mul
  mul_one := qmul_one
  neg_add_cancel := qneg_add_cancel
  mul_comm := qmul_comm
  exists_pair_ne := ⟨⟨0, 0⟩, ⟨1, 0⟩, by simp⟩
  mul_inv_cancel x hx := qmul_inv_cancel hx
  inv_zero := qinv_zero
  nsmul := nsmulRec
  zsmul := zsmulRec
  natCast n := ⟨(n : ℚ), 0⟩
  natCast_zero := by
    show (⟨((0 : ℕ) : ℚ), 0⟩ : Qr5) = ⟨0, 0⟩
    ext <;> norm_num
  natCast_succ n := by
    show (⟨((n + 1 : ℕ) : ℚ), 0⟩ : Qr5) = qadd ⟨(n : ℚ), 0⟩ ⟨1, 0⟩
    ext <;> simp [qadd]
  intCast n := ⟨(n : ℚ), 0⟩
  intCast_ofNat n := by
    show (⟨(((n : ℕ) : ℤ) : ℚ), 0⟩ : Qr5) = ⟨((n : ℕ) : ℚ), 0⟩
    ext <;> push_cast <;> norm_num
  intCast_negSucc n := by
    show (⟨((Int.negSucc n : ℤ) : ℚ), 0⟩ : Qr5) = qneg ⟨((n + 1 : ℕ) : ℚ), 0⟩
    ext <;> simp [qneg, Int.cast_negSucc]
  nnratCast q := ⟨(q : ℚ), 0⟩
  nnratCast_def q := by
    show ofRat (q : ℚ) = qmul (ofRat ((q.num : ℕ) : ℚ)) (qinv (ofRat ((q.den : ℕ) : ℚ)))
    rw [qinv_ofRat, ofRat_qmul, ← div_eq_mul_inv, ← NNRat.cast_def]
  ratCast q := ⟨(q : ℚ), 0⟩
  ratCast_def q := by
    show ofRat (q : ℚ) = qmul (ofRat ((q.num : ℤ) : ℚ)) (qinv (ofRat ((q.den : ℕ) : ℚ)))
    rw [qinv_ofRat, ofRat_qmul, ← div_eq_mul_inv, Rat.num_div_den]
  nnqsmul := _
  nnqsmul_def := fun _ _ => rfl
  qsmul := _
  qsmul_def := fun _ _ => rfl

@[simp]
theorem zero_def : (0 : Qr5) = ⟨0, 0⟩ := rfl

@[simp]
theorem one_def : (1 : Qr5) = ⟨1, 0⟩ := rfl

@[simp]
theorem add_def (x y : Qr5) : x + y = ⟨x.a + y.a, x.b + y.b⟩ := rfl

@[simp]
theorem neg_def (x : Qr5) : -x = ⟨-x.a, -x.b⟩ := rfl

@[simp]
theorem mul_def (x y : Qr5) : x * y = ⟨x.a * y.a + 5 * (x.b * y.b), x.a * y.b + x.b * y.a⟩ := rfl

@[simp]
theorem inv_def (x : Qr5) :
    x⁻¹ = ⟨x.a / (x.a ^ 2 - 5 * x.b ^ 2), -x.b / (x.a ^ 2 - 5 * x.b ^ 2)⟩ := rfl

end Qr5

/-! ## The finite-element pipeline, modelled from the specification

The solver (`FEMmesh`, `FEMsolver`) is not part of the excerpt; every
definition in this section is modelled from the corresponding section of
the specification (SS 4.1-4.7), generically over a field `F`. -/

section Pipeline

variable {F : Type} [Field F] [DecidableEq F]

/-- A tagged vertex: id, boundary tag and 2D coordinates (spec SS 3). -/
structure Vert (F : Type) where
  vid : ℤ
  tag : ℤ
  x : F
  y : F

/-- A tagged rod cell: id, region tag and the two endpoint vertex ids (spec SS 3). -/
structure Cell where
  cid : ℤ
  tag : ℤ
  va : ℤ
  vb : ℤ
deriving DecidableEq

/-- A validated mesh. -/
structure Mesh (F : Type) where
  verts : List (Vert F)
  cells : List Cell

/-- Modelled from the spec: `FEMmesh` construction (SS 4.1) validates that
vertex ids and cell ids are unique and that every cell references existing
vertex ids, failing with a validation error otherwise. -/
def FEMmesh (verts : List (Vert F)) (cells : List Cell) : Except String (Mesh F) :=
  if ¬ (verts.map Vert.vid).Nodup then
    .error "validation: duplicate vertex id"
  else if ¬ (cells.map Cell.cid).Nodup then
    .error "validation: duplicate cell id"
  else if ¬ (cells.all fun c =>
      (verts.any fun v => v.vid == c.va) && (verts.any fun v => v.vid == c.vb)) then
    .error "validation: cell references a non-existent vertex id"
  else
    .ok ⟨verts, cells⟩

/-- Position of the vertex with a given id in the vertex list. -/
def Mesh.vertIdx (m : Mesh F) (i : ℤ) : ℕ := m.verts.findIdx fun v => v.vid == i

/-- Vertex record with a given id. -/
def Mesh.vertAt (m : Mesh F) (i : ℤ) : Option (Vert F) := m.verts.find? fun v => v.vid == i

/-- Property registry (spec SS 4.2): region tag to `(E, A)`. -/
def Props (F : Type) : Type := List (ℤ × F × F)

/-- Lookup of the property set of a region tag (spec SS 4.2). -/
def lookupProp (pr : Props F) (t : ℤ) : Option (F × F) :=
  (pr.find? fun e => e.1 == t).map (·.2)

/-- Modelled from the spec: the classic two-node truss stiffness matrix
(SS 4.3), `k` times the sign-patterned products of the direction cosines. -/
def rodK (k cx cy : F) : Fin 4 → Fin 4 → F :=
  ![![k * (cx * cx), k * (cx * cy), -(k * (cx * cx)), -(k * (cx * cy))],
    ![k * (cx * cy), k * (cy * cy), -(k * (cx * cy)), -(k * (cy * cy))],
    ![-(k * (cx * cx)), -(k * (cx * cy)), k * (cx * cx), k * (cx * cy)],
    ![-(k * (cx * cy)), -(k * (cy * cy)), k * (cx * cy), k * (cy * cy)]]

/-- Per-element data produced by formulation: endpoint indices, material
parameters, geometry and the local stiffness matrix. -/
structure ElemDat (F : Type) where
  ia : ℕ
  ib : ℕ
  E : F
  A : F
  dx : F
  dy : F
  L : F
  K : Fin 4 → Fin 4 → F

/-- Modelled from the spec: the elastic-rod element formulator (SS 4.3).
`sq` is the square-root operation of the scalar field.  Looks up the two
endpoint vertices and the region properties, computes the length
`L = sq (dx² + dy²)` and fails with a geometry error when `L = 0`. -/
def formulate (sq : F → F) (m : Mesh F) (pr : Props F) (c : Cell) : Except String (ElemDat F) :=
  match m.vertAt c.va, m.vertAt c.vb with
  | some v1, some v2 =>
    match lookupProp pr c.tag with
    | some EA =>
      let dx := v2.x - v1.x
      let dy := v2.y - v1.y
      let L := sq (dx ^ 2 + dy ^ 2)
      if L = 0 then .error "geometry: zero-length rod"
      else .ok ⟨m.vertIdx c.va, m.vertIdx c.vb, EA.1, EA.2, dx, dy, L,
        rodK (EA.1 * EA.2 / L) (dx / L) (dy / L)⟩
    | none => .error "configuration: missing property entry for region tag"
  | _, _ => .error "validation: cell references a non-existent vertex id"

/-- Error-propagating map over a list, first error wins. -/
def exMapM (f : α → Except String β) : List α → Except String (List β)
  | [] => .ok []
  | a :: as =>
    match f a with
    | .error e => .error e
    | .ok b =>
      match exMapM f as with
      | .error e => .error e
      | .ok bs => .ok (b :: bs)

/-- Formulate every cell of the mesh, in list (= cell) order. -/
def formulateAll (sq : F → F) (m : Mesh F) (pr : Props F) : Except String (List (ElemDat F)) :=
  exMapM (formulate sq m pr) m.cells

/-- The four global DOF indices of an element (x then y at each endpoint). -/
def elemDofs (d : ElemDat F) : Fin 4 → ℕ :=
  ![2 * d.ia, 2 * d.ia + 1, 2 * d.ib, 2 * d.ib + 1]

/-- One scatter contribution: local entry `(s, t)` lands on global entry
`(i, j)` exactly when the DOF map sends `s` to `i` and `t` to `j`. -/
def ctb (dofs : Fin 4 → ℕ) (Ke : Fin 4 → Fin 4 → F) (i j : ℕ) (s t : Fin 4) : F :=
  cond (dofs s == i && dofs t == j) (Ke s t) 0

theorem ctb_eq_ite (dofs : Fin 4 → ℕ) (Ke : Fin 4 → Fin 4 → F) (i j : ℕ) (s t : Fin 4) :
    ctb dofs Ke i j s t = if dofs s = i ∧ dofs t = j then Ke s t else 0 := by
  rw [ctb]
  by_cases h1 : dofs s = i <;> by_cases h2 : dofs t = j <;>
    simp [h1, h2, beq_iff_eq, Ne.symm, cond_eq_if]

/-- Modelled from the spec: accumulative scatter-add of one local matrix
into the global stiffness matrix (SS 4.4) — the sixteen local-pair
contributions, summed onto the previous global entry. -/
def scatterAdd (dofs : Fin 4 → ℕ) (Ke : Fin 4 → Fin 4 → F) (K : ℕ → ℕ → F) : ℕ → ℕ → F :=
  fun i j =>
    K i j +
      ((ctb dofs Ke i j 0 0 + ctb dofs Ke i j 0 1 + ctb dofs Ke i j 0 2 + ctb dofs Ke i j 0 3) +
       (ctb dofs Ke i j 1 0 + ctb dofs Ke i j 1 1 + ctb dofs Ke i j 1 2 + ctb dofs Ke i j 1 3) +
       (ctb dofs Ke i j 2 0 + ctb dofs Ke i j 2 1 + ctb dofs Ke i j 2 2 + ctb dofs Ke i j 2 3) +
       (ctb dofs Ke i j 3 0 + ctb dofs Ke i j 3 1 + ctb dofs Ke i j 3 2 + ctb dofs Ke i j 3 3))

theorem scatterAdd_eq_sum (dofs : Fin 4 → ℕ) (Ke : Fin 4 → Fin 4 → F) (K : ℕ → ℕ → F)
    (i j : ℕ) :
    scatterAdd dofs Ke K i j =
      K i j + ∑ s : Fin 4, ∑ t : Fin 4, if dofs s = i ∧ dofs t = j then Ke s t else 0 := by
  simp [scatterAdd, ctb_eq_ite, Fin.sum_univ_four]

/-- Assemble a list of elements on top of an initial global matrix, in
list order (spec SS 4.4). -/
def assembleFrom (K0 : ℕ → ℕ → F) (ds : List (ElemDat F)) : ℕ → ℕ → F :=
  ds.foldl (fun K d => scatterAdd (elemDofs d) d.K K) K0

/-- The assembled global stiffness matrix of a mesh (spec SS 4.4). -/
def assembleK (sq : F → F) (m : Mesh F) (pr : Props F) : Except String (ℕ → ℕ → F) :=
  (formulateAll sq m pr).map (assembleFrom fun _ _ => 0)

end Pipeline

section BCSolve

variable {F : Type} [Field F] [DecidableEq F]

/-- The four direction codes accepted in a vertex boundary-condition entry
(spec SS 6): prescribed displacement `ux`/`uy` or applied load `fx`/`fy`. -/
inductive BCKey
  | ux
  | uy
  | fx
  | fy
deriving DecidableEq, BEq

/-- Classification of one DOF-direction (spec SS 3): essential with a
prescribed displacement, or natural with an applied load. -/
inductive DofBC (F : Type)
  | ess (v : F)
  | nat (f : F)
deriving DecidableEq

/-- A boundary-condition specification: boundary tag to direction entries. -/
def BCSpec (F : Type) : Type := List (ℤ × List (BCKey × F))

/-- Value of a direction code in one tag's entry list. -/
def lookupKey (es : List (BCKey × F)) (k : BCKey) : Option F :=
  (es.find? fun e => e.1 == k).map (·.2)

/-- Modelled from the spec: classification of one direction of one vertex
(SS 4.5).  A prescribed displacement makes the DOF essential; otherwise a
prescribed load (default 0) makes it natural.  When both are present the
essential condition wins and the conflict is flagged (the Boolean). -/
def classifyDir (es : List (BCKey × F)) (uk fk : BCKey) : DofBC F × Bool :=
  match lookupKey es uk, lookupKey es fk with
  | some u, some _ => (.ess u, true)
  | some u, none => (.ess u, false)
  | none, some f => (.nat f, false)
  | none, none => (.nat 0, false)

/-- Classification and conflict flag of a global DOF index (vertex position
`n / 2`, direction `n % 2`) under a boundary-condition specification. -/
def dofState (m : Mesh F) (vb : BCSpec F) (n : ℕ) : DofBC F × Bool :=
  match m.verts.get? (n / 2) with
  | some v =>
    match (vb.find? fun e => e.1 == v.tag).map (·.2) with
    | some es => if n % 2 = 0 then classifyDir es .ux .fx else classifyDir es .uy .fy
    | none => (.nat 0, false)
  | none => (.nat 0, false)

/-- Modelled from the spec: `set_bcs` (SS 4.5) classifies every DOF as
essential or natural and reports conflicting DOFs as warnings (list of DOF
indices), never as an error. -/
def set_bcs (m : Mesh F) (vb : BCSpec F) : (ℕ → DofBC F) × List ℕ :=
  (fun n => (dofState m vb n).1,
   (List.range (2 * m.verts.length)).filter fun n => (dofState m vb n).2)

/-- The free (natural) DOF indices, in increasing order. -/
def freeDofs (bc : ℕ → DofBC F) (nd : ℕ) : List ℕ :=
  (List.range nd).filter fun n =>
    match bc n with
    | .nat _ => true
    | .ess _ => false

/-- The fixed (essential) DOF indices, in increasing order. -/
def fixedDofs (bc : ℕ → DofBC F) (nd : ℕ) : List ℕ :=
  (List.range nd).filter fun n =>
    match bc n with
    | .nat _ => false
    | .ess _ => true

/-- Prescribed-displacement vector `U_c` (zero at natural DOFs). -/
def ucVec (bc : ℕ → DofBC F) (n : ℕ) : F :=
  match bc n with
  | .ess v => v
  | .nat _ => 0

/-- Applied-load vector `F` (zero at essential DOFs). -/
def loadVec (bc : ℕ → DofBC F) (n : ℕ) : F :=
  match bc n with
  | .nat f => f
  | .ess _ => 0

/-- The reduced stiffness matrix `K_ff` on the free DOFs (spec SS 4.6). -/
def reducedMatrix (K : ℕ → ℕ → F) (free : List ℕ) :
    Matrix (Fin free.length) (Fin free.length) F :=
  Matrix.of fun i j => K (free.get i) (free.get j)

/-- The reduced right-hand side `F_f - K_fc · U_c` (spec SS 4.6). -/
def reducedRhs (K : ℕ → ℕ → F) (bc : ℕ → DofBC F) (free fixed : List ℕ) :
    Fin free.length → F :=
  fun i => loadVec bc (free.get i) -
    (fixed.map fun c => K (free.get i) c * ucVec bc c).sum

/-- Compose the full displacement vector from the free solution and the
prescribed values (spec SS 4.6). -/
def composeU (bc : ℕ → DofBC F) (free : List ℕ) (uf : Fin free.length → F) : ℕ → F :=
  fun n =>
    match bc n with
    | .ess v => v
    | .nat _ =>
      if h : n ∈ free then uf ⟨free.indexOf n, List.indexOf_lt_length.mpr h⟩ else 0

/-- Modelled from the spec: the steady equilibrium solve (SS 4.6).
Partitions the DOFs, fails with a singularity error when the reduced
matrix is not invertible, and otherwise solves
`K_ff · U_f = F_f - K_fc · U_c` by the adjugate formula and composes the
full displacement vector. -/
def solve_steady (K : ℕ → ℕ → F) (bc : ℕ → DofBC F) (nd : ℕ) : Except String (ℕ → F) :=
  let free := freeDofs bc nd
  let A := reducedMatrix K free
  if A.det = 0 then .error "singular reduced stiffness matrix"
  else .ok (composeU bc free (A.det⁻¹ • A.adjugate.mulVec (reducedRhs K bc free (fixedDofs bc nd))))

/-- The per-direction displacement arrays exposed by `get_u`, ordered by
vertex id (spec SS 4.7): `ux` at even DOFs, `uy` at odd DOFs. -/
def get_u (u : ℕ → F) (nv : ℕ) : List F × List F :=
  ((List.range nv).map fun i => u (2 * i), (List.range nv).map fun i => u (2 * i + 1))

/-- Axial strain of an element under a displacement field:
projected relative displacement over length (spec SS 4.3). -/
def strain (d : ElemDat F) (u : ℕ → F) : F :=
  ((d.dx / d.L) * (u (2 * d.ib) - u (2 * d.ia)) +
    (d.dy / d.L) * (u (2 * d.ib + 1) - u (2 * d.ia + 1))) / d.L

/-- Axial stress `σ = E · ε` (spec SS 4.3). -/
def stress (d : ElemDat F) (u : ℕ → F) : F := d.E * strain d u

/-- Analysis-session state after the solve: elements, displacement vector
and the per-element stress results `esvs['sa']`. -/
structure AnState (F : Type) where
  elems : List (ElemDat F)
  u : ℕ → F
  esvs : List F

/-- Modelled from the spec: `calc_secondary` (SS 4.7) recovers the axial
stress of every element from the solved displacements, storing them by
element position, and touches nothing else. -/
def calc_secondary (st : AnState F) : AnState F :=
  ⟨st.elems, st.u, st.elems.map fun d => stress d st.u⟩

end BCSolve

/-! ## Square roots and the concrete bridge01 input -/

/-- Integer square root by bounded scan (total, kernel-friendly; only ever
applied to small arguments here). -/
def natSqrtL (n : ℕ) : ℕ :=
  (List.range (n + 2)).foldl (fun acc k => if k * k ≤ n then k else acc) 0

/-- Exact square root of a rational, when it exists. -/
def ratSqrt (q : ℚ) : Option ℚ :=
  if q.den = 1 ∧ 0 ≤ q.num then
    let n := q.num.toNat
    let r := natSqrtL n
    if r * r = n then some ((r : ℕ) : ℚ) else none
  else none

/-- Square root on `ℚ`, defaulting to 0 when no exact root exists. -/
def sqrtQ (q : ℚ) : ℚ := (ratSqrt q).getD 0

/-- Square root on `ℚ(√5)` for arguments of the form `r` or `5·r²`
(covering every length in the bridge); 0 otherwise. -/
def sqrtQ5 (v : Qr5) : Qr5 :=
  if v.b = 0 then
    match ratSqrt v.a with
    | some r => ⟨r, 0⟩
    | none =>
      match ratSqrt (5 * v.a) with
      | some s => ⟨0, s / 5⟩
      | none => 0
  else 0

/-- The bridge01 vertex list (`verts` in `fem/data/bridge01.py`). -/
def bridgeVerts : List (Vert Qr5) :=
  [⟨0, -101, Qr5.ofRat 0, Qr5.ofRat 0⟩,
   ⟨1, 0, Qr5.ofRat 2, Qr5.ofRat 0⟩,
   ⟨2, -102, Qr5.ofRat 4, Qr5.ofRat 0⟩,
   ⟨3, -103, Qr5.ofRat 6, Qr5.ofRat 0⟩,
   ⟨4, 0, Qr5.ofRat 8, Qr5.ofRat 0⟩,
   ⟨5, -104, Qr5.ofRat 10, Qr5.ofRat 0⟩,
   ⟨6, 0, Qr5.ofRat 2, Qr5.ofRat 4⟩,
   ⟨7, 0, Qr5.ofRat 4, Qr5.ofRat 4⟩,
   ⟨8, 0, Qr5.ofRat 6, Qr5.ofRat 4⟩,
   ⟨9, 0, Qr5.ofRat 8, Qr5.ofRat 4⟩]

/-- The bridge01 cell list (`cells` in `fem/data/bridge01.py`). -/
def bridgeCells : List Cell :=
  [⟨0, -1, 0, 1⟩, ⟨1, -1, 1, 2⟩, ⟨2, -1, 2, 3⟩, ⟨3, -1, 3, 4⟩, ⟨4, -1, 4, 5⟩,
   ⟨5, -1, 0, 6⟩, ⟨6, -1, 2, 6⟩, ⟨7, -1, 3, 7⟩, ⟨8, -1, 2, 8⟩, ⟨9, -1, 3, 9⟩,
   ⟨10, -1, 5, 9⟩,
   ⟨11, -1, 1, 6⟩, ⟨12, -1, 2, 7⟩, ⟨13, -1, 3, 8⟩, ⟨14, -1, 4, 9⟩,
   ⟨15, -1, 6, 7⟩, ⟨16, -1, 7, 8⟩, ⟨17, -1, 8, 9⟩]

/-- The bridge01 property map `p = {-1: {'E': 2.1e8, 'A': 0.003}}`. -/
def bridgeProps : Props Qr5 := [(-1, Qr5.ofRat 210000000, Qr5.ofRat (3 / 1000))]

/-- The bridge01 boundary conditions `vb`. -/
def bridgeBCs : BCSpec Qr5 :=
  [(-101, [(BCKey.ux, Qr5.ofRat 0), (BCKey.uy, Qr5.ofRat 0)]),
   (-102, [(BCKey.fy, Qr5.ofRat (-320))]),
   (-103, [(BCKey.fy, Qr5.ofRat (-350))]),
   (-104, [(BCKey.uy, Qr5.ofRat 0)])]

/-- The raw bridge01 mesh record. -/
def bridgeMesh : Mesh Qr5 := ⟨bridgeVerts, bridgeCells⟩

/-- The per-DOF boundary classification of the bridge. -/
def bridgeBc : ℕ → DofBC Qr5 := (set_bcs bridgeMesh bridgeBCs).1

/-- The free DOFs of the bridge (17 of the 20). -/
def bridgeFree : List ℕ := freeDofs bridgeBc 20

/-! ## Shallow Boolean equality tests and list matrices

Used to check concrete `ℚ(√5)` computations by kernel reduction. -/

/-- Boolean equality on `ℤ` via the accelerated `Nat` equality. -/
def intEqb (m n : ℤ) : Bool :=
  match m, n with
  | .ofNat a, .ofNat b => a == b
  | .negSucc a, .negSucc b => a == b
  | _, _ => false

theorem intEqb_eq {m n : ℤ} (h : intEqb m n = true) : m = n := by
  cases m <;> cases n <;> simp_all [intEqb]

/-- Boolean equality on `ℚ` by numerator and denominator. -/
def ratEqb (p q : ℚ) : Bool := intEqb p.num q.num && p.den == q.den

theorem ratEqb_eq {p q : ℚ} (h : ratEqb p q = true) : p = q := by
  rw [ratEqb, Bool.and_eq_true] at h
  exact Rat.ext (intEqb_eq h.1) (beq_iff_eq.mp h.2)

/-- Boolean equality on `ℚ(√5)`, componentwise. -/
def qeqb (x y : Qr5) : Bool := ratEqb x.a y.a && ratEqb x.b y.b

theorem qeqb_eq {x y : Qr5} (h : qeqb x y = true) : x = y := by
  rw [qeqb, Bool.and_eq_true] at h
  exact Qr5.ext2 (ratEqb_eq h.1) (ratEqb_eq h.2)

/-- Boolean equality on lists of `ℚ(√5)` values. -/
def listQeqb : List Qr5 → List Qr5 → Bool
  | [], [] => true
  | x :: xs, y :: ys => qeqb x y && listQeqb xs ys
  | _, _ => false

theorem listQeqb_eq : ∀ {xs ys : List Qr5}, listQeqb xs ys = true → xs = ys
  | [], [], _ => rfl
  | x :: xs, y :: ys, h => by
    rw [listQeqb, Bool.and_eq_true] at h
    rw [qeqb_eq h.1, listQeqb_eq h.2]
  | [], _ :: _, h => by simp [listQeqb] at h
  | _ :: _, [], h => by simp [listQeqb] at h

/-- A square matrix given by a list of row lists (0 outside). -/
def ofList (n : ℕ) (rows : List (List Qr5)) : Matrix (Fin n) (Fin n) Qr5 :=
  Matrix.of fun i j => (rows.getD i.val []).getD j.val 0

/-- List-level product of two square list matrices. -/
def listMatMul (n : ℕ) (r1 r2 : List (List Qr5)) : List (List Qr5) :=
  (List.range n).map fun i => (List.range n).map fun j =>
    ((List.range n).map fun k => (r1.getD i []).getD k 0 * (r2.getD k []).getD j 0).sum

/-- The identity matrix as a list of rows. -/
def idList (n : ℕ) : List (List Qr5) :=
  (List.range n).map fun i => (List.range n).map fun j => if i = j then 1 else 0

theorem getD_map_range {α : Type} (f : ℕ → α) (d : α) {n i : ℕ} (h : i < n) :
    ((List.range n).map f).getD i d = f i := by
  rw [List.getD_eq_getElem?_getD, List.getElem?_eq_getElem (by simpa using h)]
  simp

theorem sum_fin_eq_sum_range_list (H : ℕ → Qr5) (n : ℕ) :
    (∑ k : Fin n, H k.val) = ((List.range n).map H).sum := by
  induction n with
  | zero => simp
  | succ m ih =>
    rw [Fin.sum_univ_castSucc, List.range_succ, List.map_append, List.sum_append, ← ih]
    simp [Fin.coe_castSucc, Fin.val_last]

theorem ofList_mul (n : ℕ) (r1 r2 : List (List Qr5)) :
    ofList n r1 * ofList n r2 = ofList n (listMatMul n r1 r2) := by
  funext i j
  rw [Matrix.mul_apply]
  show (∑ k : Fin n, (r1.getD i.val []).getD k.val 0 * (r2.getD k.val []).getD j.val 0) = _
  rw [sum_fin_eq_sum_range_list (fun k => (r1.getD i.val []).getD k 0 * (r2.getD k []).getD j 0) n]
  show _ = ((listMatMul n r1 r2).getD i.val []).getD j.val 0
  rw [listMatMul, getD_map_range _ _ i.isLt, getD_map_range _ _ j.isLt]

theorem ofList_id (n : ℕ) : ofList n (idList n) = 1 := by
  funext i j
  show ((idList n).getD i.val []).getD j.val 0 = _
  rw [idList, getD_map_range _ _ i.isLt, getD_map_range _ _ j.isLt]
  rw [Matrix.one_apply]
  by_cases hij : i = j
  · simp [hij]
  · rw [if_neg hij, if_neg (fun hv => hij (Fin.ext hv))]

/-! ## Concrete bridge computations -/

/-- The formulated bridge elements, as explicit data. -/
def bridgeElemsL : List (ElemDat Qr5) :=
  [⟨0, 1, ⟨(⟨210000000, 1, by decide, by decide⟩ : ℚ), (⟨0, 1, by decide, by decide⟩ : ℚ)⟩, ⟨(⟨3, 1000, by decide, by decide⟩ : ℚ), (⟨0, 1, by decide, by decide⟩ : ℚ)⟩, ⟨(⟨2, 1, by decide, by decide⟩ : ℚ), (⟨0, 1, by decide, by decide⟩ : ℚ)⟩, ⟨(⟨0, 1, by decide, by decide⟩ : ℚ), (⟨0, 1, by decide, by decide⟩ : ℚ)⟩, ⟨(⟨2, 1, by decide, by decide⟩ : ℚ), (⟨0, 1, by decide, by decide⟩ : ℚ)⟩,
    ![![⟨(⟨315000, 1, by decide, by decide⟩ : ℚ), (⟨0, 1, by decide, by decide⟩ : ℚ)⟩, ⟨(⟨0, 1, by decide, by decide⟩ : ℚ), (⟨0, 1, by decide, by decide⟩ : ℚ)⟩, ⟨(⟨-315000, 1, by decide, by decide⟩ : ℚ), (⟨0, 1, by decide, by decide⟩ : ℚ)⟩, ⟨(⟨0, 1, by decide, by decide⟩ : ℚ), (⟨0, 1, by decide, by decide⟩ : ℚ)⟩],
      ![⟨(⟨0, 1, by decide, by decide⟩ : ℚ), (⟨0, 1, by decide, by decide⟩ : ℚ)⟩, ⟨(⟨0, 1, by decide, by decide⟩ : ℚ), (⟨0, 1, by decide, by decide⟩ : ℚ)⟩, ⟨(⟨0, 1, by decide, by decide⟩ : ℚ), (⟨0, 1, by decide, by decide⟩ : ℚ)⟩, ⟨(⟨0, 1, by decide, by decide⟩ : ℚ), (⟨0, 1, by decide, by decide⟩ : ℚ)⟩],
      ![⟨(⟨-315000, 1, by decide, by decide⟩ : ℚ), (⟨0, 1, by decide, by decide⟩ : ℚ)⟩, ⟨(⟨0, 1, by decide, by decide⟩ : ℚ), (⟨0, 1, by decide, by decide⟩ : ℚ)⟩, ⟨(⟨315000, 1, by decide, by decide⟩ : ℚ), (⟨0, 1, by decide, by decide⟩ : ℚ)⟩, ⟨(⟨0, 1, by decide, by decide⟩ : ℚ), (⟨0, 1, by decide, by decide⟩ : ℚ)⟩],
      ![⟨(⟨0, 1, by decide, by decide⟩ : ℚ), (⟨0, 1, by decide, by decide⟩ : ℚ)⟩, ⟨(⟨0, 1, by decide, by decide⟩ : ℚ), (⟨0, 1, by decide, by decide⟩ : ℚ)⟩, ⟨(⟨0, 1, by decide, by decide⟩ : ℚ), (⟨0, 1, by decide, by decide⟩ : ℚ)⟩, ⟨(⟨0, 1, by decide, by decide⟩ : ℚ), (⟨0, 1, by decide, by decide⟩ : ℚ)⟩]]⟩,
   ⟨1, 2, ⟨(⟨210000000, 1, by decide, by decide⟩ : ℚ), (⟨0, 1, by decide, by decide⟩ : ℚ)⟩, ⟨(⟨3, 1000, by decide, by decide⟩ : ℚ), (⟨0, 1, by decide, by decide⟩ : ℚ)⟩, ⟨(⟨2, 1, by decide, by decide⟩ : ℚ), (⟨0, 1, by decide, by decide⟩ : ℚ)⟩, ⟨(⟨0, 1, by decide, by decide⟩ : ℚ), (⟨0, 1, by decide, by decide⟩ : ℚ)⟩, ⟨(⟨2, 1, by decide, by decide⟩ : ℚ), (⟨0, 1, by decide, by decide⟩ : ℚ)⟩,
    ![![⟨(⟨315000, 1, by decide, by decide⟩ : ℚ), (⟨0, 1, by decide, by decide⟩ : ℚ)⟩, ⟨(⟨0, 1, by decide, by decide⟩ : ℚ), (⟨0, 1, by decide, by decide⟩ : ℚ)⟩, ⟨(⟨-315000, 1, by decide, by decide⟩ : ℚ), (⟨0, 1, by decide, by decide⟩ : ℚ)⟩, ⟨(⟨0, 1, by decide, by decide⟩ : ℚ), (⟨0, 1, by decide, by decide⟩ : ℚ)⟩],
      ![⟨(⟨0, 1, by decide, by decide⟩ : ℚ), (⟨0, 1, by decide, by decide⟩ : ℚ)⟩, ⟨(⟨0, 1, by decide, by decide⟩ : ℚ), (⟨0, 1, by decide, by decide⟩ : ℚ)⟩, ⟨(⟨0, 1, by decide, by decide⟩ : ℚ), (⟨0, 1, by decide, by decide⟩ : ℚ)⟩, ⟨(⟨0, 1, by decide, by decide⟩ : ℚ), (⟨0, 1, by decide, by decide⟩ : ℚ)⟩],
      ![⟨(⟨-315000, 1, by decide, by decide⟩ : ℚ), (⟨0, 1, by decide, by decide⟩ : ℚ)⟩, ⟨(⟨0, 1, by decide, by decide⟩ : ℚ), (⟨0, 1, by decide, by decide⟩ : ℚ)⟩, ⟨(⟨315000, 1, by decide, by decide⟩ : ℚ), (⟨0, 1, by decide, by decide⟩ : ℚ)⟩, ⟨(⟨0, 1, by decide, by decide⟩ : ℚ), (⟨0, 1, by decide, by decide⟩ : ℚ)⟩],
      ![⟨(⟨0, 1, by decide, by decide⟩ : ℚ), (⟨0, 1, by decide, by decide⟩ : ℚ)⟩, ⟨(⟨0, 1, by decide, by decide⟩ : ℚ), (⟨0, 1, by decide, by decide⟩ : ℚ)⟩, ⟨(⟨0, 1, by decide, by decide⟩ : ℚ), (⟨0, 1, by decide, by decide⟩ : ℚ)⟩, ⟨(⟨0, 1, by decide, by decide⟩ : ℚ), (⟨0, 1, by decide, by decide⟩ : ℚ)⟩]]⟩,
   ⟨2, 3, ⟨(⟨210000000, 1, by decide, by decide⟩ : ℚ), (⟨0, 1, by decide, by decide⟩ : ℚ)⟩, ⟨(⟨3, 1000, by decide, by decide⟩ : ℚ), (⟨0, 1, by decide, by decide⟩ : ℚ)⟩, ⟨(⟨2, 1, by decide, by decide⟩ : ℚ), (⟨0, 1, by decide, by decide⟩ : ℚ)⟩, ⟨(⟨0, 1, by decide, by decide⟩ : ℚ), (⟨0, 1, by decide, by decide⟩ : ℚ)⟩, ⟨(⟨2, 1, by decide, by decide⟩ : ℚ), (⟨0, 1, by decide, by decide⟩ : ℚ)⟩,
    ![![⟨(⟨315000, 1, by decide, by decide⟩ : ℚ), (⟨0, 1, by decide, by decide⟩ : ℚ)⟩, ⟨(⟨0, 1, by decide, by decide⟩ : ℚ), (⟨0, 1, by decide, by decide⟩ : ℚ)⟩, ⟨(⟨-315000, 1, by decide, by decide⟩ : ℚ), (⟨0, 1, by decide, by decide⟩ : ℚ)⟩, ⟨(⟨0, 1, by decide, by decide⟩ : ℚ), (⟨0, 1, by decide, by decide⟩ : ℚ)⟩],
      ![⟨(⟨0, 1, by decide, by decide⟩ : ℚ), (⟨0, 1, by decide, by decide⟩ : ℚ)⟩, ⟨(⟨0, 1, by decide, by decide⟩ : ℚ), (⟨0, 1, by decide, by decide⟩ : ℚ)⟩, ⟨(⟨0, 1, by decide, by decide⟩ : ℚ), (⟨0, 1, by decide, by decide⟩ : ℚ)⟩, ⟨(⟨0, 1, by decide, by decide⟩ : ℚ), (⟨0, 1, by decide, by decide⟩ : ℚ)⟩],
      ![⟨(⟨-315000, 1, by decide, by decide⟩ : ℚ), (⟨0, 1, by decide, by decide⟩ : ℚ)⟩, ⟨(⟨0, 1, by decide, by decide⟩ : ℚ), (⟨0, 1, by decide, by decide⟩ : ℚ)⟩, ⟨(⟨315000, 1, by decide, by decide⟩ : ℚ), (⟨0, 1, by decide, by decide⟩ : ℚ)⟩, ⟨(⟨0, 1, by decide, by decide⟩ : ℚ), (⟨0, 1, by decide, by decide⟩ : ℚ)⟩],
      ![⟨(⟨0, 1, by decide, by decide⟩ : ℚ), (⟨0, 1, by decide, by decide⟩ : ℚ)⟩, ⟨(⟨0, 1, by decide, by decide⟩ : ℚ), (⟨0, 1, by decide, by decide⟩ : ℚ)⟩, ⟨(⟨0, 1, by decide, by decide⟩ : ℚ), (⟨0, 1, by decide, by decide⟩ : ℚ)⟩, ⟨(⟨0, 1, by decide, by decide⟩ : ℚ), (⟨0, 1, by decide, by decide⟩ : ℚ)⟩]]⟩,
   ⟨3, 4, ⟨(⟨210000000, 1, by decide, by decide⟩ : ℚ), (⟨0, 1, by decide, by decide⟩ : ℚ)⟩, ⟨(⟨3, 1000, by decide, by decide⟩ : ℚ), (⟨0, 1, by decide, by decide⟩ : ℚ)⟩, ⟨(⟨2, 1, by decide, by decide⟩ : ℚ), (⟨0, 1, by decide, by decide⟩ : ℚ)⟩, ⟨(⟨0, 1, by decide, by decide⟩ : ℚ), (⟨0, 1, by decide, by decide⟩ : ℚ)⟩, ⟨(⟨2, 1, by decide, by decide⟩ : ℚ), (⟨0, 1, by decide, by decide⟩ : ℚ)⟩,
    ![![⟨(⟨315000, 1, by decide, by decide⟩ : ℚ), (⟨0, 1, by decide, by decide⟩ : ℚ)⟩, ⟨(⟨0, 1, by decide, by decide⟩ : ℚ), (⟨0, 1, by decide, by decide⟩ : ℚ)⟩, ⟨(⟨-315000, 1, by decide, by decide⟩ : ℚ), (⟨0, 1, by decide, by decide⟩ : ℚ)⟩, ⟨(⟨0, 1, by decide, by decide⟩ : ℚ), (⟨0, 1, by decide, by decide⟩ : ℚ)⟩],
      ![⟨(⟨0, 1, by decide, by decide⟩ : ℚ), (⟨0, 1, by decide, by decide⟩ : ℚ)⟩, ⟨(⟨0, 1, by decide, by decide⟩ : ℚ), (⟨0, 1, by decide, by decide⟩ : ℚ)⟩, ⟨(⟨0, 1, by decide, by decide⟩ : ℚ), (⟨0, 1, by decide, by decide⟩ : ℚ)⟩, ⟨(⟨0, 1, by decide, by decide⟩ : ℚ), (⟨0, 1, by decide, by decide⟩ : ℚ)⟩],
      ![⟨(⟨-315000, 1, by decide, by decide⟩ : ℚ), (⟨0, 1, by decide, by decide⟩ : ℚ)⟩, ⟨(⟨0, 1, by decide, by decide⟩ : ℚ), (⟨0, 1, by decide, by decide⟩ : ℚ)⟩, ⟨(⟨315000, 1, by decide, by decide⟩ : ℚ), (⟨0, 1, by decide, by decide⟩ : ℚ)⟩, ⟨(⟨0, 1, by decide, by decide⟩ : ℚ), (⟨0, 1, by decide, by decide⟩ : ℚ)⟩],
      ![⟨(⟨0, 1, by decide, by decide⟩ : ℚ), (⟨0, 1, by decide, by decide⟩ : ℚ)⟩, ⟨(⟨0, 1, by decide, by decide⟩ : ℚ), (⟨0, 1, by decide, by decide⟩ : ℚ)⟩, ⟨(⟨0, 1, by decide, by decide⟩ : ℚ), (⟨0, 1, by decide, by decide⟩ : ℚ)⟩, ⟨(⟨0, 1, by decide, by decide⟩ : ℚ), (⟨0, 1, by decide, by decide⟩ : ℚ)⟩]]⟩,
   ⟨4, 5, ⟨(⟨210000000, 1, by decide, by decide⟩ : ℚ), (⟨0, 1, by decide, by decide⟩ : ℚ)⟩, ⟨(⟨3, 1000, by decide, by decide⟩ : ℚ), (⟨0, 1, by decide, by decide⟩ : ℚ)⟩, ⟨(⟨2, 1, by decide, by decide⟩ : ℚ), (⟨0, 1, by decide, by decide⟩ : ℚ)⟩, ⟨(⟨0, 1, by decide, by decide⟩ : ℚ), (⟨0, 1, by decide, by decide⟩ : ℚ)⟩, ⟨(⟨2, 1, by decide, by decide⟩ : ℚ), (⟨0, 1, by decide, by decide⟩ : ℚ)⟩,
    ![![⟨(⟨315000, 1, by decide, by decide⟩ : ℚ), (⟨0, 1, by decide, by decide⟩ : ℚ)⟩, ⟨(⟨0, 1, by decide, by decide⟩ : ℚ), (⟨0, 1, by decide, by decide⟩ : ℚ)⟩, ⟨(⟨-315000, 1, by decide, by decide⟩ : ℚ), (⟨0, 1, by decide, by decide⟩ : ℚ)⟩, ⟨(⟨0, 1, by decide, by decide⟩ : ℚ), (⟨0, 1, by decide, by decide⟩ : ℚ)⟩],
      ![⟨(⟨0, 1, by decide, by decide⟩ : ℚ), (⟨0, 1, by decide, by decide⟩ : ℚ)⟩, ⟨(⟨0, 1, by decide, by decide⟩ : ℚ), (⟨0, 1, by decide, by decide⟩ : ℚ)⟩, ⟨(⟨0, 1, by decide, by decide⟩ : ℚ), (⟨0, 1, by decide, by decide⟩ : ℚ)⟩, ⟨(⟨0, 1, by decide, by decide⟩ : ℚ), (⟨0, 1, by decide, by decide⟩ : ℚ)⟩],
      ![⟨(⟨-315000, 1, by decide, by decide⟩ : ℚ), (⟨0, 1, by decide, by decide⟩ : ℚ)⟩, ⟨(⟨0, 1, by decide, by decide⟩ : ℚ), (⟨0, 1, by decide, by decide⟩ : ℚ)⟩, ⟨(⟨315000, 1, by decide, by decide⟩ : ℚ), (⟨0, 1, by decide, by decide⟩ : ℚ)⟩, ⟨(⟨0, 1, by decide, by decide⟩ : ℚ), (⟨0, 1, by decide, by decide⟩ : ℚ)⟩],
      ![⟨(⟨0, 1, by decide, by decide⟩ : ℚ), (⟨0, 1, by decide, by decide⟩ : ℚ)⟩, ⟨(⟨0, 1, by decide, by decide⟩ : ℚ), (⟨0, 1, by decide, by decide⟩ : ℚ)⟩, ⟨(⟨0, 1, by decide, by decide⟩ : ℚ), (⟨0, 1, by decide, by decide⟩ : ℚ)⟩, ⟨(⟨0, 1, by decide, by decide⟩ : ℚ), (⟨0, 1, by decide, by decide⟩ : ℚ)⟩]]⟩,
   ⟨0, 6, ⟨(⟨210000000, 1, by decide, by decide⟩ : ℚ), (⟨0, 1, by decide, by decide⟩ : ℚ)⟩, ⟨(⟨3, 1000, by decide, by decide⟩ : ℚ), (⟨0, 1, by decide, by decide⟩ : ℚ)⟩, ⟨(⟨2, 1, by decide, by decide⟩ : ℚ), (⟨0, 1, by decide, by decide⟩ : ℚ)⟩, ⟨(⟨4, 1, by decide, by decide⟩ : ℚ), (⟨0, 1, by decide, by decide⟩ : ℚ)⟩, ⟨(⟨0, 1, by decide, by decide⟩ : ℚ), (⟨2, 1, by decide, by decide⟩ : ℚ)⟩,
    ![![⟨(⟨0, 1, by decide, by decide⟩ : ℚ), (⟨12600, 1, by decide, by decide⟩ : ℚ)⟩, ⟨(⟨0, 1, by decide, by decide⟩ : ℚ), (⟨25200, 1, by decide, by decide⟩ : ℚ)⟩, ⟨(⟨0, 1, by decide, by decide⟩ : ℚ), (⟨-12600, 1, by decide, by decide⟩ : ℚ)⟩, ⟨(⟨0, 1, by decide, by decide⟩ : ℚ), (⟨-25200, 1, by decide, by decide⟩ : ℚ)⟩],
      ![⟨(⟨0, 1, by decide, by decide⟩ : ℚ), (⟨25200, 1, by decide, by decide⟩ : ℚ)⟩, ⟨(⟨0, 1, by decide, by decide⟩ : ℚ), (⟨50400, 1, by decide, by decide⟩ : ℚ)⟩, ⟨(⟨0, 1, by decide, by decide⟩ : ℚ), (⟨-25200, 1, by decide, by decide⟩ : ℚ)⟩, ⟨(⟨0, 1, by decide, by decide⟩ : ℚ), (⟨-50400, 1, by decide, by decide⟩ : ℚ)⟩],
      ![⟨(⟨0, 1, by decide, by decide⟩ : ℚ), (⟨-12600, 1, by decide, by decide⟩ : ℚ)⟩, ⟨(⟨0, 1, by decide, by decide⟩ : ℚ), (⟨-25200, 1, by decide, by decide⟩ : ℚ)⟩, ⟨(⟨0, 1, by decide, by decide⟩ : ℚ), (⟨12600, 1, by decide, by decide⟩ : ℚ)⟩, ⟨(⟨0, 1, by decide, by decide⟩ : ℚ), (⟨25200, 1, by decide, by decide⟩ : ℚ)⟩],
      ![⟨(⟨0, 1, by decide, by decide⟩ : ℚ), (⟨-25200, 1, by decide, by decide⟩ : ℚ)⟩, ⟨(⟨0, 1, by decide, by decide⟩ : ℚ), (⟨-50400, 1, by decide, by decide⟩ : ℚ)⟩, ⟨(⟨0, 1, by decide, by decide⟩ : ℚ), (⟨25200, 1, by decide, by decide⟩ : ℚ)⟩, ⟨(⟨0, 1, by decide, by decide⟩ : ℚ), (⟨50400, 1, by decide, by decide⟩ : ℚ)⟩]]⟩,
   ⟨2, 6, ⟨(⟨210000000, 1, by decide, by decide⟩ : ℚ), (⟨0, 1, by decide, by decide⟩ : ℚ)⟩, ⟨(⟨3, 1000, by decide, by decide⟩ : ℚ), (⟨0, 1, by decide, by decide⟩ : ℚ)⟩, ⟨(⟨-2, 1, by decide, by decide⟩ : ℚ), (⟨0, 1, by decide, by decide⟩ : ℚ)⟩, ⟨(⟨4, 1, by decide, by decide⟩ : ℚ), (⟨0, 1, by decide, by decide⟩ : ℚ)⟩, ⟨(⟨0, 1, by decide, by decide⟩ : ℚ), (⟨2, 1, by decide, by decide⟩ : ℚ)⟩,
    ![![⟨(⟨0, 1, by decide, by decide⟩ : ℚ), (⟨12600, 1, by decide, by decide⟩ : ℚ)⟩, ⟨(⟨0, 1, by decide, by decide⟩ : ℚ), (⟨-25200, 1, by decide, by decide⟩ : ℚ)⟩, ⟨(⟨0, 1, by decide, by decide⟩ : ℚ), (⟨-12600, 1, by decide, by decide⟩ : ℚ)⟩, ⟨(⟨0, 1, by decide, by decide⟩ : ℚ), (⟨25200, 1, by decide, by decide⟩ : ℚ)⟩],
      ![⟨(⟨0, 1, by decide, by decide⟩ : ℚ), (⟨-25200, 1, by decide, by decide⟩ : ℚ)⟩, ⟨(⟨0, 1, by decide, by decide⟩ : ℚ), (⟨50400, 1, by decide, by decide⟩ : ℚ)⟩, ⟨(⟨0, 1, by decide, by decide⟩ : ℚ), (⟨25200, 1, by decide, by decide⟩ : ℚ)⟩, ⟨(⟨0, 1, by decide, by decide⟩ : ℚ), (⟨-50400, 1, by decide, by decide⟩ : ℚ)⟩],
      ![⟨(⟨0, 1, by decide, by decide⟩ : ℚ), (⟨-12600, 1, by decide, by decide⟩ : ℚ)⟩, ⟨(⟨0, 1, by decide, by decide⟩ : ℚ), (⟨25200, 1, by decide, by decide⟩ : ℚ)⟩, ⟨(⟨0, 1, by decide, by decide⟩ : ℚ), (⟨12600, 1, by decide, by decide⟩ : ℚ)⟩, ⟨(⟨0, 1, by decide, by decide⟩ : ℚ), (⟨-25200, 1, by decide, by decide⟩ : ℚ)⟩],
      ![⟨(⟨0, 1, by decide, by decide⟩ : ℚ), (⟨25200, 1, by decide, by decide⟩ : ℚ)⟩, ⟨(⟨0, 1, by decide, by decide⟩ : ℚ), (⟨-50400, 1, by decide, by decide⟩ : ℚ)⟩, ⟨(⟨0, 1, by decide, by decide⟩ : ℚ), (⟨-25200, 1, by decide, by decide⟩ : ℚ)⟩, ⟨(⟨0, 1, by decide, by decide⟩ : ℚ), (⟨50400, 1, by decide, by decide⟩ : ℚ)⟩]]⟩,
   ⟨3, 7, ⟨(⟨210000000, 1, by decide, by decide⟩ : ℚ), (⟨0, 1, by decide, by decide⟩ : ℚ)⟩, ⟨(⟨3, 1000, by decide, by decide⟩ : ℚ), (⟨0, 1, by decide, by decide⟩ : ℚ)⟩, ⟨(⟨-2, 1, by decide, by decide⟩ : ℚ), (⟨0, 1, by decide, by decide⟩ : ℚ)⟩, ⟨(⟨4, 1, by decide, by decide⟩ : ℚ), (⟨0, 1, by decide, by decide⟩ : ℚ)⟩, ⟨(⟨0, 1, by decide, by decide⟩ : ℚ), (⟨2, 1, by decide, by decide⟩ : ℚ)⟩,
    ![![⟨(⟨0, 1, by decide, by decide⟩ : ℚ), (⟨12600, 1, by decide, by decide⟩ : ℚ)⟩, ⟨(⟨0, 1, by decide, by decide⟩ : ℚ), (⟨-25200, 1, by decide, by decide⟩ : ℚ)⟩, ⟨(⟨0, 1, by decide, by decide⟩ : ℚ), (⟨-12600, 1, by decide, by decide⟩ : ℚ)⟩, ⟨(⟨0, 1, by decide, by decide⟩ : ℚ), (⟨25200, 1, by decide, by decide⟩ : ℚ)⟩],
      ![⟨(⟨0, 1, by decide, by decide⟩ : ℚ), (⟨-25200, 1, by decide, by decide⟩ : ℚ)⟩, ⟨(⟨0, 1, by decide, by decide⟩ : ℚ), (⟨50400, 1, by decide, by decide⟩ : ℚ)⟩, ⟨(⟨0, 1, by decide, by decide⟩ : ℚ), (⟨25200, 1, by decide, by decide⟩ : ℚ)⟩, ⟨(⟨0, 1, by decide, by decide⟩ : ℚ), (⟨-50400, 1, by decide, by decide⟩ : ℚ)⟩],
      ![⟨(⟨0, 1, by decide, by decide⟩ : ℚ), (⟨-12600, 1, by decide, by decide⟩ : ℚ)⟩, ⟨(⟨0, 1, by decide, by decide⟩ : ℚ), (⟨25200, 1, by decide, by decide⟩ : ℚ)⟩, ⟨(⟨0, 1, by decide, by decide⟩ : ℚ), (⟨12600, 1, by decide, by decide⟩ : ℚ)⟩, ⟨(⟨0, 1, by decide, by decide⟩ : ℚ), (⟨-25200, 1, by decide, by decide⟩ : ℚ)⟩],
      ![⟨(⟨0, 1, by decide, by decide⟩ : ℚ), (⟨25200, 1, by decide, by decide⟩ : ℚ)⟩, ⟨(⟨0, 1, by decide, by decide⟩ : ℚ), (⟨-50400, 1, by decide, by decide⟩ : ℚ)⟩, ⟨(⟨0, 1, by decide, by decide⟩ : ℚ), (⟨-25200, 1, by decide, by decide⟩ : ℚ)⟩, ⟨(⟨0, 1, by decide, by decide⟩ : ℚ), (⟨50400, 1, by decide, by decide⟩ : ℚ)⟩]]⟩,
   ⟨2, 8, ⟨(⟨210000000, 1, by decide, by decide⟩ : ℚ), (⟨0, 1, by decide, by decide⟩ : ℚ)⟩, ⟨(⟨3, 1000, by decide, by decide⟩ : ℚ), (⟨0, 1, by decide, by decide⟩ : ℚ)⟩, ⟨(⟨2, 1, by decide, by decide⟩ : ℚ), (⟨0, 1, by decide, by decide⟩ : ℚ)⟩, ⟨(⟨4, 1, by decide, by decide⟩ : ℚ), (⟨0, 1, by decide, by decide⟩ : ℚ)⟩, ⟨(⟨0, 1, by decide, by decide⟩ : ℚ), (⟨2, 1, by decide, by decide⟩ : ℚ)⟩,
    ![![⟨(⟨0, 1, by decide, by decide⟩ : ℚ), (⟨12600, 1, by decide, by decide⟩ : ℚ)⟩, ⟨(⟨0, 1, by decide, by decide⟩ : ℚ), (⟨25200, 1, by decide, by decide⟩ : ℚ)⟩, ⟨(⟨0, 1, by decide, by decide⟩ : ℚ), (⟨-12600, 1, by decide, by decide⟩ : ℚ)⟩, ⟨(⟨0, 1, by decide, by decide⟩ : ℚ), (⟨-25200, 1, by decide, by decide⟩ : ℚ)⟩],
      ![⟨(⟨0, 1, by decide, by decide⟩ : ℚ), (⟨25200, 1, by decide, by decide⟩ : ℚ)⟩, ⟨(⟨0, 1, by decide, by decide⟩ : ℚ), (⟨50400, 1, by decide, by decide⟩ : ℚ)⟩, ⟨(⟨0, 1, by decide, by decide⟩ : ℚ), (⟨-25200, 1, by decide, by decide⟩ : ℚ)⟩, ⟨(⟨0, 1, by decide, by decide⟩ : ℚ), (⟨-50400, 1, by decide, by decide⟩ : ℚ)⟩],
      ![⟨(⟨0, 1, by decide, by decide⟩ : ℚ), (⟨-12600, 1, by decide, by decide⟩ : ℚ)⟩, ⟨(⟨0, 1, by decide, by decide⟩ : ℚ), (⟨-25200, 1, by decide, by decide⟩ : ℚ)⟩, ⟨(⟨0, 1, by decide, by decide⟩ : ℚ), (⟨12600, 1, by decide, by decide⟩ : ℚ)⟩, ⟨(⟨0, 1, by decide, by decide⟩ : ℚ), (⟨25200, 1, by decide, by decide⟩ : ℚ)⟩],
      ![⟨(⟨0, 1, by decide, by decide⟩ : ℚ), (⟨-25200, 1, by decide, by decide⟩ : ℚ)⟩, ⟨(⟨0, 1, by decide, by decide⟩ : ℚ), (⟨-50400, 1, by decide, by decide⟩ : ℚ)⟩, ⟨(⟨0, 1, by decide, by decide⟩ : ℚ), (⟨25200, 1, by decide, by decide⟩ : ℚ)⟩, ⟨(⟨0, 1, by decide, by decide⟩ : ℚ), (⟨50400, 1, by decide, by decide⟩ : ℚ)⟩]]⟩,
   ⟨3, 9, ⟨(⟨210000000, 1, by decide, by decide⟩ : ℚ), (⟨0, 1, by decide, by decide⟩ : ℚ)⟩, ⟨(⟨3, 1000, by decide, by decide⟩ : ℚ), (⟨0, 1, by decide, by decide⟩ : ℚ)⟩, ⟨(⟨2, 1, by decide, by decide⟩ : ℚ), (⟨0, 1, by decide, by decide⟩ : ℚ)⟩, ⟨(⟨4, 1, by decide, by decide⟩ : ℚ), (⟨0, 1, by decide, by decide⟩ : ℚ)⟩, ⟨(⟨0, 1, by decide, by decide⟩ : ℚ), (⟨2, 1, by decide, by decide⟩ : ℚ)⟩,
    ![![⟨(⟨0, 1, by decide, by decide⟩ : ℚ), (⟨12600, 1, by decide, by decide⟩ : ℚ)⟩, ⟨(⟨0, 1, by decide, by decide⟩ : ℚ), (⟨25200, 1, by decide, by decide⟩ : ℚ)⟩, ⟨(⟨0, 1, by decide, by decide⟩ : ℚ), (⟨-12600, 1, by decide, by decide⟩ : ℚ)⟩, ⟨(⟨0, 1, by decide, by decide⟩ : ℚ), (⟨-25200, 1, by decide, by decide⟩ : ℚ)⟩],
      ![⟨(⟨0, 1, by decide, by decide⟩ : ℚ), (⟨25200, 1, by decide, by decide⟩ : ℚ)⟩, ⟨(⟨0, 1, by decide, by decide⟩ : ℚ), (⟨50400, 1, by decide, by decide⟩ : ℚ)⟩, ⟨(⟨0, 1, by decide, by decide⟩ : ℚ), (⟨-25200, 1, by decide, by decide⟩ : ℚ)⟩, ⟨(⟨0, 1, by decide, by decide⟩ : ℚ), (⟨-50400, 1, by decide, by decide⟩ : ℚ)⟩],
      ![⟨(⟨0, 1, by decide, by decide⟩ : ℚ), (⟨-12600, 1, by decide, by decide⟩ : ℚ)⟩, ⟨(⟨0, 1, by decide, by decide⟩ : ℚ), (⟨-25200, 1, by decide, by decide⟩ : ℚ)⟩, ⟨(⟨0, 1, by decide, by decide⟩ : ℚ), (⟨12600, 1, by decide, by decide⟩ : ℚ)⟩, ⟨(⟨0, 1, by decide, by decide⟩ : ℚ), (⟨25200, 1, by decide, by decide⟩ : ℚ)⟩],
      ![⟨(⟨0, 1, by decide, by decide⟩ : ℚ), (⟨-25200, 1, by decide, by decide⟩ : ℚ)⟩, ⟨(⟨0, 1, by decide, by decide⟩ : ℚ), (⟨-50400, 1, by decide, by decide⟩ : ℚ)⟩, ⟨(⟨0, 1, by decide, by decide⟩ : ℚ), (⟨25200, 1, by decide, by decide⟩ : ℚ)⟩, ⟨(⟨0, 1, by decide, by decide⟩ : ℚ), (⟨50400, 1, by decide, by decide⟩ : ℚ)⟩]]⟩,
   ⟨5, 9, ⟨(⟨210000000, 1, by decide, by decide⟩ : ℚ), (⟨0, 1, by decide, by decide⟩ : ℚ)⟩, ⟨(⟨3, 1000, by decide, by decide⟩ : ℚ), (⟨0, 1, by decide, by decide⟩ : ℚ)⟩, ⟨(⟨-2, 1, by decide, by decide⟩ : ℚ), (⟨0, 1, by decide, by decide⟩ : ℚ)⟩, ⟨(⟨4, 1, by decide, by decide⟩ : ℚ), (⟨0, 1, by decide, by decide⟩ : ℚ)⟩, ⟨(⟨0, 1, by decide, by decide⟩ : ℚ), (⟨2, 1, by decide, by decide⟩ : ℚ)⟩,
    ![![⟨(⟨0, 1, by decide, by decide⟩ : ℚ), (⟨12600, 1, by decide, by decide⟩ : ℚ)⟩, ⟨(⟨0, 1, by decide, by decide⟩ : ℚ), (⟨-25200, 1, by decide, by decide⟩ : ℚ)⟩, ⟨(⟨0, 1, by decide, by decide⟩ : ℚ), (⟨-12600, 1, by decide, by decide⟩ : ℚ)⟩, ⟨(⟨0, 1, by decide, by decide⟩ : ℚ), (⟨25200, 1, by decide, by decide⟩ : ℚ)⟩],
      ![⟨(⟨0, 1, by decide, by decide⟩ : ℚ), (⟨-25200, 1, by decide, by decide⟩ : ℚ)⟩, ⟨(⟨0, 1, by decide, by decide⟩ : ℚ), (⟨50400, 1, by decide, by decide⟩ : ℚ)⟩, ⟨(⟨0, 1, by decide, by decide⟩ : ℚ), (⟨25200, 1, by decide, by decide⟩ : ℚ)⟩, ⟨(⟨0, 1, by decide, by decide⟩ : ℚ), (⟨-50400, 1, by decide, by decide⟩ : ℚ)⟩],
      ![⟨(⟨0, 1, by decide, by decide⟩ : ℚ), (⟨-12600, 1, by decide, by decide⟩ : ℚ)⟩, ⟨(⟨0, 1, by decide, by decide⟩ : ℚ), (⟨25200, 1, by decide, by decide⟩ : ℚ)⟩, ⟨(⟨0, 1, by decide, by decide⟩ : ℚ), (⟨12600, 1, by decide, by decide⟩ : ℚ)⟩, ⟨(⟨0, 1, by decide, by decide⟩ : ℚ), (⟨-25200, 1, by decide, by decide⟩ : ℚ)⟩],
      ![⟨(⟨0, 1, by decide, by decide⟩ : ℚ), (⟨25200, 1, by decide, by decide⟩ : ℚ)⟩, ⟨(⟨0, 1, by decide, by decide⟩ : ℚ), (⟨-50400, 1, by decide, by decide⟩ : ℚ)⟩, ⟨(⟨0, 1, by decide, by decide⟩ : ℚ), (⟨-25200, 1, by decide, by decide⟩ : ℚ)⟩, ⟨(⟨0, 1, by decide, by decide⟩ : ℚ), (⟨50400, 1, by decide, by decide⟩ : ℚ)⟩]]⟩,
   ⟨1, 6, ⟨(⟨210000000, 1, by decide, by decide⟩ : ℚ), (⟨0, 1, by decide, by decide⟩ : ℚ)⟩, ⟨(⟨3, 1000, by decide, by decide⟩ : ℚ), (⟨0, 1, by decide, by decide⟩ : ℚ)⟩, ⟨(⟨0, 1, by decide, by decide⟩ : ℚ), (⟨0, 1, by decide, by decide⟩ : ℚ)⟩, ⟨(⟨4, 1, by decide, by decide⟩ : ℚ), (⟨0, 1, by decide, by decide⟩ : ℚ)⟩, ⟨(⟨4, 1, by decide, by decide⟩ : ℚ), (⟨0, 1, by decide, by decide⟩ : ℚ)⟩,
    ![![⟨(⟨0, 1, by decide, by decide⟩ : ℚ), (⟨0, 1, by decide, by decide⟩ : ℚ)⟩, ⟨(⟨0, 1, by decide, by decide⟩ : ℚ), (⟨0, 1, by decide, by decide⟩ : ℚ)⟩, ⟨(⟨0, 1, by decide, by decide⟩ : ℚ), (⟨0, 1, by decide, by decide⟩ : ℚ)⟩, ⟨(⟨0, 1, by decide, by decide⟩ : ℚ), (⟨0, 1, by decide, by decide⟩ : ℚ)⟩],
      ![⟨(⟨0, 1, by decide, by decide⟩ : ℚ), (⟨0, 1, by decide, by decide⟩ : ℚ)⟩, ⟨(⟨157500, 1, by decide, by decide⟩ : ℚ), (⟨0, 1, by decide, by decide⟩ : ℚ)⟩, ⟨(⟨0, 1, by decide, by decide⟩ : ℚ), (⟨0, 1, by decide, by decide⟩ : ℚ)⟩, ⟨(⟨-157500, 1, by decide, by decide⟩ : ℚ), (⟨0, 1, by decide, by decide⟩ : ℚ)⟩],
      ![⟨(⟨0, 1, by decide, by decide⟩ : ℚ), (⟨0, 1, by decide, by decide⟩ : ℚ)⟩, ⟨(⟨0, 1, by decide, by decide⟩ : ℚ), (⟨0, 1, by decide, by decide⟩ : ℚ)⟩, ⟨(⟨0, 1, by decide, by decide⟩ : ℚ), (⟨0, 1, by decide, by decide⟩ : ℚ)⟩, ⟨(⟨0, 1, by decide, by decide⟩ : ℚ), (⟨0, 1, by decide, by decide⟩ : ℚ)⟩],
      ![⟨(⟨0, 1, by decide, by decide⟩ : ℚ), (⟨0, 1, by decide, by decide⟩ : ℚ)⟩, ⟨(⟨-157500, 1, by decide, by decide⟩ : ℚ), (⟨0, 1, by decide, by decide⟩ : ℚ)⟩, ⟨(⟨0, 1, by decide, by decide⟩ : ℚ), (⟨0, 1, by decide, by decide⟩ : ℚ)⟩, ⟨(⟨157500, 1, by decide, by decide⟩ : ℚ), (⟨0, 1, by decide, by decide⟩ : ℚ)⟩]]⟩,
   ⟨2, 7, ⟨(⟨210000000, 1, by decide, by decide⟩ : ℚ), (⟨0, 1, by decide, by decide⟩ : ℚ)⟩, ⟨(⟨3, 1000, by decide, by decide⟩ : ℚ), (⟨0, 1, by decide, by decide⟩ : ℚ)⟩, ⟨(⟨0, 1, by decide, by decide⟩ : ℚ), (⟨0, 1, by decide, by decide⟩ : ℚ)⟩, ⟨(⟨4, 1, by decide, by decide⟩ : ℚ), (⟨0, 1, by decide, by decide⟩ : ℚ)⟩, ⟨(⟨4, 1, by decide, by decide⟩ : ℚ), (⟨0, 1, by decide, by decide⟩ : ℚ)⟩,
    ![![⟨(⟨0, 1, by decide, by decide⟩ : ℚ), (⟨0, 1, by decide, by decide⟩ : ℚ)⟩, ⟨(⟨0, 1, by decide, by decide⟩ : ℚ), (⟨0, 1, by decide, by decide⟩ : ℚ)⟩, ⟨(⟨0, 1, by decide, by decide⟩ : ℚ), (⟨0, 1, by decide, by decide⟩ : ℚ)⟩, ⟨(⟨0, 1, by decide, by decide⟩ : ℚ), (⟨0, 1, by decide, by decide⟩ : ℚ)⟩],
      ![⟨(⟨0, 1, by decide, by decide⟩ : ℚ), (⟨0, 1, by decide, by decide⟩ : ℚ)⟩, ⟨(⟨157500, 1, by decide, by decide⟩ : ℚ), (⟨0, 1, by decide, by decide⟩ : ℚ)⟩, ⟨(⟨0, 1, by decide, by decide⟩ : ℚ), (⟨0, 1, by decide, by decide⟩ : ℚ)⟩, ⟨(⟨-157500, 1, by decide, by decide⟩ : ℚ), (⟨0, 1, by decide, by decide⟩ : ℚ)⟩],
      ![⟨(⟨0, 1, by decide, by decide⟩ : ℚ), (⟨0, 1, by decide, by decide⟩ : ℚ)⟩, ⟨(⟨0, 1, by decide, by decide⟩ : ℚ), (⟨0, 1, by decide, by decide⟩ : ℚ)⟩, ⟨(⟨0, 1, by decide, by decide⟩ : ℚ), (⟨0, 1, by decide, by decide⟩ : ℚ)⟩, ⟨(⟨0, 1, by decide, by decide⟩ : ℚ), (⟨0, 1, by decide, by decide⟩ : ℚ)⟩],
      ![⟨(⟨0, 1, by decide, by decide⟩ : ℚ), (⟨0, 1, by decide, by decide⟩ : ℚ)⟩, ⟨(⟨-157500, 1, by decide, by decide⟩ : ℚ), (⟨0, 1, by decide, by decide⟩ : ℚ)⟩, ⟨(⟨0, 1, by decide, by decide⟩ : ℚ), (⟨0, 1, by decide, by decide⟩ : ℚ)⟩, ⟨(⟨157500, 1, by decide, by decide⟩ : ℚ), (⟨0, 1, by decide, by decide⟩ : ℚ)⟩]]⟩,
   ⟨3, 8, ⟨(⟨210000000, 1, by decide, by decide⟩ : ℚ), (⟨0, 1, by decide, by decide⟩ : ℚ)⟩, ⟨(⟨3, 1000, by decide, by decide⟩ : ℚ), (⟨0, 1, by decide, by decide⟩ : ℚ)⟩, ⟨(⟨0, 1, by decide, by decide⟩ : ℚ), (⟨0, 1, by decide, by decide⟩ : ℚ)⟩, ⟨(⟨4, 1, by decide, by decide⟩ : ℚ), (⟨0, 1, by decide, by decide⟩ : ℚ)⟩, ⟨(⟨4, 1, by decide, by decide⟩ : ℚ), (⟨0, 1, by decide, by decide⟩ : ℚ)⟩,
    ![![⟨(⟨0, 1, by decide, by decide⟩ : ℚ), (⟨0, 1, by decide, by decide⟩ : ℚ)⟩, ⟨(⟨0, 1, by decide, by decide⟩ : ℚ), (⟨0, 1, by decide, by decide⟩ : ℚ)⟩, ⟨(⟨0, 1, by decide, by decide⟩ : ℚ), (⟨0, 1, by decide, by decide⟩ : ℚ)⟩, ⟨(⟨0, 1, by decide, by decide⟩ : ℚ), (⟨0, 1, by decide, by decide⟩ : ℚ)⟩],
      ![⟨(⟨0, 1, by decide, by decide⟩ : ℚ), (⟨0, 1, by decide, by decide⟩ : ℚ)⟩, ⟨(⟨157500, 1, by decide, by decide⟩ : ℚ), (⟨0, 1, by decide, by decide⟩ : ℚ)⟩, ⟨(⟨0, 1, by decide, by decide⟩ : ℚ), (⟨0, 1, by decide, by decide⟩ : ℚ)⟩, ⟨(⟨-157500, 1, by decide, by decide⟩ : ℚ), (⟨0, 1, by decide, by decide⟩ : ℚ)⟩],
      ![⟨(⟨0, 1, by decide, by decide⟩ : ℚ), (⟨0, 1, by decide, by decide⟩ : ℚ)⟩, ⟨(⟨0, 1, by decide, by decide⟩ : ℚ), (⟨0, 1, by decide, by decide⟩ : ℚ)⟩, ⟨(⟨0, 1, by decide, by decide⟩ : ℚ), (⟨0, 1, by decide, by decide⟩ : ℚ)⟩, ⟨(⟨0, 1, by decide, by decide⟩ : ℚ), (⟨0, 1, by decide, by decide⟩ : ℚ)⟩],
      ![⟨(⟨0, 1, by decide, by decide⟩ : ℚ), (⟨0, 1, by decide, by decide⟩ : ℚ)⟩, ⟨(⟨-157500, 1, by decide, by decide⟩ : ℚ), (⟨0, 1, by decide, by decide⟩ : ℚ)⟩, ⟨(⟨0, 1, by decide, by decide⟩ : ℚ), (⟨0, 1, by decide, by decide⟩ : ℚ)⟩, ⟨(⟨157500, 1, by decide, by decide⟩ : ℚ), (⟨0, 1, by decide, by decide⟩ : ℚ)⟩]]⟩,
   ⟨4, 9, ⟨(⟨210000000, 1, by decide, by decide⟩ : ℚ), (⟨0, 1, by decide, by decide⟩ : ℚ)⟩, ⟨(⟨3, 1000, by decide, by decide⟩ : ℚ), (⟨0, 1, by decide, by decide⟩ : ℚ)⟩, ⟨(⟨0, 1, by decide, by decide⟩ : ℚ), (⟨0, 1, by decide, by decide⟩ : ℚ)⟩, ⟨(⟨4, 1, by decide, by decide⟩ : ℚ), (⟨0, 1, by decide, by decide⟩ : ℚ)⟩, ⟨(⟨4, 1, by decide, by decide⟩ : ℚ), (⟨0, 1, by decide, by decide⟩ : ℚ)⟩,
    ![![⟨(⟨0, 1, by decide, by decide⟩ : ℚ), (⟨0, 1, by decide, by decide⟩ : ℚ)⟩, ⟨(⟨0, 1, by decide, by decide⟩ : ℚ), (⟨0, 1, by decide, by decide⟩ : ℚ)⟩, ⟨(⟨0, 1, by decide, by decide⟩ : ℚ), (⟨0, 1, by decide, by decide⟩ : ℚ)⟩, ⟨(⟨0, 1, by decide, by decide⟩ : ℚ), (⟨0, 1, by decide, by decide⟩ : ℚ)⟩],
      ![⟨(⟨0, 1, by decide, by decide⟩ : ℚ), (⟨0, 1, by decide, by decide⟩ : ℚ)⟩, ⟨(⟨157500, 1, by decide, by decide⟩ : ℚ), (⟨0, 1, by decide, by decide⟩ : ℚ)⟩, ⟨(⟨0, 1, by decide, by decide⟩ : ℚ), (⟨0, 1, by decide, by decide⟩ : ℚ)⟩, ⟨(⟨-157500, 1, by decide, by decide⟩ : ℚ), (⟨0, 1, by decide, by decide⟩ : ℚ)⟩],
      ![⟨(⟨0, 1, by decide, by decide⟩ : ℚ), (⟨0, 1, by decide, by decide⟩ : ℚ)⟩, ⟨(⟨0, 1, by decide, by decide⟩ : ℚ), (⟨0, 1, by decide, by decide⟩ : ℚ)⟩, ⟨(⟨0, 1, by decide, by decide⟩ : ℚ), (⟨0, 1, by decide, by decide⟩ : ℚ)⟩, ⟨(⟨0, 1, by decide, by decide⟩ : ℚ), (⟨0, 1, by decide, by decide⟩ : ℚ)⟩],
      ![⟨(⟨0, 1, by decide, by decide⟩ : ℚ), (⟨0, 1, by decide, by decide⟩ : ℚ)⟩, ⟨(⟨-157500, 1, by decide, by decide⟩ : ℚ), (⟨0, 1, by decide, by decide⟩ : ℚ)⟩, ⟨(⟨0, 1, by decide, by decide⟩ : ℚ), (⟨0, 1, by decide, by decide⟩ : ℚ)⟩, ⟨(⟨157500, 1, by decide, by decide⟩ : ℚ), (⟨0, 1, by decide, by decide⟩ : ℚ)⟩]]⟩,
   ⟨6, 7, ⟨(⟨210000000, 1, by decide, by decide⟩ : ℚ), (⟨0, 1, by decide, by decide⟩ : ℚ)⟩, ⟨(⟨3, 1000, by decide, by decide⟩ : ℚ), (⟨0, 1, by decide, by decide⟩ : ℚ)⟩, ⟨(⟨2, 1, by decide, by decide⟩ : ℚ), (⟨0, 1, by decide, by decide⟩ : ℚ)⟩, ⟨(⟨0, 1, by decide, by decide⟩ : ℚ), (⟨0, 1, by decide, by decide⟩ : ℚ)⟩, ⟨(⟨2, 1, by decide, by decide⟩ : ℚ), (⟨0, 1, by decide, by decide⟩ : ℚ)⟩,
    ![![⟨(⟨315000, 1, by decide, by decide⟩ : ℚ), (⟨0, 1, by decide, by decide⟩ : ℚ)⟩, ⟨(⟨0, 1, by decide, by decide⟩ : ℚ), (⟨0, 1, by decide, by decide⟩ : ℚ)⟩, ⟨(⟨-315000, 1, by decide, by decide⟩ : ℚ), (⟨0, 1, by decide, by decide⟩ : ℚ)⟩, ⟨(⟨0, 1, by decide, by decide⟩ : ℚ), (⟨0, 1, by decide, by decide⟩ : ℚ)⟩],
      ![⟨(⟨0, 1, by decide, by decide⟩ : ℚ), (⟨0, 1, by decide, by decide⟩ : ℚ)⟩, ⟨(⟨0, 1, by decide, by decide⟩ : ℚ), (⟨0, 1, by decide, by decide⟩ : ℚ)⟩, ⟨(⟨0, 1, by decide, by decide⟩ : ℚ), (⟨0, 1, by decide, by decide⟩ : ℚ)⟩, ⟨(⟨0, 1, by decide, by decide⟩ : ℚ), (⟨0, 1, by decide, by decide⟩ : ℚ)⟩],
      ![⟨(⟨-315000, 1, by decide, by decide⟩ : ℚ), (⟨0, 1, by decide, by decide⟩ : ℚ)⟩, ⟨(⟨0, 1, by decide, by decide⟩ : ℚ), (⟨0, 1, by decide, by decide⟩ : ℚ)⟩, ⟨(⟨315000, 1, by decide, by decide⟩ : ℚ), (⟨0, 1, by decide, by decide⟩ : ℚ)⟩, ⟨(⟨0, 1, by decide, by decide⟩ : ℚ), (⟨0, 1, by decide, by decide⟩ : ℚ)⟩],
      ![⟨(⟨0, 1, by decide, by decide⟩ : ℚ), (⟨0, 1, by decide, by decide⟩ : ℚ)⟩, ⟨(⟨0, 1, by decide, by decide⟩ : ℚ), (⟨0, 1, by decide, by decide⟩ : ℚ)⟩, ⟨(⟨0, 1, by decide, by decide⟩ : ℚ), (⟨0, 1, by decide, by decide⟩ : ℚ)⟩, ⟨(⟨0, 1, by decide, by decide⟩ : ℚ), (⟨0, 1, by decide, by decide⟩ : ℚ)⟩]]⟩,
   ⟨7, 8, ⟨(⟨210000000, 1, by decide, by decide⟩ : ℚ), (⟨0, 1, by decide, by decide⟩ : ℚ)⟩, ⟨(⟨3, 1000, by decide, by decide⟩ : ℚ), (⟨0, 1, by decide, by decide⟩ : ℚ)⟩, ⟨(⟨2, 1, by decide, by decide⟩ : ℚ), (⟨0, 1, by decide, by decide⟩ : ℚ)⟩, ⟨(⟨0, 1, by decide, by decide⟩ : ℚ), (⟨0, 1, by decide, by decide⟩ : ℚ)⟩, ⟨(⟨2, 1, by decide, by decide⟩ : ℚ), (⟨0, 1, by decide, by decide⟩ : ℚ)⟩,
    ![![⟨(⟨315000, 1, by decide, by decide⟩ : ℚ), (⟨0, 1, by decide, by decide⟩ : ℚ)⟩, ⟨(⟨0, 1, by decide, by decide⟩ : ℚ), (⟨0, 1, by decide, by decide⟩ : ℚ)⟩, ⟨(⟨-315000, 1, by decide, by decide⟩ : ℚ), (⟨0, 1, by decide, by decide⟩ : ℚ)⟩, ⟨(⟨0, 1, by decide, by decide⟩ : ℚ), (⟨0, 1, by decide, by decide⟩ : ℚ)⟩],
      ![⟨(⟨0, 1, by decide, by decide⟩ : ℚ), (⟨0, 1, by decide, by decide⟩ : ℚ)⟩, ⟨(⟨0, 1, by decide, by decide⟩ : ℚ), (⟨0, 1, by decide, by decide⟩ : ℚ)⟩, ⟨(⟨0, 1, by decide, by decide⟩ : ℚ), (⟨0, 1, by decide, by decide⟩ : ℚ)⟩, ⟨(⟨0, 1, by decide, by decide⟩ : ℚ), (⟨0, 1, by decide, by decide⟩ : ℚ)⟩],
      ![⟨(⟨-315000, 1, by decide, by decide⟩ : ℚ), (⟨0, 1, by decide, by decide⟩ : ℚ)⟩, ⟨(⟨0, 1, by decide, by decide⟩ : ℚ), (⟨0, 1, by decide, by decide⟩ : ℚ)⟩, ⟨(⟨315000, 1, by decide, by decide⟩ : ℚ), (⟨0, 1, by decide, by decide⟩ : ℚ)⟩, ⟨(⟨0, 1, by decide, by decide⟩ : ℚ), (⟨0, 1, by decide, by decide⟩ : ℚ)⟩],
      ![⟨(⟨0, 1, by decide, by decide⟩ : ℚ), (⟨0, 1, by decide, by decide⟩ : ℚ)⟩, ⟨(⟨0, 1, by decide, by decide⟩ : ℚ), (⟨0, 1, by decide, by decide⟩ : ℚ)⟩, ⟨(⟨0, 1, by decide, by decide⟩ : ℚ), (⟨0, 1, by decide, by decide⟩ : ℚ)⟩, ⟨(⟨0, 1, by decide, by decide⟩ : ℚ), (⟨0, 1, by decide, by decide⟩ : ℚ)⟩]]⟩,
   ⟨8, 9, ⟨(⟨210000000, 1, by decide, by decide⟩ : ℚ), (⟨0, 1, by decide, by decide⟩ : ℚ)⟩, ⟨(⟨3, 1000, by decide, by decide⟩ : ℚ), (⟨0, 1, by decide, by decide⟩ : ℚ)⟩, ⟨(⟨2, 1, by decide, by decide⟩ : ℚ), (⟨0, 1, by decide, by decide⟩ : ℚ)⟩, ⟨(⟨0, 1, by decide, by decide⟩ : ℚ), (⟨0, 1, by decide, by decide⟩ : ℚ)⟩, ⟨(⟨2, 1, by decide, by decide⟩ : ℚ), (⟨0, 1, by decide, by decide⟩ : ℚ)⟩,
    ![![⟨(⟨315000, 1, by decide, by decide⟩ : ℚ), (⟨0, 1, by decide, by decide⟩ : ℚ)⟩, ⟨(⟨0, 1, by decide, by decide⟩ : ℚ), (⟨0, 1, by decide, by decide⟩ : ℚ)⟩, ⟨(⟨-315000, 1, by decide, by decide⟩ : ℚ), (⟨0, 1, by decide, by decide⟩ : ℚ)⟩, ⟨(⟨0, 1, by decide, by decide⟩ : ℚ), (⟨0, 1, by decide, by decide⟩ : ℚ)⟩],
      ![⟨(⟨0, 1, by decide, by decide⟩ : ℚ), (⟨0, 1, by decide, by decide⟩ : ℚ)⟩, ⟨(⟨0, 1, by decide, by decide⟩ : ℚ), (⟨0, 1, by decide, by decide⟩ : ℚ)⟩, ⟨(⟨0, 1, by decide, by decide⟩ : ℚ), (⟨0, 1, by decide, by decide⟩ : ℚ)⟩, ⟨(⟨0, 1, by decide, by decide⟩ : ℚ), (⟨0, 1, by decide, by decide⟩ : ℚ)⟩],
      ![⟨(⟨-315000, 1, by decide, by decide⟩ : ℚ), (⟨0, 1, by decide, by decide⟩ : ℚ)⟩, ⟨(⟨0, 1, by decide, by decide⟩ : ℚ), (⟨0, 1, by decide, by decide⟩ : ℚ)⟩, ⟨(⟨315000, 1, by decide, by decide⟩ : ℚ), (⟨0, 1, by decide, by decide⟩ : ℚ)⟩, ⟨(⟨0, 1, by decide, by decide⟩ : ℚ), (⟨0, 1, by decide, by decide⟩ : ℚ)⟩],
      ![⟨(⟨0, 1, by decide, by decide⟩ : ℚ), (⟨0, 1, by decide, by decide⟩ : ℚ)⟩, ⟨(⟨0, 1, by decide, by decide⟩ : ℚ), (⟨0, 1, by decide, by decide⟩ : ℚ)⟩, ⟨(⟨0, 1, by decide, by decide⟩ : ℚ), (⟨0, 1, by decide, by decide⟩ : ℚ)⟩, ⟨(⟨0, 1, by decide, by decide⟩ : ℚ), (⟨0, 1, by decide, by decide⟩ : ℚ)⟩]]⟩]

set_option maxRecDepth 2000 in
/-- Formulating every bridge cell succeeds and yields the explicit
element data. -/
theorem bridge_formulateAll :
    formulateAll sqrtQ5 bridgeMesh bridgeProps = .ok bridgeElemsL := by
  with_unfolding_all rfl

/-- The assembled global stiffness matrix of the bridge. -/
def bridgeK : ℕ → ℕ → Qr5 := assembleFrom (fun _ _ => 0) bridgeElemsL

/-- The free DOFs of the bridge, as a literal list. -/
def bridgeFreeL : List ℕ := [2, 3, 4, 5, 6, 7, 8, 9, 10, 12, 13, 14, 15, 16, 17, 18, 19]

/-- The fixed DOFs of the bridge, as a literal list. -/
def bridgeFixedL : List ℕ := [0, 1, 11]

theorem bridgeFree_eq : freeDofs bridgeBc 20 = bridgeFreeL := by
  with_unfolding_all rfl

theorem bridgeFixed_eq : fixedDofs bridgeBc 20 = bridgeFixedL := by
  with_unfolding_all rfl



/-! ### Integer-level check of matrix identities over `ℤ[√5]` -/

/-- `ℤ[√5]`, used for fast certificate checking: `⟨a, b⟩` is `a + b·√5`. -/
structure Zr5 where
  a : ℤ
  b : ℤ
deriving DecidableEq

/-- Addition in `ℤ[√5]`. -/
def zadd (x y : Zr5) : Zr5 := ⟨x.a + y.a, x.b + y.b⟩

/-- Multiplication in `ℤ[√5]`. -/
def zmul (x y : Zr5) : Zr5 := ⟨x.a * y.a + 5 * (x.b * y.b), x.a * y.b + x.b * y.a⟩

/-- Sum of a list over `ℤ[√5]`. -/
def zsum : List Zr5 → Zr5
  | [] => ⟨0, 0⟩
  | x :: xs => zadd x (zsum xs)

/-- Integer-level square matrix product. -/
def zMatMul (m : ℕ) (r1 r2 : List (List Zr5)) : List (List Zr5) :=
  (List.range m).map fun i => (List.range m).map fun j =>
    zsum ((List.range m).map fun k =>
      zmul ((r1.getD i []).getD k ⟨0, 0⟩) ((r2.getD k []).getD j ⟨0, 0⟩))

/-- The diagonal matrix `d · 1` over `ℤ[√5]`. -/
def zdiag (m : ℕ) (d : ℤ) : List (List Zr5) :=
  (List.range m).map fun i => (List.range m).map fun j =>
    if i = j then ⟨d, 0⟩ else ⟨0, 0⟩

/-- Evaluation of `ℤ[√5]` into `ℚ(√5)`. -/
def toQr5 (x : Zr5) : Qr5 := ⟨(x.a : ℚ), (x.b : ℚ)⟩

/-- Apply a function to every entry of a list matrix. -/
def mapmat {α β : Type} (f : α → β) (rows : List (List α)) : List (List β) :=
  rows.map (List.map f)

theorem toQr5_zero : toQr5 ⟨0, 0⟩ = 0 := by
  ext <;> simp [toQr5]

theorem toQr5_zadd (x y : Zr5) : toQr5 (zadd x y) = toQr5 x + toQr5 y := by
  ext <;> simp [toQr5, zadd, Qr5.qadd] <;> push_cast <;> ring

theorem toQr5_zmul (x y : Zr5) : toQr5 (zmul x y) = toQr5 x * toQr5 y := by
  ext <;> simp [toQr5, zmul, Qr5.qmul] <;> push_cast <;> ring

theorem toQr5_zsum (l : List Zr5) : toQr5 (zsum l) = (l.map toQr5).sum := by
  induction l with
  | nil => simpa using toQr5_zero
  | cons x xs ih => rw [zsum, toQr5_zadd, ih, List.map_cons, List.sum_cons]

theorem getD_mapmat {α β : Type} (f : α → β) (rows : List (List α)) (i : ℕ) :
    (mapmat f rows).getD i [] = (rows.getD i []).map f := by
  by_cases hi : i < rows.length
  · rw [List.getD_eq_getElem _ _ (by simpa [mapmat] using hi),
      List.getD_eq_getElem _ _ hi]
    simp [mapmat]
  · rw [List.getD_eq_getElem?_getD, List.getElem?_eq_none (by simpa [mapmat] using le_of_not_lt hi),
      List.getD_eq_getElem?_getD, List.getElem?_eq_none (by simpa using le_of_not_lt hi)]
    rfl

theorem getD_map_toQr5 (row : List Zr5) (k : ℕ) :
    (row.map toQr5).getD k 0 = toQr5 (row.getD k ⟨0, 0⟩) := by
  by_cases hk : k < row.length
  · rw [List.getD_eq_getElem _ _ (by simpa using hk), List.getD_eq_getElem _ _ hk]
    simp
  · rw [List.getD_eq_getElem?_getD, List.getElem?_eq_none (by simpa using le_of_not_lt hk),
      List.getD_eq_getElem?_getD, List.getElem?_eq_none (by simpa using le_of_not_lt hk)]
    exact toQr5_zero.symm

theorem ofList_mm_hom (m : ℕ) (r1 r2 : List (List Zr5)) :
    ofList m (mapmat toQr5 r1) * ofList m (mapmat toQr5 r2) =
      ofList m (mapmat toQr5 (zMatMul m r1 r2)) := by
  rw [ofList_mul]
  funext i j
  show ((listMatMul m _ _).getD i.val []).getD j.val 0 =
    ((mapmat toQr5 (zMatMul m r1 r2)).getD i.val []).getD j.val 0
  rw [listMatMul, getD_map_range _ _ i.isLt, getD_map_range _ _ j.isLt]
  have hent : ∀ k : ℕ, ((mapmat toQr5 r1).getD i.val []).getD k 0 *
      ((mapmat toQr5 r2).getD k []).getD j.val 0 =
      toQr5 (zmul ((r1.getD i.val []).getD k ⟨0, 0⟩) ((r2.getD k []).getD j.val ⟨0, 0⟩)) := by
    intro k
    rw [getD_mapmat, getD_mapmat, getD_map_toQr5, getD_map_toQr5, ← toQr5_zmul]
  calc (((List.range m).map fun k => ((mapmat toQr5 r1).getD i.val []).getD k 0 *
          ((mapmat toQr5 r2).getD k []).getD j.val 0)).sum
      = (((List.range m).map fun k =>
          toQr5 (zmul ((r1.getD i.val []).getD k ⟨0, 0⟩)
            ((r2.getD k []).getD j.val ⟨0, 0⟩)))).sum := by
        rw [List.map_congr_left fun k _ => hent k]
    _ = toQr5 (zsum ((List.range m).map fun k =>
          zmul ((r1.getD i.val []).getD k ⟨0, 0⟩) ((r2.getD k []).getD j.val ⟨0, 0⟩))) := by
        rw [toQr5_zsum, List.map_map]
        rfl
    _ = ((mapmat toQr5 (zMatMul m r1 r2)).getD i.val []).getD j.val 0 := by
        rw [getD_mapmat, getD_map_toQr5, zMatMul, getD_map_range _ _ i.isLt,
          getD_map_range _ _ j.isLt]

theorem ofList_mapmat_zdiag (m : ℕ) (d : ℤ) :
    ofList m (mapmat toQr5 (zdiag m d)) = ((d : ℤ) : Qr5) • (1 : Matrix (Fin m) (Fin m) Qr5) := by
  funext i j
  show ((mapmat toQr5 (zdiag m d)).getD i.val []).getD j.val 0 = _
  rw [getD_mapmat, zdiag, getD_map_range _ _ i.isLt, getD_map_toQr5,
    getD_map_range _ _ j.isLt]
  rw [Matrix.smul_apply, Matrix.one_apply]
  by_cases hij : i = j
  · subst hij
    rw [if_pos rfl, if_pos rfl, smul_eq_mul, mul_one]
    rfl
  · rw [if_neg (fun hv => hij (Fin.ext hv)), if_neg hij, smul_eq_mul, mul_zero]
    exact toQr5_zero

/-! ## A dense list-of-lists evaluator for the assembled matrix

The scatter-add assembler produces a function `ℕ → ℕ → F`; evaluating it
entry by entry repeats the whole fold.  The following dense evaluator
accumulates the same contributions into a pre-sized list-of-lists matrix
(spec SS 9: "accumulation into a pre-sized dense or sparse matrix") and is
proved to agree with the functional assembler entry by entry. -/

section Dense

variable {F : Type} [Field F] [DecidableEq F]

/-- Entry `(i, j)` of a list-of-lists matrix (0 outside). -/
def entryOf (rows : List (List F)) (i j : ℕ) : F := (rows.getD i []).getD j 0

/-- Add `v` onto entry `(i, j)` of a list-of-lists matrix. -/
def addAt (rows : List (List F)) (i j : ℕ) (v : F) : List (List F) :=
  rows.set i ((rows.getD i []).set j (entryOf rows i j + v))

/-- An `n × n` list-of-lists matrix. -/
def GoodDims (n : ℕ) (rows : List (List F)) : Prop :=
  rows.length = n ∧ ∀ r ∈ rows, r.length = n

theorem getD_row_length {n : ℕ} {rows : List (List F)} (hd : GoodDims n rows)
    {i : ℕ} (hi : i < n) : (rows.getD i []).length = n := by
  rw [List.getD_eq_getElem _ _ (by rw [hd.1]; exact hi)]
  exact hd.2 _ (List.getElem_mem _)

theorem goodDims_addAt {n : ℕ} {rows : List (List F)} (hd : GoodDims n rows)
    {i : ℕ} (hi : i < n) (j : ℕ) (v : F) : GoodDims n (addAt rows i j v) := by
  refine ⟨by simpa [addAt] using hd.1, ?_⟩
  intro r hr
  rcases List.mem_or_eq_of_mem_set hr with hr | rfl
  · exact hd.2 r hr
  · rw [List.length_set]
    exact getD_row_length hd hi

theorem entryOf_addAt {n : ℕ} {rows : List (List F)} (hd : GoodDims n rows)
    {i j : ℕ} (hi : i < n) (hj : j < n) (v : F) (p q : ℕ) :
    entryOf (addAt rows i j v) p q =
      entryOf rows p q + (if i = p ∧ j = q then v else 0) := by
  have hil : i < rows.length := by rw [hd.1]; exact hi
  have hjl : j < (rows.getD i []).length := by rw [getD_row_length hd hi]; exact hj
  unfold addAt entryOf
  by_cases hp : i = p
  · subst hp
    rw [List.getD_eq_getElem?_getD (rows.set i _), List.getElem?_set_self hil,
      Option.getD_some]
    by_cases hq : j = q
    · subst hq
      rw [List.getD_eq_getElem?_getD _ j, List.getElem?_set_self hjl, Option.getD_some]
      simp [entryOf]
    · rw [List.getD_eq_getElem?_getD _ q, List.getElem?_set_ne hq,
        ← List.getD_eq_getElem?_getD]
      simp [hq]
  · rw [List.getD_eq_getElem?_getD (rows.set i _), List.getElem?_set_ne hp,
      ← List.getD_eq_getElem?_getD]
    simp [hp]

/-- Scatter one local matrix into the dense matrix: the sixteen
contributions of `scatterAdd`, applied in order. -/
def denseScatter (dofs : Fin 4 → ℕ) (Ke : Fin 4 → Fin 4 → F) (rows : List (List F)) :
    List (List F) :=
  addAt (addAt (addAt (addAt (addAt (addAt (addAt (addAt (addAt (addAt (addAt (addAt
    (addAt (addAt (addAt (addAt rows
      (dofs 0) (dofs 0) (Ke 0 0)) (dofs 0) (dofs 1) (Ke 0 1))
      (dofs 0) (dofs 2) (Ke 0 2)) (dofs 0) (dofs 3) (Ke 0 3))
      (dofs 1) (dofs 0) (Ke 1 0)) (dofs 1) (dofs 1) (Ke 1 1))
      (dofs 1) (dofs 2) (Ke 1 2)) (dofs 1) (dofs 3) (Ke 1 3))
      (dofs 2) (dofs 0) (Ke 2 0)) (dofs 2) (dofs 1) (Ke 2 1))
      (dofs 2) (dofs 2) (Ke 2 2)) (dofs 2) (dofs 3) (Ke 2 3))
      (dofs 3) (dofs 0) (Ke 3 0)) (dofs 3) (dofs 1) (Ke 3 1))
      (dofs 3) (dofs 2) (Ke 3 2)) (dofs 3) (dofs 3) (Ke 3 3)

theorem goodDims_denseScatter {n : ℕ} {rows : List (List F)} (hd : GoodDims n rows)
    {dofs : Fin 4 → ℕ} (hb : ∀ s, dofs s < n) (Ke : Fin 4 → Fin 4 → F) :
    GoodDims n (denseScatter dofs Ke rows) := by
  unfold denseScatter
  iterate 16 apply goodDims_addAt _ (hb _)
  exact hd

theorem ite_eq_ctb (dofs : Fin 4 → ℕ) (Ke : Fin 4 → Fin 4 → F) (p q : ℕ) (s t : Fin 4) :
    (if dofs s = p ∧ dofs t = q then Ke s t else 0) = ctb dofs Ke p q s t :=
  (ctb_eq_ite dofs Ke p q s t).symm

theorem entryOf_denseScatter {n : ℕ} {rows : List (List F)} (hd : GoodDims n rows)
    {dofs : Fin 4 → ℕ} (hb : ∀ s, dofs s < n) (Ke : Fin 4 → Fin 4 → F) (p q : ℕ) :
    entryOf (denseScatter dofs Ke rows) p q = scatterAdd dofs Ke (entryOf rows) p q := by
  have h00 := goodDims_addAt hd (hb 0) (dofs 0) (Ke 0 0)
  have h01 := goodDims_addAt h00 (hb 0) (dofs 1) (Ke 0 1)
  have h02 := goodDims_addAt h01 (hb 0) (dofs 2) (Ke 0 2)
  have h03 := goodDims_addAt h02 (hb 0) (dofs 3) (Ke 0 3)
  have h10 := goodDims_addAt h03 (hb 1) (dofs 0) (Ke 1 0)
  have h11 := goodDims_addAt h10 (hb 1) (dofs 1) (Ke 1 1)
  have h12 := goodDims_addAt h11 (hb 1) (dofs 2) (Ke 1 2)
  have h13 := goodDims_addAt h12 (hb 1) (dofs 3) (Ke 1 3)
  have h20 := goodDims_addAt h13 (hb 2) (dofs 0) (Ke 2 0)
  have h21 := goodDims_addAt h20 (hb 2) (dofs 1) (Ke 2 1)
  have h22 := goodDims_addAt h21 (hb 2) (dofs 2) (Ke 2 2)
  have h23 := goodDims_addAt h22 (hb 2) (dofs 3) (Ke 2 3)
  have h30 := goodDims_addAt h23 (hb 3) (dofs 0) (Ke 3 0)
  have h31 := goodDims_addAt h30 (hb 3) (dofs 1) (Ke 3 1)
  have h32 := goodDims_addAt h31 (hb 3) (dofs 2) (Ke 3 2)
  unfold denseScatter
  rw [entryOf_addAt h32 (hb 3) (hb 3), entryOf_addAt h31 (hb 3) (hb 2),
    entryOf_addAt h30 (hb 3) (hb 1), entryOf_addAt h23 (hb 3) (hb 0),
    entryOf_addAt h22 (hb 2) (hb 3), entryOf_addAt h21 (hb 2) (hb 2),
    entryOf_addAt h20 (hb 2) (hb 1), entryOf_addAt h13 (hb 2) (hb 0),
    entryOf_addAt h12 (hb 1) (hb 3), entryOf_addAt h11 (hb 1) (hb 2),
    entryOf_addAt h10 (hb 1) (hb 1), entryOf_addAt h03 (hb 1) (hb 0),
    entryOf_addAt h02 (hb 0) (hb 3), entryOf_addAt h01 (hb 0) (hb 2),
    entryOf_addAt h00 (hb 0) (hb 1), entryOf_addAt hd (hb 0) (hb 0)]
  rw [scatterAdd]
  simp only [ite_eq_ctb]
  ring

/-- Dense assembly over a list of elements (mirrors `assembleFrom`). -/
def denseAssemble (rows0 : List (List F)) (ds : List (ElemDat F)) : List (List F) :=
  ds.foldl (fun r d => denseScatter (elemDofs d) d.K r) rows0

/-- The all-zero `n × n` dense matrix. -/
def denseInit (n : ℕ) : List (List F) :=
  List.replicate n (List.replicate n 0)

theorem goodDims_denseInit (n : ℕ) : GoodDims n (denseInit (F := F) n) := by
  refine ⟨by simp [denseInit], ?_⟩
  intro r hr
  rw [List.eq_of_mem_replicate hr]
  simp

theorem getD_replicate_any {α : Type} (v d : α) (n i : ℕ) :
    (List.replicate n v).getD i d = if i < n then v else d := by
  by_cases hi : i < n
  · rw [List.getD_eq_getElem _ _ (by simpa using hi), List.getElem_replicate, if_pos hi]
  · rw [List.getD_eq_getElem?_getD, List.getElem?_eq_none (by simpa using le_of_not_lt hi),
      Option.getD_none, if_neg hi]

theorem entryOf_denseInit (n : ℕ) (i j : ℕ) : entryOf (denseInit (F := F) n) i j = 0 := by
  unfold entryOf denseInit
  rw [getD_replicate_any]
  by_cases hi : i < n
  · rw [if_pos hi, getD_replicate_any]
    by_cases hj : j < n
    · rw [if_pos hj]
    · rw [if_neg hj]
  · rw [if_neg hi]
    rfl

theorem entryOf_denseAssemble {n : ℕ} {ds : List (ElemDat F)}
    (hb : ∀ d ∈ ds, ∀ s : Fin 4, elemDofs d s < n) :
    ∀ {rows0 : List (List F)}, GoodDims n rows0 →
      ∀ p q, entryOf (denseAssemble rows0 ds) p q = assembleFrom (entryOf rows0) ds p q := by
  induction ds with
  | nil => intro rows0 _ p q; rfl
  | cons d ds ih =>
    intro rows0 hd p q
    have hbd : ∀ s : Fin 4, elemDofs d s < n := hb d (List.mem_cons_self d ds)
    have hbs : ∀ d2 ∈ ds, ∀ s : Fin 4, elemDofs d2 s < n := fun d2 h2 =>
      hb d2 (List.mem_cons_of_mem d h2)
    have hentry : entryOf (denseScatter (elemDofs d) d.K rows0) =
        scatterAdd (elemDofs d) d.K (entryOf rows0) :=
      funext fun x => funext fun y => entryOf_denseScatter hd hbd d.K x y
    have hcons : entryOf (denseAssemble (denseScatter (elemDofs d) d.K rows0) ds) p q =
        assembleFrom (entryOf (denseScatter (elemDofs d) d.K rows0)) ds p q :=
      ih hbs (goodDims_denseScatter hd hbd d.K) p q
    rw [hentry] at hcons
    exact hcons

end Dense


/-! ## Concrete bridge results -/

/-- The assembled 20 x 20 global stiffness matrix of the bridge, as
explicit row lists. -/
def bridgeKLit : List (List Qr5) :=
  [[⟨(⟨315000, 1, by decide, by decide⟩ : ℚ), (⟨12600, 1, by decide, by decide⟩ : ℚ)⟩, ⟨(⟨0, 1, by decide, by decide⟩ : ℚ), (⟨25200, 1, by decide, by decide⟩ : ℚ)⟩, ⟨(⟨-315000, 1, by decide, by decide⟩ : ℚ), (⟨0, 1, by decide, by decide⟩ : ℚ)⟩, ⟨(⟨0, 1, by decide, by decide⟩ : ℚ), (⟨0, 1, by decide, by decide⟩ : ℚ)⟩, ⟨(⟨0, 1, by decide, by decide⟩ : ℚ), (⟨0, 1, by decide, by decide⟩ : ℚ)⟩, ⟨(⟨0, 1, by decide, by decide⟩ : ℚ), (⟨0, 1, by decide, by decide⟩ : ℚ)⟩, ⟨(⟨0, 1, by decide, by decide⟩ : ℚ), (⟨0, 1, by decide, by decide⟩ : ℚ)⟩, ⟨(⟨0, 1, by decide, by decide⟩ : ℚ), (⟨0, 1, by decide, by decide⟩ : ℚ)⟩, ⟨(⟨0, 1, by decide, by decide⟩ : ℚ), (⟨0, 1, by decide, by decide⟩ : ℚ)⟩, ⟨(⟨0, 1, by decide, by decide⟩ : ℚ), (⟨0, 1, by decide, by decide⟩ : ℚ)⟩, ⟨(⟨0, 1, by decide, by decide⟩ : ℚ), (⟨0, 1, by decide, by decide⟩ : ℚ)⟩, ⟨(⟨0, 1, by decide, by decide⟩ : ℚ), (⟨0, 1, by decide, by decide⟩ : ℚ)⟩, ⟨(⟨0, 1, by decide, by decide⟩ : ℚ), (⟨-12600, 1, by decide, by decide⟩ : ℚ)⟩, ⟨(⟨0, 1, by decide, by decide⟩ : ℚ), (⟨-25200, 1, by decide, by decide⟩ : ℚ)⟩, ⟨(⟨0, 1, by decide, by decide⟩ : ℚ), (⟨0, 1, by decide, by decide⟩ : ℚ)⟩, ⟨(⟨0, 1, by decide, by decide⟩ : ℚ), (⟨0, 1, by decide, by decide⟩ : ℚ)⟩, ⟨(⟨0, 1, by decide, by decide⟩ : ℚ), (⟨0, 1, by decide, by decide⟩ : ℚ)⟩, ⟨(⟨0, 1, by decide, by decide⟩ : ℚ), (⟨0, 1, by decide, by decide⟩ : ℚ)⟩, ⟨(⟨0, 1, by decide, by decide⟩ : ℚ), (⟨0, 1, by decide, by decide⟩ : ℚ)⟩, ⟨(⟨0, 1, by decide, by decide⟩ : ℚ), (⟨0, 1, by decide, by decide⟩ : ℚ)⟩],
   [⟨(⟨0, 1, by decide, by decide⟩ : ℚ), (⟨25200, 1, by decide, by decide⟩ : ℚ)⟩, ⟨(⟨0, 1, by decide, by decide⟩ : ℚ), (⟨50400, 1, by decide, by decide⟩ : ℚ)⟩, ⟨(⟨0, 1, by decide, by decide⟩ : ℚ), (⟨0, 1, by decide, by decide⟩ : ℚ)⟩, ⟨(⟨0, 1, by decide, by decide⟩ : ℚ), (⟨0, 1, by decide, by decide⟩ : ℚ)⟩, ⟨(⟨0, 1, by decide, by decide⟩ : ℚ), (⟨0, 1, by decide, by decide⟩ : ℚ)⟩, ⟨(⟨0, 1, by decide, by decide⟩ : ℚ), (⟨0, 1, by decide, by decide⟩ : ℚ)⟩, ⟨(⟨0, 1, by decide, by decide⟩ : ℚ), (⟨0, 1, by decide, by decide⟩ : ℚ)⟩, ⟨(⟨0, 1, by decide, by decide⟩ : ℚ), (⟨0, 1, by decide, by decide⟩ : ℚ)⟩, ⟨(⟨0, 1, by decide, by decide⟩ : ℚ), (⟨0, 1, by decide, by decide⟩ : ℚ)⟩, ⟨(⟨0, 1, by decide, by decide⟩ : ℚ), (⟨0, 1, by decide, by decide⟩ : ℚ)⟩, ⟨(⟨0, 1, by decide, by decide⟩ : ℚ), (⟨0, 1, by decide, by decide⟩ : ℚ)⟩, ⟨(⟨0, 1, by decide, by decide⟩ : ℚ), (⟨0, 1, by decide, by decide⟩ : ℚ)⟩, ⟨(⟨0, 1, by decide, by decide⟩ : ℚ), (⟨-25200, 1, by decide, by decide⟩ : ℚ)⟩, ⟨(⟨0, 1, by decide, by decide⟩ : ℚ), (⟨-50400, 1, by decide, by decide⟩ : ℚ)⟩, ⟨(⟨0, 1, by decide, by decide⟩ : ℚ), (⟨0, 1, by decide, by decide⟩ : ℚ)⟩, ⟨(⟨0, 1, by decide, by decide⟩ : ℚ), (⟨0, 1, by decide, by decide⟩ : ℚ)⟩, ⟨(⟨0, 1, by decide, by decide⟩ : ℚ), (⟨0, 1, by decide, by decide⟩ : ℚ)⟩, ⟨(⟨0, 1, by decide, by decide⟩ : ℚ), (⟨0, 1, by decide, by decide⟩ : ℚ)⟩, ⟨(⟨0, 1, by decide, by decide⟩ : ℚ), (⟨0, 1, by decide, by decide⟩ : ℚ)⟩, ⟨(⟨0, 1, by decide, by decide⟩ : ℚ), (⟨0, 1, by decide, by decide⟩ : ℚ)⟩],
   [⟨(⟨-315000, 1, by decide, by decide⟩ : ℚ), (⟨0, 1, by decide, by decide⟩ : ℚ)⟩, ⟨(⟨0, 1, by decide, by decide⟩ : ℚ), (⟨0, 1, by decide, by decide⟩ : ℚ)⟩, ⟨(⟨630000, 1, by decide, by decide⟩ : ℚ), (⟨0, 1, by decide, by decide⟩ : ℚ)⟩, ⟨(⟨0, 1, by decide, by decide⟩ : ℚ), (⟨0, 1, by decide, by decide⟩ : ℚ)⟩, ⟨(⟨-315000, 1, by decide, by decide⟩ : ℚ), (⟨0, 1, by decide, by decide⟩ : ℚ)⟩, ⟨(⟨0, 1, by decide, by decide⟩ : ℚ), (⟨0, 1, by decide, by decide⟩ : ℚ)⟩, ⟨(⟨0, 1, by decide, by decide⟩ : ℚ), (⟨0, 1, by decide, by decide⟩ : ℚ)⟩, ⟨(⟨0, 1, by decide, by decide⟩ : ℚ), (⟨0, 1, by decide, by decide⟩ : ℚ)⟩, ⟨(⟨0, 1, by decide, by decide⟩ : ℚ), (⟨0, 1, by decide, by decide⟩ : ℚ)⟩, ⟨(⟨0, 1, by decide, by decide⟩ : ℚ), (⟨0, 1, by decide, by decide⟩ : ℚ)⟩, ⟨(⟨0, 1, by decide, by decide⟩ : ℚ), (⟨0, 1, by decide, by decide⟩ : ℚ)⟩, ⟨(⟨0, 1, by decide, by decide⟩ : ℚ), (⟨0, 1, by decide, by decide⟩ : ℚ)⟩, ⟨(⟨0, 1, by decide, by decide⟩ : ℚ), (⟨0, 1, by decide, by decide⟩ : ℚ)⟩, ⟨(⟨0, 1, by decide, by decide⟩ : ℚ), (⟨0, 1, by decide, by decide⟩ : ℚ)⟩, ⟨(⟨0, 1, by decide, by decide⟩ : ℚ), (⟨0, 1, by decide, by decide⟩ : ℚ)⟩, ⟨(⟨0, 1, by decide, by decide⟩ : ℚ), (⟨0, 1, by decide, by decide⟩ : ℚ)⟩, ⟨(⟨0, 1, by decide, by decide⟩ : ℚ), (⟨0, 1, by decide, by decide⟩ : ℚ)⟩, ⟨(⟨0, 1, by decide, by decide⟩ : ℚ), (⟨0, 1, by decide, by decide⟩ : ℚ)⟩, ⟨(⟨0, 1, by decide, by decide⟩ : ℚ), (⟨0, 1, by decide, by decide⟩ : ℚ)⟩, ⟨(⟨0, 1, by decide, by decide⟩ : ℚ), (⟨0, 1, by decide, by decide⟩ : ℚ)⟩],
   [⟨(⟨0, 1, by decide, by decide⟩ : ℚ), (⟨0, 1, by decide, by decide⟩ : ℚ)⟩, ⟨(⟨0, 1, by decide, by decide⟩ : ℚ), (⟨0, 1, by decide, by decide⟩ : ℚ)⟩, ⟨(⟨0, 1, by decide, by decide⟩ : ℚ), (⟨0, 1, by decide, by decide⟩ : ℚ)⟩, ⟨(⟨157500, 1, by decide, by decide⟩ : ℚ), (⟨0, 1, by decide, by decide⟩ : ℚ)⟩, ⟨(⟨0, 1, by decide, by decide⟩ : ℚ), (⟨0, 1, by decide, by decide⟩ : ℚ)⟩, ⟨(⟨0, 1, by decide, by decide⟩ : ℚ), (⟨0, 1, by decide, by decide⟩ : ℚ)⟩, ⟨(⟨0, 1, by decide, by decide⟩ : ℚ), (⟨0, 1, by decide, by decide⟩ : ℚ)⟩, ⟨(⟨0, 1, by decide, by decide⟩ : ℚ), (⟨0, 1, by decide, by decide⟩ : ℚ)⟩, ⟨(⟨0, 1, by decide, by decide⟩ : ℚ), (⟨0, 1, by decide, by decide⟩ : ℚ)⟩, ⟨(⟨0, 1, by decide, by decide⟩ : ℚ), (⟨0, 1, by decide, by decide⟩ : ℚ)⟩, ⟨(⟨0, 1, by decide, by decide⟩ : ℚ), (⟨0, 1, by decide, by decide⟩ : ℚ)⟩, ⟨(⟨0, 1, by decide, by decide⟩ : ℚ), (⟨0, 1, by decide, by decide⟩ : ℚ)⟩, ⟨(⟨0, 1, by decide, by decide⟩ : ℚ), (⟨0, 1, by decide, by decide⟩ : ℚ)⟩, ⟨(⟨-157500, 1, by decide, by decide⟩ : ℚ), (⟨0, 1, by decide, by decide⟩ : ℚ)⟩, ⟨(⟨0, 1, by decide, by decide⟩ : ℚ), (⟨0, 1, by decide, by decide⟩ : ℚ)⟩, ⟨(⟨0, 1, by decide, by decide⟩ : ℚ), (⟨0, 1, by decide, by decide⟩ : ℚ)⟩, ⟨(⟨0, 1, by decide, by decide⟩ : ℚ), (⟨0, 1, by decide, by decide⟩ : ℚ)⟩, ⟨(⟨0, 1, by decide, by decide⟩ : ℚ), (⟨0, 1, by decide, by decide⟩ : ℚ)⟩, ⟨(⟨0, 1, by decide, by decide⟩ : ℚ), (⟨0, 1, by decide, by decide⟩ : ℚ)⟩, ⟨(⟨0, 1, by decide, by decide⟩ : ℚ), (⟨0, 1, by decide, by decide⟩ : ℚ)⟩],
   [⟨(⟨0, 1, by decide, by decide⟩ : ℚ), (⟨0, 1, by decide, by decide⟩ : ℚ)⟩, ⟨(⟨0, 1, by decide, by decide⟩ : ℚ), (⟨0, 1, by decide, by decide⟩ : ℚ)⟩, ⟨(⟨-315000, 1, by decide, by decide⟩ : ℚ), (⟨0, 1, by decide, by decide⟩ : ℚ)⟩, ⟨(⟨0, 1, by decide, by decide⟩ : ℚ), (⟨0, 1, by decide, by decide⟩ : ℚ)⟩, ⟨(⟨630000, 1, by decide, by decide⟩ : ℚ), (⟨25200, 1, by decide, by decide⟩ : ℚ)⟩, ⟨(⟨0, 1, by decide, by decide⟩ : ℚ), (⟨0, 1, by decide, by decide⟩ : ℚ)⟩, ⟨(⟨-315000, 1, by decide, by decide⟩ : ℚ), (⟨0, 1, by decide, by decide⟩ : ℚ)⟩, ⟨(⟨0, 1, by decide, by decide⟩ : ℚ), (⟨0, 1, by decide, by decide⟩ : ℚ)⟩, ⟨(⟨0, 1, by decide, by decide⟩ : ℚ), (⟨0, 1, by decide, by decide⟩ : ℚ)⟩, ⟨(⟨0, 1, by decide, by decide⟩ : ℚ), (⟨0, 1, by decide, by decide⟩ : ℚ)⟩, ⟨(⟨0, 1, by decide, by decide⟩ : ℚ), (⟨0, 1, by decide, by decide⟩ : ℚ)⟩, ⟨(⟨0, 1, by decide, by decide⟩ : ℚ), (⟨0, 1, by decide, by decide⟩ : ℚ)⟩, ⟨(⟨0, 1, by decide, by decide⟩ : ℚ), (⟨-12600, 1, by decide, by decide⟩ : ℚ)⟩, ⟨(⟨0, 1, by decide, by decide⟩ : ℚ), (⟨25200, 1, by decide, by decide⟩ : ℚ)⟩, ⟨(⟨0, 1, by decide, by decide⟩ : ℚ), (⟨0, 1, by decide, by decide⟩ : ℚ)⟩, ⟨(⟨0, 1, by decide, by decide⟩ : ℚ), (⟨0, 1, by decide, by decide⟩ : ℚ)⟩, ⟨(⟨0, 1, by decide, by decide⟩ : ℚ), (⟨-12600, 1, by decide, by decide⟩ : ℚ)⟩, ⟨(⟨0, 1, by decide, by decide⟩ : ℚ), (⟨-25200, 1, by decide, by decide⟩ : ℚ)⟩, ⟨(⟨0, 1, by decide, by decide⟩ : ℚ), (⟨0, 1, by decide, by decide⟩ : ℚ)⟩, ⟨(⟨0, 1, by decide, by decide⟩ : ℚ), (⟨0, 1, by decide, by decide⟩ : ℚ)⟩],
   [⟨(⟨0, 1, by decide, by decide⟩ : ℚ), (⟨0, 1, by decide, by decide⟩ : ℚ)⟩, ⟨(⟨0, 1, by decide, by decide⟩ : ℚ), (⟨0, 1, by decide, by decide⟩ : ℚ)⟩, ⟨(⟨0, 1, by decide, by decide⟩ : ℚ), (⟨0, 1, by decide, by decide⟩ : ℚ)⟩, ⟨(⟨0, 1, by decide, by decide⟩ : ℚ), (⟨0, 1, by decide, by decide⟩ : ℚ)⟩, ⟨(⟨0, 1, by decide, by decide⟩ : ℚ), (⟨0, 1, by decide, by decide⟩ : ℚ)⟩, ⟨(⟨157500, 1, by decide, by decide⟩ : ℚ), (⟨100800, 1, by decide, by decide⟩ : ℚ)⟩, ⟨(⟨0, 1, by decide, by decide⟩ : ℚ), (⟨0, 1, by decide, by decide⟩ : ℚ)⟩, ⟨(⟨0, 1, by decide, by decide⟩ : ℚ), (⟨0, 1, by decide, by decide⟩ : ℚ)⟩, ⟨(⟨0, 1, by decide, by decide⟩ : ℚ), (⟨0, 1, by decide, by decide⟩ : ℚ)⟩, ⟨(⟨0, 1, by decide, by decide⟩ : ℚ), (⟨0, 1, by decide, by decide⟩ : ℚ)⟩, ⟨(⟨0, 1, by decide, by decide⟩ : ℚ), (⟨0, 1, by decide, by decide⟩ : ℚ)⟩, ⟨(⟨0, 1, by decide, by decide⟩ : ℚ), (⟨0, 1, by decide, by decide⟩ : ℚ)⟩, ⟨(⟨0, 1, by decide, by decide⟩ : ℚ), (⟨25200, 1, by decide, by decide⟩ : ℚ)⟩, ⟨(⟨0, 1, by decide, by decide⟩ : ℚ), (⟨-50400, 1, by decide, by decide⟩ : ℚ)⟩, ⟨(⟨0, 1, by decide, by decide⟩ : ℚ), (⟨0, 1, by decide, by decide⟩ : ℚ)⟩, ⟨(⟨-157500, 1, by decide, by decide⟩ : ℚ), (⟨0, 1, by decide, by decide⟩ : ℚ)⟩, ⟨(⟨0, 1, by decide, by decide⟩ : ℚ), (⟨-25200, 1, by decide, by decide⟩ : ℚ)⟩, ⟨(⟨0, 1, by decide, by decide⟩ : ℚ), (⟨-50400, 1, by decide, by decide⟩ : ℚ)⟩, ⟨(⟨0, 1, by decide, by decide⟩ : ℚ), (⟨0, 1, by decide, by decide⟩ : ℚ)⟩, ⟨(⟨0, 1, by decide, by decide⟩ : ℚ), (⟨0, 1, by decide, by decide⟩ : ℚ)⟩],
   [⟨(⟨0, 1, by decide, by decide⟩ : ℚ), (⟨0, 1, by decide, by decide⟩ : ℚ)⟩, ⟨(⟨0, 1, by decide, by decide⟩ : ℚ), (⟨0, 1, by decide, by decide⟩ : ℚ)⟩, ⟨(⟨0, 1, by decide, by decide⟩ : ℚ), (⟨0, 1, by decide, by decide⟩ : ℚ)⟩, ⟨(⟨0, 1, by decide, by decide⟩ : ℚ), (⟨0, 1, by decide, by decide⟩ : ℚ)⟩, ⟨(⟨-315000, 1, by decide, by decide⟩ : ℚ), (⟨0, 1, by decide, by decide⟩ : ℚ)⟩, ⟨(⟨0, 1, by decide, by decide⟩ : ℚ), (⟨0, 1, by decide, by decide⟩ : ℚ)⟩, ⟨(⟨630000, 1, by decide, by decide⟩ : ℚ), (⟨25200, 1, by decide, by decide⟩ : ℚ)⟩, ⟨(⟨0, 1, by decide, by decide⟩ : ℚ), (⟨0, 1, by decide, by decide⟩ : ℚ)⟩, ⟨(⟨-315000, 1, by decide, by decide⟩ : ℚ), (⟨0, 1, by decide, by decide⟩ : ℚ)⟩, ⟨(⟨0, 1, by decide, by decide⟩ : ℚ), (⟨0, 1, by decide, by decide⟩ : ℚ)⟩, ⟨(⟨0, 1, by decide, by decide⟩ : ℚ), (⟨0, 1, by decide, by decide⟩ : ℚ)⟩, ⟨(⟨0, 1, by decide, by decide⟩ : ℚ), (⟨0, 1, by decide, by decide⟩ : ℚ)⟩, ⟨(⟨0, 1, by decide, by decide⟩ : ℚ), (⟨0, 1, by decide, by decide⟩ : ℚ)⟩, ⟨(⟨0, 1, by decide, by decide⟩ : ℚ), (⟨0, 1, by decide, by decide⟩ : ℚ)⟩, ⟨(⟨0, 1, by decide, by decide⟩ : ℚ), (⟨-12600, 1, by decide, by decide⟩ : ℚ)⟩, ⟨(⟨0, 1, by decide, by decide⟩ : ℚ), (⟨25200, 1, by decide, by decide⟩ : ℚ)⟩, ⟨(⟨0, 1, by decide, by decide⟩ : ℚ), (⟨0, 1, by decide, by decide⟩ : ℚ)⟩, ⟨(⟨0, 1, by decide, by decide⟩ : ℚ), (⟨0, 1, by decide, by decide⟩ : ℚ)⟩, ⟨(⟨0, 1, by decide, by decide⟩ : ℚ), (⟨-12600, 1, by decide, by decide⟩ : ℚ)⟩, ⟨(⟨0, 1, by decide, by decide⟩ : ℚ), (⟨-25200, 1, by decide, by decide⟩ : ℚ)⟩],
   [⟨(⟨0, 1, by decide, by decide⟩ : ℚ), (⟨0, 1, by decide, by decide⟩ : ℚ)⟩, ⟨(⟨0, 1, by decide, by decide⟩ : ℚ), (⟨0, 1, by decide, by decide⟩ : ℚ)⟩, ⟨(⟨0, 1, by decide, by decide⟩ : ℚ), (⟨0, 1, by decide, by decide⟩ : ℚ)⟩, ⟨(⟨0, 1, by decide, by decide⟩ : ℚ), (⟨0, 1, by decide, by decide⟩ : ℚ)⟩, ⟨(⟨0, 1, by decide, by decide⟩ : ℚ), (⟨0, 1, by decide, by decide⟩ : ℚ)⟩, ⟨(⟨0, 1, by decide, by decide⟩ : ℚ), (⟨0, 1, by decide, by decide⟩ : ℚ)⟩, ⟨(⟨0, 1, by decide, by decide⟩ : ℚ), (⟨0, 1, by decide, by decide⟩ : ℚ)⟩, ⟨(⟨157500, 1, by decide, by decide⟩ : ℚ), (⟨100800, 1, by decide, by decide⟩ : ℚ)⟩, ⟨(⟨0, 1, by decide, by decide⟩ : ℚ), (⟨0, 1, by decide, by decide⟩ : ℚ)⟩, ⟨(⟨0, 1, by decide, by decide⟩ : ℚ), (⟨0, 1, by decide, by decide⟩ : ℚ)⟩, ⟨(⟨0, 1, by decide, by decide⟩ : ℚ), (⟨0, 1, by decide, by decide⟩ : ℚ)⟩, ⟨(⟨0, 1, by decide, by decide⟩ : ℚ), (⟨0, 1, by decide, by decide⟩ : ℚ)⟩, ⟨(⟨0, 1, by decide, by decide⟩ : ℚ), (⟨0, 1, by decide, by decide⟩ : ℚ)⟩, ⟨(⟨0, 1, by decide, by decide⟩ : ℚ), (⟨0, 1, by decide, by decide⟩ : ℚ)⟩, ⟨(⟨0, 1, by decide, by decide⟩ : ℚ), (⟨25200, 1, by decide, by decide⟩ : ℚ)⟩, ⟨(⟨0, 1, by decide, by decide⟩ : ℚ), (⟨-50400, 1, by decide, by decide⟩ : ℚ)⟩, ⟨(⟨0, 1, by decide, by decide⟩ : ℚ), (⟨0, 1, by decide, by decide⟩ : ℚ)⟩, ⟨(⟨-157500, 1, by decide, by decide⟩ : ℚ), (⟨0, 1, by decide, by decide⟩ : ℚ)⟩, ⟨(⟨0, 1, by decide, by decide⟩ : ℚ), (⟨-25200, 1, by decide, by decide⟩ : ℚ)⟩, ⟨(⟨0, 1, by decide, by decide⟩ : ℚ), (⟨-50400, 1, by decide, by decide⟩ : ℚ)⟩],
   [⟨(⟨0, 1, by decide, by decide⟩ : ℚ), (⟨0, 1, by decide, by decide⟩ : ℚ)⟩, ⟨(⟨0, 1, by decide, by decide⟩ : ℚ), (⟨0, 1, by decide, by decide⟩ : ℚ)⟩, ⟨(⟨0, 1, by decide, by decide⟩ : ℚ), (⟨0, 1, by decide, by decide⟩ : ℚ)⟩, ⟨(⟨0, 1, by decide, by decide⟩ : ℚ), (⟨0, 1, by decide, by decide⟩ : ℚ)⟩, ⟨(⟨0, 1, by decide, by decide⟩ : ℚ), (⟨0, 1, by decide, by decide⟩ : ℚ)⟩, ⟨(⟨0, 1, by decide, by decide⟩ : ℚ), (⟨0, 1, by decide, by decide⟩ : ℚ)⟩, ⟨(⟨-315000, 1, by decide, by decide⟩ : ℚ), (⟨0, 1, by decide, by decide⟩ : ℚ)⟩, ⟨(⟨0, 1, by decide, by decide⟩ : ℚ), (⟨0, 1, by decide, by decide⟩ : ℚ)⟩, ⟨(⟨630000, 1, by decide, by decide⟩ : ℚ), (⟨0, 1, by decide, by decide⟩ : ℚ)⟩, ⟨(⟨0, 1, by decide, by decide⟩ : ℚ), (⟨0, 1, by decide, by decide⟩ : ℚ)⟩, ⟨(⟨-315000, 1, by decide, by decide⟩ : ℚ), (⟨0, 1, by decide, by decide⟩ : ℚ)⟩, ⟨(⟨0, 1, by decide, by decide⟩ : ℚ), (⟨0, 1, by decide, by decide⟩ : ℚ)⟩, ⟨(⟨0, 1, by decide, by decide⟩ : ℚ), (⟨0, 1, by decide, by decide⟩ : ℚ)⟩, ⟨(⟨0, 1, by decide, by decide⟩ : ℚ), (⟨0, 1, by decide, by decide⟩ : ℚ)⟩, ⟨(⟨0, 1, by decide, by decide⟩ : ℚ), (⟨0, 1, by decide, by decide⟩ : ℚ)⟩, ⟨(⟨0, 1, by decide, by decide⟩ : ℚ), (⟨0, 1, by decide, by decide⟩ : ℚ)⟩, ⟨(⟨0, 1, by decide, by decide⟩ : ℚ), (⟨0, 1, by decide, by decide⟩ : ℚ)⟩, ⟨(⟨0, 1, by decide, by decide⟩ : ℚ), (⟨0, 1, by decide, by decide⟩ : ℚ)⟩, ⟨(⟨0, 1, by decide, by decide⟩ : ℚ), (⟨0, 1, by decide, by decide⟩ : ℚ)⟩, ⟨(⟨0, 1, by decide, by decide⟩ : ℚ), (⟨0, 1, by decide, by decide⟩ : ℚ)⟩],
   [⟨(⟨0, 1, by decide, by decide⟩ : ℚ), (⟨0, 1, by decide, by decide⟩ : ℚ)⟩, ⟨(⟨0, 1, by decide, by decide⟩ : ℚ), (⟨0, 1, by decide, by decide⟩ : ℚ)⟩, ⟨(⟨0, 1, by decide, by decide⟩ : ℚ), (⟨0, 1, by decide, by decide⟩ : ℚ)⟩, ⟨(⟨0, 1, by decide, by decide⟩ : ℚ), (⟨0, 1, by decide, by decide⟩ : ℚ)⟩, ⟨(⟨0, 1, by decide, by decide⟩ : ℚ), (⟨0, 1, by decide, by decide⟩ : ℚ)⟩, ⟨(⟨0, 1, by decide, by decide⟩ : ℚ), (⟨0, 1, by decide, by decide⟩ : ℚ)⟩, ⟨(⟨0, 1, by decide, by decide⟩ : ℚ), (⟨0, 1, by decide, by decide⟩ : ℚ)⟩, ⟨(⟨0, 1, by decide, by decide⟩ : ℚ), (⟨0, 1, by decide, by decide⟩ : ℚ)⟩, ⟨(⟨0, 1, by decide, by decide⟩ : ℚ), (⟨0, 1, by decide, by decide⟩ : ℚ)⟩, ⟨(⟨157500, 1, by decide, by decide⟩ : ℚ), (⟨0, 1, by decide, by decide⟩ : ℚ)⟩, ⟨(⟨0, 1, by decide, by decide⟩ : ℚ), (⟨0, 1, by decide, by decide⟩ : ℚ)⟩, ⟨(⟨0, 1, by decide, by decide⟩ : ℚ), (⟨0, 1, by decide, by decide⟩ : ℚ)⟩, ⟨(⟨0, 1, by decide, by decide⟩ : ℚ), (⟨0, 1, by decide, by decide⟩ : ℚ)⟩, ⟨(⟨0, 1, by decide, by decide⟩ : ℚ), (⟨0, 1, by decide, by decide⟩ : ℚ)⟩, ⟨(⟨0, 1, by decide, by decide⟩ : ℚ), (⟨0, 1, by decide, by decide⟩ : ℚ)⟩, ⟨(⟨0, 1, by decide, by decide⟩ : ℚ), (⟨0, 1, by decide, by decide⟩ : ℚ)⟩, ⟨(⟨0, 1, by decide, by decide⟩ : ℚ), (⟨0, 1, by decide, by decide⟩ : ℚ)⟩, ⟨(⟨0, 1, by decide, by decide⟩ : ℚ), (⟨0, 1, by decide, by decide⟩ : ℚ)⟩, ⟨(⟨0, 1, by decide, by decide⟩ : ℚ), (⟨0, 1, by decide, by decide⟩ : ℚ)⟩, ⟨(⟨-157500, 1, by decide, by decide⟩ : ℚ), (⟨0, 1, by decide, by decide⟩ : ℚ)⟩],
   [⟨(⟨0, 1, by decide, by decide⟩ : ℚ), (⟨0, 1, by decide, by decide⟩ : ℚ)⟩, ⟨(⟨0, 1, by decide, by decide⟩ : ℚ), (⟨0, 1, by decide, by decide⟩ : ℚ)⟩, ⟨(⟨0, 1, by decide, by decide⟩ : ℚ), (⟨0, 1, by decide, by decide⟩ : ℚ)⟩, ⟨(⟨0, 1, by decide, by decide⟩ : ℚ), (⟨0, 1, by decide, by decide⟩ : ℚ)⟩, ⟨(⟨0, 1, by decide, by decide⟩ : ℚ), (⟨0, 1, by decide, by decide⟩ : ℚ)⟩, ⟨(⟨0, 1, by decide, by decide⟩ : ℚ), (⟨0, 1, by decide, by decide⟩ : ℚ)⟩, ⟨(⟨0, 1, by decide, by decide⟩ : ℚ), (⟨0, 1, by decide, by decide⟩ : ℚ)⟩, ⟨(⟨0, 1, by decide, by decide⟩ : ℚ), (⟨0, 1, by decide, by decide⟩ : ℚ)⟩, ⟨(⟨-315000, 1, by decide, by decide⟩ : ℚ), (⟨0, 1, by decide, by decide⟩ : ℚ)⟩, ⟨(⟨0, 1, by decide, by decide⟩ : ℚ), (⟨0, 1, by decide, by decide⟩ : ℚ)⟩, ⟨(⟨315000, 1, by decide, by decide⟩ : ℚ), (⟨12600, 1, by decide, by decide⟩ : ℚ)⟩, ⟨(⟨0, 1, by decide, by decide⟩ : ℚ), (⟨-25200, 1, by decide, by decide⟩ : ℚ)⟩, ⟨(⟨0, 1, by decide, by decide⟩ : ℚ), (⟨0, 1, by decide, by decide⟩ : ℚ)⟩, ⟨(⟨0, 1, by decide, by decide⟩ : ℚ), (⟨0, 1, by decide, by decide⟩ : ℚ)⟩, ⟨(⟨0, 1, by decide, by decide⟩ : ℚ), (⟨0, 1, by decide, by decide⟩ : ℚ)⟩, ⟨(⟨0, 1, by decide, by decide⟩ : ℚ), (⟨0, 1, by decide, by decide⟩ : ℚ)⟩, ⟨(⟨0, 1, by decide, by decide⟩ : ℚ), (⟨0, 1, by decide, by decide⟩ : ℚ)⟩, ⟨(⟨0, 1, by decide, by decide⟩ : ℚ), (⟨0, 1, by decide, by decide⟩ : ℚ)⟩, ⟨(⟨0, 1, by decide, by decide⟩ : ℚ), (⟨-12600, 1, by decide, by decide⟩ : ℚ)⟩, ⟨(⟨0, 1, by decide, by decide⟩ : ℚ), (⟨25200, 1, by decide, by decide⟩ : ℚ)⟩],
   [⟨(⟨0, 1, by decide, by decide⟩ : ℚ), (⟨0, 1, by decide, by decide⟩ : ℚ)⟩, ⟨(⟨0, 1, by decide, by decide⟩ : ℚ), (⟨0, 1, by decide, by decide⟩ : ℚ)⟩, ⟨(⟨0, 1, by decide, by decide⟩ : ℚ), (⟨0, 1, by decide, by decide⟩ : ℚ)⟩, ⟨(⟨0, 1, by decide, by decide⟩ : ℚ), (⟨0, 1, by decide, by decide⟩ : ℚ)⟩, ⟨(⟨0, 1, by decide, by decide⟩ : ℚ), (⟨0, 1, by decide, by decide⟩ : ℚ)⟩, ⟨(⟨0, 1, by decide, by decide⟩ : ℚ), (⟨0, 1, by decide, by decide⟩ : ℚ)⟩, ⟨(⟨0, 1, by decide, by decide⟩ : ℚ), (⟨0, 1, by decide, by decide⟩ : ℚ)⟩, ⟨(⟨0, 1, by decide, by decide⟩ : ℚ), (⟨0, 1, by decide, by decide⟩ : ℚ)⟩, ⟨(⟨0, 1, by decide, by decide⟩ : ℚ), (⟨0, 1, by decide, by decide⟩ : ℚ)⟩, ⟨(⟨0, 1, by decide, by decide⟩ : ℚ), (⟨0, 1, by decide, by decide⟩ : ℚ)⟩, ⟨(⟨0, 1, by decide, by decide⟩ : ℚ), (⟨-25200, 1, by decide, by decide⟩ : ℚ)⟩, ⟨(⟨0, 1, by decide, by decide⟩ : ℚ), (⟨50400, 1, by decide, by decide⟩ : ℚ)⟩, ⟨(⟨0, 1, by decide, by decide⟩ : ℚ), (⟨0, 1, by decide, by decide⟩ : ℚ)⟩, ⟨(⟨0, 1, by decide, by decide⟩ : ℚ), (⟨0, 1, by decide, by decide⟩ : ℚ)⟩, ⟨(⟨0, 1, by decide, by decide⟩ : ℚ), (⟨0, 1, by decide, by decide⟩ : ℚ)⟩, ⟨(⟨0, 1, by decide, by decide⟩ : ℚ), (⟨0, 1, by decide, by decide⟩ : ℚ)⟩, ⟨(⟨0, 1, by decide, by decide⟩ : ℚ), (⟨0, 1, by decide, by decide⟩ : ℚ)⟩, ⟨(⟨0, 1, by decide, by decide⟩ : ℚ), (⟨0, 1, by decide, by decide⟩ : ℚ)⟩, ⟨(⟨0, 1, by decide, by decide⟩ : ℚ), (⟨25200, 1, by decide, by decide⟩ : ℚ)⟩, ⟨(⟨0, 1, by decide, by decide⟩ : ℚ), (⟨-50400, 1, by decide, by decide⟩ : ℚ)⟩],
   [⟨(⟨0, 1, by decide, by decide⟩ : ℚ), (⟨-12600, 1, by decide, by decide⟩ : ℚ)⟩, ⟨(⟨0, 1, by decide, by decide⟩ : ℚ), (⟨-25200, 1, by decide, by decide⟩ : ℚ)⟩, ⟨(⟨0, 1, by decide, by decide⟩ : ℚ), (⟨0, 1, by decide, by decide⟩ : ℚ)⟩, ⟨(⟨0, 1, by decide, by decide⟩ : ℚ), (⟨0, 1, by decide, by decide⟩ : ℚ)⟩, ⟨(⟨0, 1, by decide, by decide⟩ : ℚ), (⟨-12600, 1, by decide, by decide⟩ : ℚ)⟩, ⟨(⟨0, 1, by decide, by decide⟩ : ℚ), (⟨25200, 1, by decide, by decide⟩ : ℚ)⟩, ⟨(⟨0, 1, by decide, by decide⟩ : ℚ), (⟨0, 1, by decide, by decide⟩ : ℚ)⟩, ⟨(⟨0, 1, by decide, by decide⟩ : ℚ), (⟨0, 1, by decide, by decide⟩ : ℚ)⟩, ⟨(⟨0, 1, by decide, by decide⟩ : ℚ), (⟨0, 1, by decide, by decide⟩ : ℚ)⟩, ⟨(⟨0, 1, by decide, by decide⟩ : ℚ), (⟨0, 1, by decide, by decide⟩ : ℚ)⟩, ⟨(⟨0, 1, by decide, by decide⟩ : ℚ), (⟨0, 1, by decide, by decide⟩ : ℚ)⟩, ⟨(⟨0, 1, by decide, by decide⟩ : ℚ), (⟨0, 1, by decide, by decide⟩ : ℚ)⟩, ⟨(⟨315000, 1, by decide, by decide⟩ : ℚ), (⟨25200, 1, by decide, by decide⟩ : ℚ)⟩, ⟨(⟨0, 1, by decide, by decide⟩ : ℚ), (⟨0, 1, by decide, by decide⟩ : ℚ)⟩, ⟨(⟨-315000, 1, by decide, by decide⟩ : ℚ), (⟨0, 1, by decide, by decide⟩ : ℚ)⟩, ⟨(⟨0, 1, by decide, by decide⟩ : ℚ), (⟨0, 1, by decide, by decide⟩ : ℚ)⟩, ⟨(⟨0, 1, by decide, by decide⟩ : ℚ), (⟨0, 1, by decide, by decide⟩ : ℚ)⟩, ⟨(⟨0, 1, by decide, by decide⟩ : ℚ), (⟨0, 1, by decide, by decide⟩ : ℚ)⟩, ⟨(⟨0, 1, by decide, by decide⟩ : ℚ), (⟨0, 1, by decide, by decide⟩ : ℚ)⟩, ⟨(⟨0, 1, by decide, by decide⟩ : ℚ), (⟨0, 1, by decide, by decide⟩ : ℚ)⟩],
   [⟨(⟨0, 1, by decide, by decide⟩ : ℚ), (⟨-25200, 1, by decide, by decide⟩ : ℚ)⟩, ⟨(⟨0, 1, by decide, by decide⟩ : ℚ), (⟨-50400, 1, by decide, by decide⟩ : ℚ)⟩, ⟨(⟨0, 1, by decide, by decide⟩ : ℚ), (⟨0, 1, by decide, by decide⟩ : ℚ)⟩, ⟨(⟨-157500, 1, by decide, by decide⟩ : ℚ), (⟨0, 1, by decide, by decide⟩ : ℚ)⟩, ⟨(⟨0, 1, by decide, by decide⟩ : ℚ), (⟨25200, 1, by decide, by decide⟩ : ℚ)⟩, ⟨(⟨0, 1, by decide, by decide⟩ : ℚ), (⟨-50400, 1, by decide, by decide⟩ : ℚ)⟩, ⟨(⟨0, 1, by decide, by decide⟩ : ℚ), (⟨0, 1, by decide, by decide⟩ : ℚ)⟩, ⟨(⟨0, 1, by decide, by decide⟩ : ℚ), (⟨0, 1, by decide, by decide⟩ : ℚ)⟩, ⟨(⟨0, 1, by decide, by decide⟩ : ℚ), (⟨0, 1, by decide, by decide⟩ : ℚ)⟩, ⟨(⟨0, 1, by decide, by decide⟩ : ℚ), (⟨0, 1, by decide, by decide⟩ : ℚ)⟩, ⟨(⟨0, 1, by decide, by decide⟩ : ℚ), (⟨0, 1, by decide, by decide⟩ : ℚ)⟩, ⟨(⟨0, 1, by decide, by decide⟩ : ℚ), (⟨0, 1, by decide, by decide⟩ : ℚ)⟩, ⟨(⟨0, 1, by decide, by decide⟩ : ℚ), (⟨0, 1, by decide, by decide⟩ : ℚ)⟩, ⟨(⟨157500, 1, by decide, by decide⟩ : ℚ), (⟨100800, 1, by decide, by decide⟩ : ℚ)⟩, ⟨(⟨0, 1, by decide, by decide⟩ : ℚ), (⟨0, 1, by decide, by decide⟩ : ℚ)⟩, ⟨(⟨0, 1, by decide, by decide⟩ : ℚ), (⟨0, 1, by decide, by decide⟩ : ℚ)⟩, ⟨(⟨0, 1, by decide, by decide⟩ : ℚ), (⟨0, 1, by decide, by decide⟩ : ℚ)⟩, ⟨(⟨0, 1, by decide, by decide⟩ : ℚ), (⟨0, 1, by decide, by decide⟩ : ℚ)⟩, ⟨(⟨0, 1, by decide, by decide⟩ : ℚ), (⟨0, 1, by decide, by decide⟩ : ℚ)⟩, ⟨(⟨0, 1, by decide, by decide⟩ : ℚ), (⟨0, 1, by decide, by decide⟩ : ℚ)⟩],
   [⟨(⟨0, 1, by decide, by decide⟩ : ℚ), (⟨0, 1, by decide, by decide⟩ : ℚ)⟩, ⟨(⟨0, 1, by decide, by decide⟩ : ℚ), (⟨0, 1, by decide, by decide⟩ : ℚ)⟩, ⟨(⟨0, 1, by decide, by decide⟩ : ℚ), (⟨0, 1, by decide, by decide⟩ : ℚ)⟩, ⟨(⟨0, 1, by decide, by decide⟩ : ℚ), (⟨0, 1, by decide, by decide⟩ : ℚ)⟩, ⟨(⟨0, 1, by decide, by decide⟩ : ℚ), (⟨0, 1, by decide, by decide⟩ : ℚ)⟩, ⟨(⟨0, 1, by decide, by decide⟩ : ℚ), (⟨0, 1, by decide, by decide⟩ : ℚ)⟩, ⟨(⟨0, 1, by decide, by decide⟩ : ℚ), (⟨-12600, 1, by decide, by decide⟩ : ℚ)⟩, ⟨(⟨0, 1, by decide, by decide⟩ : ℚ), (⟨25200, 1, by decide, by decide⟩ : ℚ)⟩, ⟨(⟨0, 1, by decide, by decide⟩ : ℚ), (⟨0, 1, by decide, by decide⟩ : ℚ)⟩, ⟨(⟨0, 1, by decide, by decide⟩ : ℚ), (⟨0, 1, by decide, by decide⟩ : ℚ)⟩, ⟨(⟨0, 1, by decide, by decide⟩ : ℚ), (⟨0, 1, by decide, by decide⟩ : ℚ)⟩, ⟨(⟨0, 1, by decide, by decide⟩ : ℚ), (⟨0, 1, by decide, by decide⟩ : ℚ)⟩, ⟨(⟨-315000, 1, by decide, by decide⟩ : ℚ), (⟨0, 1, by decide, by decide⟩ : ℚ)⟩, ⟨(⟨0, 1, by decide, by decide⟩ : ℚ), (⟨0, 1, by decide, by decide⟩ : ℚ)⟩, ⟨(⟨630000, 1, by decide, by decide⟩ : ℚ), (⟨12600, 1, by decide, by decide⟩ : ℚ)⟩, ⟨(⟨0, 1, by decide, by decide⟩ : ℚ), (⟨-25200, 1, by decide, by decide⟩ : ℚ)⟩, ⟨(⟨-315000, 1, by decide, by decide⟩ : ℚ), (⟨0, 1, by decide, by decide⟩ : ℚ)⟩, ⟨(⟨0, 1, by decide, by decide⟩ : ℚ), (⟨0, 1, by decide, by decide⟩ : ℚ)⟩, ⟨(⟨0, 1, by decide, by decide⟩ : ℚ), (⟨0, 1, by decide, by decide⟩ : ℚ)⟩, ⟨(⟨0, 1, by decide, by decide⟩ : ℚ), (⟨0, 1, by decide, by decide⟩ : ℚ)⟩],
   [⟨(⟨0, 1, by decide, by decide⟩ : ℚ), (⟨0, 1, by decide, by decide⟩ : ℚ)⟩, ⟨(⟨0, 1, by decide, by decide⟩ : ℚ), (⟨0, 1, by decide, by decide⟩ : ℚ)⟩, ⟨(⟨0, 1, by decide, by decide⟩ : ℚ), (⟨0, 1, by decide, by decide⟩ : ℚ)⟩, ⟨(⟨0, 1, by decide, by decide⟩ : ℚ), (⟨0, 1, by decide, by decide⟩ : ℚ)⟩, ⟨(⟨0, 1, by decide, by decide⟩ : ℚ), (⟨0, 1, by decide, by decide⟩ : ℚ)⟩, ⟨(⟨-157500, 1, by decide, by decide⟩ : ℚ), (⟨0, 1, by decide, by decide⟩ : ℚ)⟩, ⟨(⟨0, 1, by decide, by decide⟩ : ℚ), (⟨25200, 1, by decide, by decide⟩ : ℚ)⟩, ⟨(⟨0, 1, by decide, by decide⟩ : ℚ), (⟨-50400, 1, by decide, by decide⟩ : ℚ)⟩, ⟨(⟨0, 1, by decide, by decide⟩ : ℚ), (⟨0, 1, by decide, by decide⟩ : ℚ)⟩, ⟨(⟨0, 1, by decide, by decide⟩ : ℚ), (⟨0, 1, by decide, by decide⟩ : ℚ)⟩, ⟨(⟨0, 1, by decide, by decide⟩ : ℚ), (⟨0, 1, by decide, by decide⟩ : ℚ)⟩, ⟨(⟨0, 1, by decide, by decide⟩ : ℚ), (⟨0, 1, by decide, by decide⟩ : ℚ)⟩, ⟨(⟨0, 1, by decide, by decide⟩ : ℚ), (⟨0, 1, by decide, by decide⟩ : ℚ)⟩, ⟨(⟨0, 1, by decide, by decide⟩ : ℚ), (⟨0, 1, by decide, by decide⟩ : ℚ)⟩, ⟨(⟨0, 1, by decide, by decide⟩ : ℚ), (⟨-25200, 1, by decide, by decide⟩ : ℚ)⟩, ⟨(⟨157500, 1, by decide, by decide⟩ : ℚ), (⟨50400, 1, by decide, by decide⟩ : ℚ)⟩, ⟨(⟨0, 1, by decide, by decide⟩ : ℚ), (⟨0, 1, by decide, by decide⟩ : ℚ)⟩, ⟨(⟨0, 1, by decide, by decide⟩ : ℚ), (⟨0, 1, by decide, by decide⟩ : ℚ)⟩, ⟨(⟨0, 1, by decide, by decide⟩ : ℚ), (⟨0, 1, by decide, by decide⟩ : ℚ)⟩, ⟨(⟨0, 1, by decide, by decide⟩ : ℚ), (⟨0, 1, by decide, by decide⟩ : ℚ)⟩],
   [⟨(⟨0, 1, by decide, by decide⟩ : ℚ), (⟨0, 1, by decide, by decide⟩ : ℚ)⟩, ⟨(⟨0, 1, by decide, by decide⟩ : ℚ), (⟨0, 1, by decide, by decide⟩ : ℚ)⟩, ⟨(⟨0, 1, by decide, by decide⟩ : ℚ), (⟨0, 1, by decide, by decide⟩ : ℚ)⟩, ⟨(⟨0, 1, by decide, by decide⟩ : ℚ), (⟨0, 1, by decide, by decide⟩ : ℚ)⟩, ⟨(⟨0, 1, by decide, by decide⟩ : ℚ), (⟨-12600, 1, by decide, by decide⟩ : ℚ)⟩, ⟨(⟨0, 1, by decide, by decide⟩ : ℚ), (⟨-25200, 1, by decide, by decide⟩ : ℚ)⟩, ⟨(⟨0, 1, by decide, by decide⟩ : ℚ), (⟨0, 1, by decide, by decide⟩ : ℚ)⟩, ⟨(⟨0, 1, by decide, by decide⟩ : ℚ), (⟨0, 1, by decide, by decide⟩ : ℚ)⟩, ⟨(⟨0, 1, by decide, by decide⟩ : ℚ), (⟨0, 1, by decide, by decide⟩ : ℚ)⟩, ⟨(⟨0, 1, by decide, by decide⟩ : ℚ), (⟨0, 1, by decide, by decide⟩ : ℚ)⟩, ⟨(⟨0, 1, by decide, by decide⟩ : ℚ), (⟨0, 1, by decide, by decide⟩ : ℚ)⟩, ⟨(⟨0, 1, by decide, by decide⟩ : ℚ), (⟨0, 1, by decide, by decide⟩ : ℚ)⟩, ⟨(⟨0, 1, by decide, by decide⟩ : ℚ), (⟨0, 1, by decide, by decide⟩ : ℚ)⟩, ⟨(⟨0, 1, by decide, by decide⟩ : ℚ), (⟨0, 1, by decide, by decide⟩ : ℚ)⟩, ⟨(⟨-315000, 1, by decide, by decide⟩ : ℚ), (⟨0, 1, by decide, by decide⟩ : ℚ)⟩, ⟨(⟨0, 1, by decide, by decide⟩ : ℚ), (⟨0, 1, by decide, by decide⟩ : ℚ)⟩, ⟨(⟨630000, 1, by decide, by decide⟩ : ℚ), (⟨12600, 1, by decide, by decide⟩ : ℚ)⟩, ⟨(⟨0, 1, by decide, by decide⟩ : ℚ), (⟨25200, 1, by decide, by decide⟩ : ℚ)⟩, ⟨(⟨-315000, 1, by decide, by decide⟩ : ℚ), (⟨0, 1, by decide, by decide⟩ : ℚ)⟩, ⟨(⟨0, 1, by decide, by decide⟩ : ℚ), (⟨0, 1, by decide, by decide⟩ : ℚ)⟩],
   [⟨(⟨0, 1, by decide, by decide⟩ : ℚ), (⟨0, 1, by decide, by decide⟩ : ℚ)⟩, ⟨(⟨0, 1, by decide, by decide⟩ : ℚ), (⟨0, 1, by decide, by decide⟩ : ℚ)⟩, ⟨(⟨0, 1, by decide, by decide⟩ : ℚ), (⟨0, 1, by decide, by decide⟩ : ℚ)⟩, ⟨(⟨0, 1, by decide, by decide⟩ : ℚ), (⟨0, 1, by decide, by decide⟩ : ℚ)⟩, ⟨(⟨0, 1, by decide, by decide⟩ : ℚ), (⟨-25200, 1, by decide, by decide⟩ : ℚ)⟩, ⟨(⟨0, 1, by decide, by decide⟩ : ℚ), (⟨-50400, 1, by decide, by decide⟩ : ℚ)⟩, ⟨(⟨0, 1, by decide, by decide⟩ : ℚ), (⟨0, 1, by decide, by decide⟩ : ℚ)⟩, ⟨(⟨-157500, 1, by decide, by decide⟩ : ℚ), (⟨0, 1, by decide, by decide⟩ : ℚ)⟩, ⟨(⟨0, 1, by decide, by decide⟩ : ℚ), (⟨0, 1, by decide, by decide⟩ : ℚ)⟩, ⟨(⟨0, 1, by decide, by decide⟩ : ℚ), (⟨0, 1, by decide, by decide⟩ : ℚ)⟩, ⟨(⟨0, 1, by decide, by decide⟩ : ℚ), (⟨0, 1, by decide, by decide⟩ : ℚ)⟩, ⟨(⟨0, 1, by decide, by decide⟩ : ℚ), (⟨0, 1, by decide, by decide⟩ : ℚ)⟩, ⟨(⟨0, 1, by decide, by decide⟩ : ℚ), (⟨0, 1, by decide, by decide⟩ : ℚ)⟩, ⟨(⟨0, 1, by decide, by decide⟩ : ℚ), (⟨0, 1, by decide, by decide⟩ : ℚ)⟩, ⟨(⟨0, 1, by decide, by decide⟩ : ℚ), (⟨0, 1, by decide, by decide⟩ : ℚ)⟩, ⟨(⟨0, 1, by decide, by decide⟩ : ℚ), (⟨0, 1, by decide, by decide⟩ : ℚ)⟩, ⟨(⟨0, 1, by decide, by decide⟩ : ℚ), (⟨25200, 1, by decide, by decide⟩ : ℚ)⟩, ⟨(⟨157500, 1, by decide, by decide⟩ : ℚ), (⟨50400, 1, by decide, by decide⟩ : ℚ)⟩, ⟨(⟨0, 1, by decide, by decide⟩ : ℚ), (⟨0, 1, by decide, by decide⟩ : ℚ)⟩, ⟨(⟨0, 1, by decide, by decide⟩ : ℚ), (⟨0, 1, by decide, by decide⟩ : ℚ)⟩],
   [⟨(⟨0, 1, by decide, by decide⟩ : ℚ), (⟨0, 1, by decide, by decide⟩ : ℚ)⟩, ⟨(⟨0, 1, by decide, by decide⟩ : ℚ), (⟨0, 1, by decide, by decide⟩ : ℚ)⟩, ⟨(⟨0, 1, by decide, by decide⟩ : ℚ), (⟨0, 1, by decide, by decide⟩ : ℚ)⟩, ⟨(⟨0, 1, by decide, by decide⟩ : ℚ), (⟨0, 1, by decide, by decide⟩ : ℚ)⟩, ⟨(⟨0, 1, by decide, by decide⟩ : ℚ), (⟨0, 1, by decide, by decide⟩ : ℚ)⟩, ⟨(⟨0, 1, by decide, by decide⟩ : ℚ), (⟨0, 1, by decide, by decide⟩ : ℚ)⟩, ⟨(⟨0, 1, by decide, by decide⟩ : ℚ), (⟨-12600, 1, by decide, by decide⟩ : ℚ)⟩, ⟨(⟨0, 1, by decide, by decide⟩ : ℚ), (⟨-25200, 1, by decide, by decide⟩ : ℚ)⟩, ⟨(⟨0, 1, by decide, by decide⟩ : ℚ), (⟨0, 1, by decide, by decide⟩ : ℚ)⟩, ⟨(⟨0, 1, by decide, by decide⟩ : ℚ), (⟨0, 1, by decide, by decide⟩ : ℚ)⟩, ⟨(⟨0, 1, by decide, by decide⟩ : ℚ), (⟨-12600, 1, by decide, by decide⟩ : ℚ)⟩, ⟨(⟨0, 1, by decide, by decide⟩ : ℚ), (⟨25200, 1, by decide, by decide⟩ : ℚ)⟩, ⟨(⟨0, 1, by decide, by decide⟩ : ℚ), (⟨0, 1, by decide, by decide⟩ : ℚ)⟩, ⟨(⟨0, 1, by decide, by decide⟩ : ℚ), (⟨0, 1, by decide, by decide⟩ : ℚ)⟩, ⟨(⟨0, 1, by decide, by decide⟩ : ℚ), (⟨0, 1, by decide, by decide⟩ : ℚ)⟩, ⟨(⟨0, 1, by decide, by decide⟩ : ℚ), (⟨0, 1, by decide, by decide⟩ : ℚ)⟩, ⟨(⟨-315000, 1, by decide, by decide⟩ : ℚ), (⟨0, 1, by decide, by decide⟩ : ℚ)⟩, ⟨(⟨0, 1, by decide, by decide⟩ : ℚ), (⟨0, 1, by decide, by decide⟩ : ℚ)⟩, ⟨(⟨315000, 1, by decide, by decide⟩ : ℚ), (⟨25200, 1, by decide, by decide⟩ : ℚ)⟩, ⟨(⟨0, 1, by decide, by decide⟩ : ℚ), (⟨0, 1, by decide, by decide⟩ : ℚ)⟩],
   [⟨(⟨0, 1, by decide, by decide⟩ : ℚ), (⟨0, 1, by decide, by decide⟩ : ℚ)⟩, ⟨(⟨0, 1, by decide, by decide⟩ : ℚ), (⟨0, 1, by decide, by decide⟩ : ℚ)⟩, ⟨(⟨0, 1, by decide, by decide⟩ : ℚ), (⟨0, 1, by decide, by decide⟩ : ℚ)⟩, ⟨(⟨0, 1, by decide, by decide⟩ : ℚ), (⟨0, 1, by decide, by decide⟩ : ℚ)⟩, ⟨(⟨0, 1, by decide, by decide⟩ : ℚ), (⟨0, 1, by decide, by decide⟩ : ℚ)⟩, ⟨(⟨0, 1, by decide, by decide⟩ : ℚ), (⟨0, 1, by decide, by decide⟩ : ℚ)⟩, ⟨(⟨0, 1, by decide, by decide⟩ : ℚ), (⟨-25200, 1, by decide, by decide⟩ : ℚ)⟩, ⟨(⟨0, 1, by decide, by decide⟩ : ℚ), (⟨-50400, 1, by decide, by decide⟩ : ℚ)⟩, ⟨(⟨0, 1, by decide, by decide⟩ : ℚ), (⟨0, 1, by decide, by decide⟩ : ℚ)⟩, ⟨(⟨-157500, 1, by decide, by decide⟩ : ℚ), (⟨0, 1, by decide, by decide⟩ : ℚ)⟩, ⟨(⟨0, 1, by decide, by decide⟩ : ℚ), (⟨25200, 1, by decide, by decide⟩ : ℚ)⟩, ⟨(⟨0, 1, by decide, by decide⟩ : ℚ), (⟨-50400, 1, by decide, by decide⟩ : ℚ)⟩, ⟨(⟨0, 1, by decide, by decide⟩ : ℚ), (⟨0, 1, by decide, by decide⟩ : ℚ)⟩, ⟨(⟨0, 1, by decide, by decide⟩ : ℚ), (⟨0, 1, by decide, by decide⟩ : ℚ)⟩, ⟨(⟨0, 1, by decide, by decide⟩ : ℚ), (⟨0, 1, by decide, by decide⟩ : ℚ)⟩, ⟨(⟨0, 1, by decide, by decide⟩ : ℚ), (⟨0, 1, by decide, by decide⟩ : ℚ)⟩, ⟨(⟨0, 1, by decide, by decide⟩ : ℚ), (⟨0, 1, by decide, by decide⟩ : ℚ)⟩, ⟨(⟨0, 1, by decide, by decide⟩ : ℚ), (⟨0, 1, by decide, by decide⟩ : ℚ)⟩, ⟨(⟨0, 1, by decide, by decide⟩ : ℚ), (⟨0, 1, by decide, by decide⟩ : ℚ)⟩, ⟨(⟨157500, 1, by decide, by decide⟩ : ℚ), (⟨100800, 1, by decide, by decide⟩ : ℚ)⟩]]

set_option maxRecDepth 4000 in
/-- Dense assembly of the bridge elements yields the explicit global
stiffness matrix. -/
theorem bridgeKLit_eq : denseAssemble (denseInit 20) bridgeElemsL = bridgeKLit := by
  with_unfolding_all rfl

theorem bridgeDofBounds : ∀ d ∈ bridgeElemsL, ∀ s : Fin 4, elemDofs d s < 20 := by
  decide

/-- Every entry of the assembled bridge matrix is the corresponding entry
of the explicit matrix. -/
theorem bridgeK_entry (i j : ℕ) : bridgeK i j = entryOf bridgeKLit i j := by
  have h := entryOf_denseAssemble bridgeDofBounds (goodDims_denseInit 20) i j
  rw [bridgeKLit_eq] at h
  rw [h, bridgeK]
  have hz : (entryOf (denseInit 20) : ℕ → ℕ → Qr5) = fun _ _ => 0 :=
    funext fun x => funext fun y => entryOf_denseInit 20 x y
  rw [hz]
/-- The reduced stiffness matrix of the bridge over `ℤ[√5]`. -/
def bridgeAZ : List (List Zr5) :=
  [[⟨630000, 0⟩, ⟨0, 0⟩, ⟨-315000, 0⟩, ⟨0, 0⟩, ⟨0, 0⟩, ⟨0, 0⟩, ⟨0, 0⟩, ⟨0, 0⟩, ⟨0, 0⟩, ⟨0, 0⟩, ⟨0, 0⟩, ⟨0, 0⟩, ⟨0, 0⟩, ⟨0, 0⟩, ⟨0, 0⟩, ⟨0, 0⟩, ⟨0, 0⟩],
   [⟨0, 0⟩, ⟨157500, 0⟩, ⟨0, 0⟩, ⟨0, 0⟩, ⟨0, 0⟩, ⟨0, 0⟩, ⟨0, 0⟩, ⟨0, 0⟩, ⟨0, 0⟩, ⟨0, 0⟩, ⟨-157500, 0⟩, ⟨0, 0⟩, ⟨0, 0⟩, ⟨0, 0⟩, ⟨0, 0⟩, ⟨0, 0⟩, ⟨0, 0⟩],
   [⟨-315000, 0⟩, ⟨0, 0⟩, ⟨630000, 25200⟩, ⟨0, 0⟩, ⟨-315000, 0⟩, ⟨0, 0⟩, ⟨0, 0⟩, ⟨0, 0⟩, ⟨0, 0⟩, ⟨0, -12600⟩, ⟨0, 25200⟩, ⟨0, 0⟩, ⟨0, 0⟩, ⟨0, -12600⟩, ⟨0, -25200⟩, ⟨0, 0⟩, ⟨0, 0⟩],
   [⟨0, 0⟩, ⟨0, 0⟩, ⟨0, 0⟩, ⟨157500, 100800⟩, ⟨0, 0⟩, ⟨0, 0⟩, ⟨0, 0⟩, ⟨0, 0⟩, ⟨0, 0⟩, ⟨0, 25200⟩, ⟨0, -50400⟩, ⟨0, 0⟩, ⟨-157500, 0⟩, ⟨0, -25200⟩, ⟨0, -50400⟩, ⟨0, 0⟩, ⟨0, 0⟩],
   [⟨0, 0⟩, ⟨0, 0⟩, ⟨-315000, 0⟩, ⟨0, 0⟩, ⟨630000, 25200⟩, ⟨0, 0⟩, ⟨-315000, 0⟩, ⟨0, 0⟩, ⟨0, 0⟩, ⟨0, 0⟩, ⟨0, 0⟩, ⟨0, -12600⟩, ⟨0, 25200⟩, ⟨0, 0⟩, ⟨0, 0⟩, ⟨0, -12600⟩, ⟨0, -25200⟩],
   [⟨0, 0⟩, ⟨0, 0⟩, ⟨0, 0⟩, ⟨0, 0⟩, ⟨0, 0⟩, ⟨157500, 100800⟩, ⟨0, 0⟩, ⟨0, 0⟩, ⟨0, 0⟩, ⟨0, 0⟩, ⟨0, 0⟩, ⟨0, 25200⟩, ⟨0, -50400⟩, ⟨0, 0⟩, ⟨-157500, 0⟩, ⟨0, -25200⟩, ⟨0, -50400⟩],
   [⟨0, 0⟩, ⟨0, 0⟩, ⟨0, 0⟩, ⟨0, 0⟩, ⟨-315000, 0⟩, ⟨0, 0⟩, ⟨630000, 0⟩, ⟨0, 0⟩, ⟨-315000, 0⟩, ⟨0, 0⟩, ⟨0, 0⟩, ⟨0, 0⟩, ⟨0, 0⟩, ⟨0, 0⟩, ⟨0, 0⟩, ⟨0, 0⟩, ⟨0, 0⟩],
   [⟨0, 0⟩, ⟨0, 0⟩, ⟨0, 0⟩, ⟨0, 0⟩, ⟨0, 0⟩, ⟨0, 0⟩, ⟨0, 0⟩, ⟨157500, 0⟩, ⟨0, 0⟩, ⟨0, 0⟩, ⟨0, 0⟩, ⟨0, 0⟩, ⟨0, 0⟩, ⟨0, 0⟩, ⟨0, 0⟩, ⟨0, 0⟩, ⟨-157500, 0⟩],
   [⟨0, 0⟩, ⟨0, 0⟩, ⟨0, 0⟩, ⟨0, 0⟩, ⟨0, 0⟩, ⟨0, 0⟩, ⟨-315000, 0⟩, ⟨0, 0⟩, ⟨315000, 12600⟩, ⟨0, 0⟩, ⟨0, 0⟩, ⟨0, 0⟩, ⟨0, 0⟩, ⟨0, 0⟩, ⟨0, 0⟩, ⟨0, -12600⟩, ⟨0, 25200⟩],
   [⟨0, 0⟩, ⟨0, 0⟩, ⟨0, -12600⟩, ⟨0, 25200⟩, ⟨0, 0⟩, ⟨0, 0⟩, ⟨0, 0⟩, ⟨0, 0⟩, ⟨0, 0⟩, ⟨315000, 25200⟩, ⟨0, 0⟩, ⟨-315000, 0⟩, ⟨0, 0⟩, ⟨0, 0⟩, ⟨0, 0⟩, ⟨0, 0⟩, ⟨0, 0⟩],
   [⟨0, 0⟩, ⟨-157500, 0⟩, ⟨0, 25200⟩, ⟨0, -50400⟩, ⟨0, 0⟩, ⟨0, 0⟩, ⟨0, 0⟩, ⟨0, 0⟩, ⟨0, 0⟩, ⟨0, 0⟩, ⟨157500, 100800⟩, ⟨0, 0⟩, ⟨0, 0⟩, ⟨0, 0⟩, ⟨0, 0⟩, ⟨0, 0⟩, ⟨0, 0⟩],
   [⟨0, 0⟩, ⟨0, 0⟩, ⟨0, 0⟩, ⟨0, 0⟩, ⟨0, -12600⟩, ⟨0, 25200⟩, ⟨0, 0⟩, ⟨0, 0⟩, ⟨0, 0⟩, ⟨-315000, 0⟩, ⟨0, 0⟩, ⟨630000, 12600⟩, ⟨0, -25200⟩, ⟨-315000, 0⟩, ⟨0, 0⟩, ⟨0, 0⟩, ⟨0, 0⟩],
   [⟨0, 0⟩, ⟨0, 0⟩, ⟨0, 0⟩, ⟨-157500, 0⟩, ⟨0, 25200⟩, ⟨0, -50400⟩, ⟨0, 0⟩, ⟨0, 0⟩, ⟨0, 0⟩, ⟨0, 0⟩, ⟨0, 0⟩, ⟨0, -25200⟩, ⟨157500, 50400⟩, ⟨0, 0⟩, ⟨0, 0⟩, ⟨0, 0⟩, ⟨0, 0⟩],
   [⟨0, 0⟩, ⟨0, 0⟩, ⟨0, -12600⟩, ⟨0, -25200⟩, ⟨0, 0⟩, ⟨0, 0⟩, ⟨0, 0⟩, ⟨0, 0⟩, ⟨0, 0⟩, ⟨0, 0⟩, ⟨0, 0⟩, ⟨-315000, 0⟩, ⟨0, 0⟩, ⟨630000, 12600⟩, ⟨0, 25200⟩, ⟨-315000, 0⟩, ⟨0, 0⟩],
   [⟨0, 0⟩, ⟨0, 0⟩, ⟨0, -25200⟩, ⟨0, -50400⟩, ⟨0, 0⟩, ⟨-157500, 0⟩, ⟨0, 0⟩, ⟨0, 0⟩, ⟨0, 0⟩, ⟨0, 0⟩, ⟨0, 0⟩, ⟨0, 0⟩, ⟨0, 0⟩, ⟨0, 25200⟩, ⟨157500, 50400⟩, ⟨0, 0⟩, ⟨0, 0⟩],
   [⟨0, 0⟩, ⟨0, 0⟩, ⟨0, 0⟩, ⟨0, 0⟩, ⟨0, -12600⟩, ⟨0, -25200⟩, ⟨0, 0⟩, ⟨0, 0⟩, ⟨0, -12600⟩, ⟨0, 0⟩, ⟨0, 0⟩, ⟨0, 0⟩, ⟨0, 0⟩, ⟨-315000, 0⟩, ⟨0, 0⟩, ⟨315000, 25200⟩, ⟨0, 0⟩],
   [⟨0, 0⟩, ⟨0, 0⟩, ⟨0, 0⟩, ⟨0, 0⟩, ⟨0, -25200⟩, ⟨0, -50400⟩, ⟨0, 0⟩, ⟨-157500, 0⟩, ⟨0, 25200⟩, ⟨0, 0⟩, ⟨0, 0⟩, ⟨0, 0⟩, ⟨0, 0⟩, ⟨0, 0⟩, ⟨0, 0⟩, ⟨0, 0⟩, ⟨157500, 100800⟩]]

/-- `693000000` times the inverse of the reduced stiffness matrix, over `ℤ[√5]`. -/
def bridgeCZ : List (List Zr5) :=
  [[⟨2200, 0⟩, ⟨-880, 0⟩, ⟨2200, 0⟩, ⟨-660, 0⟩, ⟨2200, 0⟩, ⟨-440, 0⟩, ⟨2200, 0⟩, ⟨-220, 0⟩, ⟨2200, 0⟩, ⟨1760, 0⟩, ⟨-880, 0⟩, ⟨1760, 0⟩, ⟨-660, 0⟩, ⟨1760, 0⟩, ⟨-440, 0⟩, ⟨1760, 0⟩, ⟨-220, 0⟩],
   [⟨-880, 0⟩, ⟨5797, 2145⟩, ⟨-1760, 0⟩, ⟨1914, 1540⟩, ⟨-2310, 0⟩, ⟨1386, 1210⟩, ⟨-2530, 0⟩, ⟨803, 605⟩, ⟨-2750, 0⟩, ⟨-2794, 110⟩, ⟨1397, 2145⟩, ⟨-2134, 110⟩, ⟨1474, 1540⟩, ⟨-1584, 110⟩, ⟨1826, 1210⟩, ⟨-1144, 110⟩, ⟨803, 605⟩],
   [⟨2200, 0⟩, ⟨-1760, 0⟩, ⟨4400, 0⟩, ⟨-1320, 0⟩, ⟨4400, 0⟩, ⟨-880, 0⟩, ⟨4400, 0⟩, ⟨-440, 0⟩, ⟨4400, 0⟩, ⟨3520, 0⟩, ⟨-1760, 0⟩, ⟨3520, 0⟩, ⟨-1320, 0⟩, ⟨3520, 0⟩, ⟨-880, 0⟩, ⟨3520, 0⟩, ⟨-440, 0⟩],
   [⟨-660, 0⟩, ⟨1914, 1540⟩, ⟨-1320, 0⟩, ⟨3168, 3080⟩, ⟨-2420, 0⟩, ⟨2332, 2420⟩, ⟨-2860, 0⟩, ⟨1386, 1210⟩, ⟨-3300, 0⟩, ⟨-3828, 220⟩, ⟨1914, 1540⟩, ⟨-2508, 220⟩, ⟨2288, 3080⟩, ⟨-1408, 220⟩, ⟨3212, 2420⟩, ⟨-528, 220⟩, ⟨1386, 1210⟩],
   [⟨2200, 0⟩, ⟨-2310, 0⟩, ⟨4400, 0⟩, ⟨-2420, 0⟩, ⟨6825, -125⟩, ⟨-1980, 0⟩, ⟨6825, -125⟩, ⟨-990, 0⟩, ⟨6825, -125⟩, ⟨4620, 0⟩, ⟨-2310, 0⟩, ⟨4620, 0⟩, ⟨-1520, -500⟩, ⟨4845, -125⟩, ⟨-1080, -500⟩, ⟨4845, -125⟩, ⟨-990, 0⟩],
   [⟨-440, 0⟩, ⟨1386, 1210⟩, ⟨-880, 0⟩, ⟨2332, 2420⟩, ⟨-1980, 0⟩, ⟨3168, 3080⟩, ⟨-2640, 0⟩, ⟨1914, 1540⟩, ⟨-3300, 0⟩, ⟨-2772, -220⟩, ⟨1386, 1210⟩, ⟨-1892, -220⟩, ⟨3212, 2420⟩, ⟨-792, -220⟩, ⟨2288, 3080⟩, ⟨528, -220⟩, ⟨1914, 1540⟩],
   [⟨2200, 0⟩, ⟨-2530, 0⟩, ⟨4400, 0⟩, ⟨-2860, 0⟩, ⟨6825, -125⟩, ⟨-2640, 0⟩, ⟨9025, -125⟩, ⟨-1870, 0⟩, ⟨9025, -125⟩, ⟨5060, 0⟩, ⟨-2530, 0⟩, ⟨5060, 0⟩, ⟨-1960, -500⟩, ⟨5285, -125⟩, ⟨-1740, -500⟩, ⟨5285, -125⟩, ⟨-1870, 0⟩],
   [⟨-220, 0⟩, ⟨803, 605⟩, ⟨-440, 0⟩, ⟨1386, 1210⟩, ⟨-990, 0⟩, ⟨1914, 1540⟩, ⟨-1870, 0⟩, ⟨5797, 2145⟩, ⟨-2750, 0⟩, ⟨-1606, -110⟩, ⟨803, 605⟩, ⟨-1166, -110⟩, ⟨1826, 1210⟩, ⟨-616, -110⟩, ⟨1474, 1540⟩, ⟨44, -110⟩, ⟨1397, 2145⟩],
   [⟨2200, 0⟩, ⟨-2750, 0⟩, ⟨4400, 0⟩, ⟨-3300, 0⟩, ⟨6825, -125⟩, ⟨-3300, 0⟩, ⟨9025, -125⟩, ⟨-2750, 0⟩, ⟨11225, -125⟩, ⟨5500, 0⟩, ⟨-2750, 0⟩, ⟨5500, 0⟩, ⟨-2400, -500⟩, ⟨5725, -125⟩, ⟨-2400, -500⟩, ⟨5725, -125⟩, ⟨-2750, 0⟩],
   [⟨1760, 0⟩, ⟨-2794, 110⟩, ⟨3520, 0⟩, ⟨-3828, 220⟩, ⟨4620, 0⟩, ⟨-2772, -220⟩, ⟨5060, 0⟩, ⟨-1606, -110⟩, ⟨5500, 0⟩, ⟨5588, 1980⟩, ⟨-2794, 110⟩, ⟨4268, 1980⟩, ⟨-2948, 220⟩, ⟨3168, 1980⟩, ⟨-3652, -220⟩, ⟨2288, 1980⟩, ⟨-1606, -110⟩],
   [⟨-880, 0⟩, ⟨1397, 2145⟩, ⟨-1760, 0⟩, ⟨1914, 1540⟩, ⟨-2310, 0⟩, ⟨1386, 1210⟩, ⟨-2530, 0⟩, ⟨803, 605⟩, ⟨-2750, 0⟩, ⟨-2794, 110⟩, ⟨1397, 2145⟩, ⟨-2134, 110⟩, ⟨1474, 1540⟩, ⟨-1584, 110⟩, ⟨1826, 1210⟩, ⟨-1144, 110⟩, ⟨803, 605⟩],
   [⟨1760, 0⟩, ⟨-2134, 110⟩, ⟨3520, 0⟩, ⟨-2508, 220⟩, ⟨4620, 0⟩, ⟨-1892, -220⟩, ⟨5060, 0⟩, ⟨-1166, -110⟩, ⟨5500, 0⟩, ⟨4268, 1980⟩, ⟨-2134, 110⟩, ⟨5148, 1980⟩, ⟨-1628, 220⟩, ⟨4048, 1980⟩, ⟨-2772, -220⟩, ⟨3168, 1980⟩, ⟨-1166, -110⟩],
   [⟨-660, 0⟩, ⟨1474, 1540⟩, ⟨-1320, 0⟩, ⟨2288, 3080⟩, ⟨-1520, -500⟩, ⟨3212, 2420⟩, ⟨-1960, -500⟩, ⟨1826, 1210⟩, ⟨-2400, -500⟩, ⟨-2948, 220⟩, ⟨1474, 1540⟩, ⟨-1628, 220⟩, ⟨9408, 1080⟩, ⟨372, -280⟩, ⟨7692, 420⟩, ⟨1252, -280⟩, ⟨1826, 1210⟩],
   [⟨1760, 0⟩, ⟨-1584, 110⟩, ⟨3520, 0⟩, ⟨-1408, 220⟩, ⟨4845, -125⟩, ⟨-792, -220⟩, ⟨5285, -125⟩, ⟨-616, -110⟩, ⟨5725, -125⟩, ⟨3168, 1980⟩, ⟨-1584, 110⟩, ⟨4048, 1980⟩, ⟨372, -280⟩, ⟨5373, 1855⟩, ⟨-772, -720⟩, ⟨4493, 1855⟩, ⟨-616, -110⟩],
   [⟨-440, 0⟩, ⟨1826, 1210⟩, ⟨-880, 0⟩, ⟨3212, 2420⟩, ⟨-1080, -500⟩, ⟨2288, 3080⟩, ⟨-1740, -500⟩, ⟨1474, 1540⟩, ⟨-2400, -500⟩, ⟨-3652, -220⟩, ⟨1826, 1210⟩, ⟨-2772, -220⟩, ⟨7692, 420⟩, ⟨-772, -720⟩, ⟨9408, 1080⟩, ⟨548, -720⟩, ⟨1474, 1540⟩],
   [⟨1760, 0⟩, ⟨-1144, 110⟩, ⟨3520, 0⟩, ⟨-528, 220⟩, ⟨4845, -125⟩, ⟨528, -220⟩, ⟨5285, -125⟩, ⟨44, -110⟩, ⟨5725, -125⟩, ⟨2288, 1980⟩, ⟨-1144, 110⟩, ⟨3168, 1980⟩, ⟨1252, -280⟩, ⟨4493, 1855⟩, ⟨548, -720⟩, ⟨5813, 1855⟩, ⟨44, -110⟩],
   [⟨-220, 0⟩, ⟨803, 605⟩, ⟨-440, 0⟩, ⟨1386, 1210⟩, ⟨-990, 0⟩, ⟨1914, 1540⟩, ⟨-1870, 0⟩, ⟨1397, 2145⟩, ⟨-2750, 0⟩, ⟨-1606, -110⟩, ⟨803, 605⟩, ⟨-1166, -110⟩, ⟨1826, 1210⟩, ⟨-616, -110⟩, ⟨1474, 1540⟩, ⟨44, -110⟩, ⟨1397, 2145⟩]]

/-- The reduced stiffness matrix rows, read off from the explicit global
matrix at the free DOFs. -/
def bridgeAList : List (List Qr5) :=
  (List.range 17).map fun i => (List.range 17).map fun j =>
    entryOf bridgeKLit (bridgeFreeL.getD i 0) (bridgeFreeL.getD j 0)

theorem bridgeA_eq : reducedMatrix bridgeK bridgeFreeL = ofList 17 bridgeAList := by
  funext i j
  show bridgeK (bridgeFreeL.get i) (bridgeFreeL.get j) =
    (bridgeAList.getD i.val []).getD j.val 0
  rw [bridgeAList, getD_map_range _ _ (show i.val < 17 from i.isLt),
    getD_map_range _ _ (show j.val < 17 from j.isLt), bridgeK_entry,
    List.getD_eq_getElem _ _ i.isLt, List.getD_eq_getElem _ _ j.isLt]
  rfl

set_option maxRecDepth 4000 in
theorem bridgeAList_eq : bridgeAList = mapmat toQr5 bridgeAZ := by
  with_unfolding_all rfl

set_option maxRecDepth 4000 in
set_option maxHeartbeats 1000000 in
theorem zcert : zMatMul 17 bridgeAZ bridgeCZ = zdiag 17 693000000 := by
  with_unfolding_all rfl

/-- A right inverse of the reduced stiffness matrix. -/
def bridgeBmat : Matrix (Fin 17) (Fin 17) Qr5 :=
  (((693000000 : ℤ) : Qr5))⁻¹ • ofList 17 (mapmat toQr5 bridgeCZ)

theorem bridgeCert : ofList 17 bridgeAList * bridgeBmat = 1 := by
  show ofList 17 bridgeAList *
    ((((693000000 : ℤ) : Qr5))⁻¹ • ofList 17 (mapmat toQr5 bridgeCZ)) = 1
  rw [bridgeAList_eq, Matrix.mul_smul, ofList_mm_hom, zcert, ofList_mapmat_zdiag]
  have hc : ((693000000 : ℤ) : Qr5) ≠ 0 := by
    intro h
    have h2 : ((693000000 : ℤ) : ℚ) = 0 := congrArg Qr5.a h
    norm_num at h2
  rw [smul_smul, inv_mul_cancel₀ hc, one_smul]

theorem bridge_isUnit_det : IsUnit (reducedMatrix bridgeK bridgeFreeL).det := by
  rw [bridgeA_eq]
  exact Matrix.isUnit_det_of_right_inverse bridgeCert

theorem bridge_det_ne : ¬ (reducedMatrix bridgeK bridgeFreeL).det = 0 :=
  bridge_isUnit_det.ne_zero

/-- The free part of the bridge displacement solution. -/
def bridgeUf : Fin bridgeFreeL.length → Qr5 :=
  (reducedMatrix bridgeK bridgeFreeL).det⁻¹ •
    (reducedMatrix bridgeK bridgeFreeL).adjugate.mulVec
      (reducedRhs bridgeK bridgeBc bridgeFreeL bridgeFixedL)

/-- The full bridge displacement vector. -/
def bridgeU : ℕ → Qr5 := composeU bridgeBc bridgeFreeL bridgeUf

/-- The bridge solve succeeds and produces `bridgeU`. -/
theorem bridge_solve : solve_steady bridgeK bridgeBc 20 = .ok bridgeU := by
  show (if (reducedMatrix bridgeK (freeDofs bridgeBc 20)).det = 0
      then (Except.error "singular reduced stiffness matrix" : Except String (ℕ → Qr5))
      else .ok (composeU bridgeBc (freeDofs bridgeBc 20)
        ((reducedMatrix bridgeK (freeDofs bridgeBc 20)).det⁻¹ •
          (reducedMatrix bridgeK (freeDofs bridgeBc 20)).adjugate.mulVec
            (reducedRhs bridgeK bridgeBc (freeDofs bridgeBc 20) (fixedDofs bridgeBc 20))))) =
    .ok bridgeU
  rw [bridgeFree_eq, bridgeFixed_eq, if_neg bridge_det_ne]
  rfl

/-! ## Generic facts about the pipeline used by the claim theorems -/

section PipelineFacts

variable {F : Type} [Field F] [DecidableEq F]

/-- Every member of a successful error-propagating map comes from some input
element that mapped successfully to it. -/
theorem exMapM_ok_mem {α β : Type} (f : α → Except String β) :
    ∀ {l : List α} {bs : List β}, exMapM f l = .ok bs →
      ∀ b ∈ bs, ∃ a ∈ l, f a = .ok b := by
  intro l
  induction l with
  | nil =>
    intro bs h b hb
    rw [exMapM] at h
    cases h
    cases hb
  | cons a as ih =>
    intro bs h b hb
    rw [exMapM] at h
    cases hfa : f a with
    | error e => rw [hfa] at h; cases h
    | ok b0 =>
      rw [hfa] at h
      cases hrest : exMapM f as with
      | error e => rw [hrest] at h; cases h
      | ok bs0 =>
        rw [hrest] at h
        cases h
        rcases List.mem_cons.mp hb with rfl | hb2
        · exact ⟨a, List.mem_cons_self a as, hfa⟩
        · obtain ⟨a2, ha2, hfa2⟩ := ih hrest b hb2
          exact ⟨a2, List.mem_cons_of_mem a ha2, hfa2⟩

/-- An error-propagating map fails as soon as any input element fails. -/
theorem exMapM_error_of_mem {α β : Type} (f : α → Except String β) :
    ∀ {l : List α}, (∃ a ∈ l, ∃ e, f a = .error e) →
      ∃ e2, exMapM f l = .error e2 := by
  intro l
  induction l with
  | nil => rintro ⟨a, ha, _⟩; cases ha
  | cons a as ih =>
    rintro ⟨a0, ha0, e, he⟩
    rcases List.mem_cons.mp ha0 with rfl | ha1
    · exact ⟨e, by rw [exMapM, he]⟩
    · cases hfa : f a with
      | error e1 => exact ⟨e1, by rw [exMapM, hfa]⟩
      | ok b =>
        obtain ⟨e1, he1⟩ := ih ⟨a0, ha1, e, he⟩
        exact ⟨e1, by rw [exMapM, hfa, he1]⟩

/-- Shape of a successful formulation: the element has nonzero length and
its local stiffness matrix is the classic rod matrix built from its own
stiffness coefficient and direction cosines. -/
theorem formulate_ok_spec {sq : F → F} {m : Mesh F} {pr : Props F} {c : Cell}
    {d : ElemDat F} (h : formulate sq m pr c = .ok d) :
    d.L ≠ 0 ∧ d.K = rodK (d.E * d.A / d.L) (d.dx / d.L) (d.dy / d.L) := by
  unfold formulate at h
  cases hva : m.vertAt c.va with
  | none =>
    rw [hva] at h
    cases hvb : m.vertAt c.vb <;> rw [hvb] at h <;> simp at h
  | some v1 =>
    rw [hva] at h
    cases hvb : m.vertAt c.vb with
    | none => rw [hvb] at h; simp at h
    | some v2 =>
      rw [hvb] at h
      cases hEA : lookupProp pr c.tag with
      | none => rw [hEA] at h; simp at h
      | some EA =>
        rw [hEA] at h
        dsimp only at h
        by_cases hL : sq ((v2.x - v1.x) ^ 2 + (v2.y - v1.y) ^ 2) = 0
        · rw [if_pos hL] at h; cases h
        · rw [if_neg hL] at h
          injection h with h
          subst h
          exact ⟨hL, rfl⟩

/-- The classic rod stiffness matrix is symmetric. -/
theorem rodK_symm (k cx cy : F) (i j : Fin 4) :
    rodK k cx cy i j = rodK k cx cy j i := by
  fin_cases i <;> fin_cases j <;> rfl

/-- Scatter-adding a symmetric local matrix preserves symmetry of the
global matrix. -/
theorem scatterAdd_symm_pres {dofs : Fin 4 → ℕ} {Ke : Fin 4 → Fin 4 → F}
    (hKe : ∀ s t, Ke s t = Ke t s) {K : ℕ → ℕ → F} (hK : ∀ i j, K i j = K j i)
    (i j : ℕ) : scatterAdd dofs Ke K i j = scatterAdd dofs Ke K j i := by
  rw [scatterAdd_eq_sum, scatterAdd_eq_sum, hK i j, Finset.sum_comm]
  refine congrArg (_ + ·) ?_
  refine Finset.sum_congr rfl fun s _ => Finset.sum_congr rfl fun t _ => ?_
  exact if_congr and_comm (hKe t s) rfl

/-- Assembly from a symmetric initial matrix with symmetric element
matrices yields a symmetric matrix. -/
theorem assembleFrom_symm :
    ∀ (ds : List (ElemDat F)) (K0 : ℕ → ℕ → F),
      (∀ d ∈ ds, ∀ s t, d.K s t = d.K t s) → (∀ i j, K0 i j = K0 j i) →
      ∀ i j, assembleFrom K0 ds i j = assembleFrom K0 ds j i := by
  intro ds
  induction ds with
  | nil => intro K0 _ h0 i j; exact h0 i j
  | cons d ds ih =>
    intro K0 hds h0 i j
    show assembleFrom (scatterAdd (elemDofs d) d.K K0) ds i j = _
    exact ih _ (fun x hx s t => hds x (List.mem_cons_of_mem d hx) s t)
      (fun p q => scatterAdd_symm_pres (hds d (List.mem_cons_self d ds)) h0 p q) i j

/-- The steady solve unfolded to its branching form. -/
theorem solve_unfold {K : ℕ → ℕ → F} {bc : ℕ → DofBC F} {nd : ℕ} :
    solve_steady K bc nd =
      if (reducedMatrix K (freeDofs bc nd)).det = 0
      then .error "singular reduced stiffness matrix"
      else .ok (composeU bc (freeDofs bc nd)
        ((reducedMatrix K (freeDofs bc nd)).det⁻¹ •
          (reducedMatrix K (freeDofs bc nd)).adjugate.mulVec
            (reducedRhs K bc (freeDofs bc nd) (fixedDofs bc nd)))) := rfl

/-- A successful solve means the reduced determinant is nonzero and the
result is the composed adjugate-formula solution. -/
theorem solve_ok_shape {K : ℕ → ℕ → F} {bc : ℕ → DofBC F} {nd : ℕ} {u : ℕ → F}
    (h : solve_steady K bc nd = .ok u) :
    (reducedMatrix K (freeDofs bc nd)).det ≠ 0 ∧
      u = composeU bc (freeDofs bc nd)
        ((reducedMatrix K (freeDofs bc nd)).det⁻¹ •
          (reducedMatrix K (freeDofs bc nd)).adjugate.mulVec
            (reducedRhs K bc (freeDofs bc nd) (fixedDofs bc nd))) := by
  rw [solve_unfold] at h
  by_cases hd : (reducedMatrix K (freeDofs bc nd)).det = 0
  · rw [if_pos hd] at h; cases h
  · rw [if_neg hd] at h
    injection h with h
    exact ⟨hd, h.symm⟩

/-- The solve errors exactly when the reduced determinant vanishes. -/
theorem solve_error_iff_det {K : ℕ → ℕ → F} {bc : ℕ → DofBC F} {nd : ℕ} :
    (∃ msg, solve_steady K bc nd = .error msg) ↔
      (reducedMatrix K (freeDofs bc nd)).det = 0 := by
  constructor
  · rintro ⟨msg, h⟩
    rw [solve_unfold] at h
    by_cases hd : (reducedMatrix K (freeDofs bc nd)).det = 0
    · exact hd
    · rw [if_neg hd] at h; cases h
  · intro hd
    exact ⟨"singular reduced stiffness matrix", by rw [solve_unfold, if_pos hd]⟩

/-- The composed displacement at an essential DOF is the prescribed value. -/
theorem composeU_ess {bc : ℕ → DofBC F} {free : List ℕ}
    {uf : Fin free.length → F} {n : ℕ} {v : F} (h : bc n = .ess v) :
    composeU bc free uf n = v := by
  simp only [composeU, h]

/-- The free DOF list is duplicate-free. -/
theorem freeDofs_nodup (bc : ℕ → DofBC F) (nd : ℕ) : (freeDofs bc nd).Nodup :=
  (List.nodup_range nd).filter _

/-- Membership in the free DOF list means the DOF is natural. -/
theorem mem_freeDofs {bc : ℕ → DofBC F} {nd n : ℕ} (h : n ∈ freeDofs bc nd) :
    ∃ f, bc n = .nat f := by
  have hp := List.of_mem_filter h
  cases hb : bc n with
  | ess v => rw [hb] at hp; cases hp
  | nat f => exact ⟨f, rfl⟩

/-- An essential DOF is never listed among the free DOFs. -/
theorem ess_not_mem_freeDofs {bc : ℕ → DofBC F} {nd n : ℕ} {v : F}
    (h : bc n = .ess v) : n ∉ freeDofs bc nd := by
  intro hm
  obtain ⟨f, hf⟩ := mem_freeDofs hm
  rw [h] at hf
  cases hf

/-- The composed displacement at the i-th free DOF is the i-th entry of the
free solution vector. -/
theorem composeU_free {bc : ℕ → DofBC F} {free : List ℕ} (hnd : free.Nodup)
    (uf : Fin free.length → F) (i : Fin free.length) {f : F}
    (h : bc (free.get i) = .nat f) :
    composeU bc free uf (free.get i) = uf i := by
  have hmem : free.get i ∈ free := List.get_mem free i.1 i.2
  simp only [composeU, h]
  rw [dif_pos hmem]
  refine congrArg uf (Fin.ext ?_)
  simp only [List.get_eq_getElem]
  exact List.indexOf_getElem hnd i.1 i.2

/-- The full analysis pipeline of the driver script: mesh validation, then
formulation and assembly, then boundary conditions and the steady solve. -/
def runPipeline (sq : F → F) (verts : List (Vert F)) (cells : List Cell)
    (pr : Props F) (vb : BCSpec F) (nd : ℕ) : Except String (ℕ → F) :=
  match FEMmesh verts cells with
  | .error e => .error e
  | .ok m =>
    match assembleK sq m pr with
    | .error e => .error e
    | .ok K => solve_steady K (set_bcs m vb).1 nd

/-- The direction-cosine vector of the spec (SS 4.3): `(cx, cy)` duplicated
with flipped sign for the second node, stated in the spec's own words. -/
def specRodS (d : ElemDat F) : Fin 4 → F :=
  ![d.dx / d.L, d.dy / d.L, -(d.dx / d.L), -(d.dy / d.L)]

/-- The x-aligned rod pattern of the spec: k times this matrix. -/
def specXAligned : Fin 4 → Fin 4 → F :=
  ![![1, 0, -1, 0], ![0, 0, 0, 0], ![-1, 0, 1, 0], ![0, 0, 0, 0]]

/-- Classification of a conflicting DOF: when the DOF-direction carries both
a prescribed displacement and a prescribed load, the state is essential with
the prescribed displacement and the conflict flag is raised. -/
theorem dofState_conflict {m : Mesh F} {vb : BCSpec F} {n : ℕ} {ver : Vert F}
    {es : List (BCKey × F)} {uv fv : F}
    (hver : m.verts.get? (n / 2) = some ver)
    (hes : (vb.find? fun e => e.1 == ver.tag).map (·.2) = some es)
    (hkeys : (if n % 2 = 0 then (lookupKey es .ux, lookupKey es .fx)
      else (lookupKey es .uy, lookupKey es .fy)) = (some uv, some fv)) :
    dofState m vb n = (.ess uv, true) := by
  unfold dofState
  rw [hver]
  simp only
  rw [hes]
  simp only
  by_cases hn2 : n % 2 = 0
  · rw [if_pos hn2] at hkeys
    have hu : lookupKey es .ux = some uv := congrArg Prod.fst hkeys
    have hf : lookupKey es .fx = some fv := congrArg Prod.snd hkeys
    rw [if_pos hn2]
    unfold classifyDir
    rw [hu, hf]
  · rw [if_neg hn2] at hkeys
    have hu : lookupKey es .uy = some uv := congrArg Prod.fst hkeys
    have hf : lookupKey es .fy = some fv := congrArg Prod.snd hkeys
    rw [if_neg hn2]
    unfold classifyDir
    rw [hu, hf]

end PipelineFacts

/-! ## The report of the driver script (source lines 64-84) and its
fixed-width scientific number format -/

/-- Decimal digit character of the last decimal digit of a natural number. -/
def digitChar (n : ℕ) : Char :=
  [ '0', '1', '2', '3', '4', '5', '6', '7', '8', '9'].getD (n % 10) '0'

theorem digitChar_isDigit (n : ℕ) : (digitChar n).isDigit = true := by
  rw [digitChar]
  have h : n % 10 < 10 := Nat.mod_lt _ (by norm_num)
  revert h
  generalize n % 10 = k
  intro h
  interval_cases k <;> decide

/-- A digit character never equals the exponent marker. -/
theorem isDigit_ne_e {c : Char} (h : c.isDigit = true) : (c != 'e') = true := by
  cases hc : c == 'e' with
  | false => simp [bne, hc]
  | true =>
    rw [eq_of_beq hc] at h
    exact absurd h (by decide)

/-- Fixed-width decimal rendering: the `k` decimal digits of `n`, most
significant first (`n` is taken modulo `10 ^ k`). -/
def fixDigits (k n : ℕ) : List Char :=
  (List.range k).map fun i => digitChar (n / 10 ^ (k - 1 - i))

theorem fixDigits_length (k n : ℕ) : (fixDigits k n).length = k := by
  simp [fixDigits]

theorem fixDigits_digit (k n : ℕ) : ∀ c ∈ fixDigits k n, c.isDigit = true := by
  intro c hc
  obtain ⟨i, _, rfl⟩ := List.mem_map.mp hc
  exact digitChar_isDigit _

/-- Decimal exponent of a rational at least 1, by repeated division. -/
def expUp : ℕ → ℚ → ℤ
  | 0, _ => 0
  | fuel + 1, q => if q < 10 then 0 else expUp fuel (q / 10) + 1

/-- Decimal exponent of a positive rational below 1, by repeated
multiplication. -/
def expDown : ℕ → ℚ → ℤ
  | 0, _ => 0
  | fuel + 1, q => if 1 ≤ q then 0 else expDown fuel (q * 10) - 1

/-- Decimal exponent of a positive rational (the power of ten of its
leading digit), with fuel covering every magnitude arising here. -/
def expOf (q : ℚ) : ℤ :=
  if 1 ≤ q then expUp 600 q else expDown 600 q

/-- Rounded 16-digit mantissa of a positive rational (round-half-up). -/
def mantOf (q : ℚ) : ℤ :=
  Int.floor (q * (10 : ℚ) ^ ((15 : ℤ) - expOf q) + 1 / 2)

/-- Character layout of one scientific-notation number: optional sign, one
leading digit, point, fifteen further digits, then the exponent field. -/
def sciChars (neg : Bool) (ds etail : List Char) : List Char :=
  (cond neg [ '-'] [] ++ (ds.take 1 ++ '.' :: ds.drop 1)) ++ 'e' :: etail

/-- Modelled from the spec: the C-style conversion `%23.15e` used for every
numeric field of the report — sign, mantissa rounded to one leading digit
plus 15 fractional digits, and a signed two-digit decimal exponent. -/
def fmtChars (q : ℚ) : List Char :=
  cond (ratEqb q 0) (sciChars false (List.replicate 16 '0') [ '+', '0', '0'])
    (let e0 := expOf |q|
     let m0 := mantOf |q|
     let me := cond (intEqb m0 (10 ^ 16)) ((10 : ℤ) ^ 15, e0 + 1) (m0, e0)
     sciChars (decide (q < 0)) (fixDigits 16 me.1.toNat)
       (cond (decide (me.2 < 0)) '-' '+' :: fixDigits 2 me.2.natAbs))

/-- Left padding with spaces to a total width. -/
def padLeftChars (w : ℕ) (l : List Char) : List Char :=
  List.replicate (w - l.length) ' ' ++ l

/-- Modelled from the spec: the full fixed-width 23-character field
produced by `%23.15e`. -/
def fmtSci15 (q : ℚ) : String := String.mk (padLeftChars 23 (fmtChars q))

/-- Number of significant digits a scientific-notation field displays: the
digit characters before the exponent marker. -/
def sigCount (s : String) : ℕ :=
  ((s.data.takeWhile fun c => c != 'e').filter Char.isDigit).length

/-- Layout facts of one padded scientific field: 23 characters total and 16
displayed mantissa digits. -/
theorem sciChars_spec (neg : Bool) (ds etail : List Char)
    (hlen : ds.length = 16) (hds : ∀ c ∈ ds, c.isDigit = true)
    (hetl : etail.length ≤ 3) :
    (String.mk (padLeftChars 23 (sciChars neg ds etail))).length = 23 ∧
    sigCount (String.mk (padLeftChars 23 (sciChars neg ds etail))) = 16 := by
  have hbl : (sciChars neg ds etail).length ≤ 23 := by
    cases neg <;>
      simp [sciChars, List.length_append, hlen] <;> omega
  have hpp : ∀ a ∈ cond neg [ '-'] [] ++ (ds.take 1 ++ '.' :: ds.drop 1),
      (a != 'e') = true := by
    intro a ha
    rcases List.mem_append.mp ha with h1 | h2
    · cases neg with
      | false => cases h1
      | true =>
        rcases List.mem_singleton.mp h1 with rfl
        decide
    · rcases List.mem_append.mp h2 with h3 | h4
      · exact isDigit_ne_e (hds a (List.mem_of_mem_take h3))
      · rcases List.mem_cons.mp h4 with rfl | h5
        · decide
        · exact isDigit_ne_e (hds a (List.mem_of_mem_drop h5))
  have hfil : ((cond neg [ '-'] [] ++ (ds.take 1 ++ '.' :: ds.drop 1)).filter
      Char.isDigit).length = 16 := by
    rw [List.filter_append, List.filter_append,
      List.filter_cons_of_neg (by decide),
      List.filter_eq_self.mpr (fun c hc => hds c (List.mem_of_mem_take hc)),
      List.filter_eq_self.mpr (fun c hc => hds c (List.mem_of_mem_drop hc))]
    have hsign : (List.filter Char.isDigit (cond neg [ '-'] [])).length = 0 := by
      cases neg <;> rfl
    rw [List.length_append, List.length_append, hsign, List.length_take,
      List.length_drop, hlen]
    omega
  constructor
  · show (padLeftChars 23 (sciChars neg ds etail)).length = 23
    rw [padLeftChars, List.length_append, List.length_replicate]
    omega
  · show ((padLeftChars 23 (sciChars neg ds etail)).takeWhile
        (fun c => c != 'e') |>.filter Char.isDigit).length = 16
    rw [padLeftChars,
      List.takeWhile_append_of_pos
        (fun a ha => by rw [List.eq_of_mem_replicate ha]; decide),
      sciChars,
      List.takeWhile_append_of_pos hpp,
      List.takeWhile_cons_of_neg (by decide),
      List.append_nil, List.filter_append, List.length_append,
      List.filter_eq_nil_iff.mpr
        (fun a ha => by rw [List.eq_of_mem_replicate ha]; decide),
      hfil]
    rfl

/-- Every field the formatter produces is 23 characters wide and shows 16
significant digits (1 before the point and 15 after). -/
theorem fmt_width_sig (q : ℚ) :
    (fmtSci15 q).length = 23 ∧ sigCount (fmtSci15 q) = 16 := by
  rw [fmtSci15, fmtChars]
  cases hq : ratEqb q 0
  · rw [Bool.cond_false]
    exact sciChars_spec _ _ _ (fixDigits_length 16 _) (fixDigits_digit 16 _)
      (by simp [fixDigits_length])
  · rw [Bool.cond_true]
    exact sciChars_spec false _ _ (by simp)
      (fun c hc => by rw [List.eq_of_mem_replicate hc]; decide) (by decide)

/-- Accumulative separator-prefixed concatenation, translated from the
report loops of the driver script: the separator is appended before every
part except the first. -/
def sepFold (sep : String) (parts : List String) : String :=
  (parts.foldl (fun a p => (a.1 ++ cond a.2 sep "" ++ p, true)) ("", false)).1

/-- Separator-joined concatenation as the spec describes the report rows:
the parts in order with the separator between consecutive parts. -/
def joinSep (sep : String) : List String → String
  | [] => ""
  | [p] => p
  | p :: q :: qs => p ++ sep ++ joinSep sep (q :: qs)

/-- Per-part prefixed concatenation (every part preceded by the separator). -/
def joinPre (sep : String) : List String → String
  | [] => ""
  | p :: ps => sep ++ p ++ joinPre sep ps

theorem sepFold_go (sep : String) :
    ∀ (ps : List String) (acc : String),
      (ps.foldl (fun a p => (a.1 ++ cond a.2 sep "" ++ p, true)) (acc, true)).1 =
        acc ++ joinPre sep ps := by
  intro ps
  induction ps with
  | nil => intro acc; show acc = acc ++ ""; rw [String.append_empty]
  | cons p ps ih =>
    intro acc
    show (ps.foldl _ (acc ++ sep ++ p, true)).1 = _
    rw [ih, joinPre]
    simp [String.append_assoc]
theorem joinSep_eq_joinPre (sep : String) :
    ∀ (ps : List String) (p : String),
      joinSep sep (p :: ps) = p ++ joinPre sep ps := by
  intro ps
  induction ps with
  | nil => intro p; show p = p ++ ""; rw [String.append_empty]
  | cons q qs ih =>
    intro p
    show p ++ sep ++ joinSep sep (q :: qs) = p ++ (sep ++ q ++ joinPre sep qs)
    rw [ih q]
    simp [String.append_assoc]

/-- The accumulative separator loop equals the separator-joined list. -/
theorem sepFold_eq_joinSep (sep : String) (ps : List String) :
    sepFold sep ps = joinSep sep ps := by
  cases ps with
  | nil => rfl
  | cons p ps =>
    show (ps.foldl _ ("" ++ "" ++ p, true)).1 = _
    rw [sepFold_go, joinSep_eq_joinPre]
    rfl

/-- One displacement row of the report: the two formatted components of one
vertex, translated from the disp loop of the driver script. -/
def dispLines (fmt : Qr5 → String) (ux uy : List Qr5) : List String :=
  (ux.zip uy).map fun p => "    [" ++ fmt p.1 ++ "," ++ fmt p.2 ++ "]"

/-- One stress row of the report per element, translated from the sigmas
loop of the driver script. -/
def sigmaLines (fmt : Qr5 → String) (sa : List Qr5) : List String :=
  sa.map fun s => "    [[" ++ fmt s ++ "]]"

/-- The whole report string, translated statement by statement from the
driver script (source lines 64-84): Kmats blocks, then displacement pairs,
then stresses, all joined by the accumulative separator loop. -/
def buildReport (fmt : Qr5 → String) (Ks : List (Fin 4 → Fin 4 → Qr5))
    (ux uy sa : List Qr5) : String :=
  "[\n\x7b\n  \"Kmats\":[\n" ++
  sepFold ",\n" (Ks.map fun K => "    [\n" ++
    sepFold ",\n" ((List.finRange 4).map fun j => "      [" ++
      sepFold "," ((List.finRange 4).map fun k => fmt (K j k)) ++ "]") ++
    "\n    ]") ++
  "\n  ],\n  \"disp\":[\n" ++ sepFold ",\n" (dispLines fmt ux uy) ++
  "\n  ],\n  \"sigmas\":[\n" ++ sepFold ",\n" (sigmaLines fmt sa) ++
  "\n  ]\n\x7d\n]"

/-- A concrete formatter for the bridge report model: format the rational
part of a field value. -/
def qfmt (v : Qr5) : String := fmtSci15 v.a

/-! ## Small concrete instances used by the claim witnesses -/

/-- A single x-aligned rod of length 2 over the rationals. -/
def miniVerts : List (Vert ℚ) := [⟨0, 0, 0, 0⟩, ⟨1, 0, 2, 0⟩]

def miniCells : List Cell := [⟨0, -1, 0, 1⟩]

def miniMesh : Mesh ℚ := ⟨miniVerts, miniCells⟩

def miniProps : Props ℚ := [(-1, 100, (3 : ℚ))]

/-- The element the formulator produces for the mini rod. -/
def miniElem : ElemDat ℚ := ⟨0, 1, 100, 3, 2, 0, 2, rodK (100 * 3 / 2) (2 / 2) (0 / 2)⟩

theorem mini_formulateAll : formulateAll sqrtQ miniMesh miniProps = .ok [miniElem] := by
  with_unfolding_all rfl

/-- Malformed inputs: a duplicate vertex id. -/
def badVertsDup : List (Vert ℚ) := [⟨0, 0, 0, 0⟩, ⟨0, 0, 1, 0⟩]

/-- A well-formed two-vertex list. -/
def goodVerts2 : List (Vert ℚ) := [⟨0, 0, 0, 0⟩, ⟨1, 0, 1, 0⟩]

/-- Malformed inputs: a duplicate cell id. -/
def badCellsDup : List Cell := [⟨0, -1, 0, 1⟩, ⟨0, -1, 0, 1⟩]

/-- Malformed inputs: a cell referencing the absent vertex id 7. -/
def badCellsDangling : List Cell := [⟨0, -1, 0, 7⟩]

/-- A mesh whose single cell has two distinct vertices at the same point. -/
def zeroMesh : Mesh ℚ := ⟨[⟨0, 0, 2, 3⟩, ⟨1, 0, 2, 3⟩], [⟨0, -1, 0, 1⟩]⟩

def zeroProps : Props ℚ := [(-1, 1, (1 : ℚ))]

/-- A one-DOF system with a singular (zero) stiffness matrix. -/
def sysK0 : ℕ → ℕ → ℚ := fun _ _ => 0

/-- A one-DOF system with the identity stiffness matrix. -/
def sysK1 : ℕ → ℕ → ℚ := fun i j => if i = j then 1 else 0

/-- One natural DOF carrying a unit load. -/
def sysBc : ℕ → DofBC ℚ := fun _ => .nat 1

/-- The composed solution of the invertible one-DOF system. -/
def sysU : ℕ → ℚ :=
  composeU sysBc (freeDofs sysBc 1)
    ((reducedMatrix sysK1 (freeDofs sysBc 1)).det⁻¹ •
      (reducedMatrix sysK1 (freeDofs sysBc 1)).adjugate.mulVec
        (reducedRhs sysK1 sysBc (freeDofs sysBc 1) (fixedDofs sysBc 1)))

/-- The assembled bridge stiffness map is what `assembleK` returns. -/
theorem bridge_assembleK : assembleK sqrtQ5 bridgeMesh bridgeProps = .ok bridgeK := by
  rw [assembleK, bridge_formulateAll]
  rfl

/-! ## The claim theorems -/

/-- C1: every element the formulator produces has stiffness entries
K i j = k · sᵢ · sⱼ with k = E·A/L and s the direction-cosine vector
(cx, cy) duplicated with flipped sign for the second node; for a rod
aligned with the x-axis (dx = L, dy = 0) the matrix is exactly k times the
pattern [[1,0,-1,0],[0,0,0,0],[-1,0,1,0],[0,0,0,0]]. -/
theorem C1_rod_stiffness {G : Type} [Field G] [DecidableEq G]
    (sq : G → G) (m : Mesh G) (pr : Props G) (ds : List (ElemDat G))
    (h : formulateAll sq m pr = .ok ds) :
    ∀ d ∈ ds,
      (∀ i j, d.K i j = d.E * d.A / d.L * (specRodS d i * specRodS d j)) ∧
      (d.dx = d.L → d.dy = 0 →
        ∀ i j, d.K i j = d.E * d.A / d.L * specXAligned i j) := by
  intro d hd
  obtain ⟨c, hc, hfc⟩ := exMapM_ok_mem _ h d hd
  obtain ⟨hL, hK⟩ := formulate_ok_spec hfc
  constructor
  · intro i j
    rw [hK, rodK, specRodS]
    fin_cases i <;> fin_cases j <;> first | rfl | simp [mul_comm]
  · intro hx hy i j
    have h1 : d.dx / d.L = 1 := by rw [hx]; exact div_self hL
    have h2 : d.dy / d.L = 0 := by rw [hy, zero_div]
    rw [hK, rodK, specXAligned]
    fin_cases i <;> fin_cases j <;>
      first | rfl | simp [h1, h2, Matrix.vecHead, Matrix.vecTail, mul_comm]

/-- C1 witness: both properties instantiated on the concrete x-aligned
mini rod produced by the formulator. -/
theorem C1_witness :
    miniElem.K 0 2 = miniElem.E * miniElem.A / miniElem.L *
      (specRodS miniElem 0 * specRodS miniElem 2) ∧
    miniElem.K 0 0 = miniElem.E * miniElem.A / miniElem.L * specXAligned 0 0 := by
  have h := C1_rod_stiffness sqrtQ miniMesh miniProps [miniElem]
    mini_formulateAll miniElem (List.mem_singleton.mpr rfl)
  exact ⟨h.1 0 2, h.2 rfl rfl 0 0⟩

/-- C2: for every mesh and property registry on which assembly succeeds,
the assembled global stiffness matrix is symmetric. -/
theorem C2_global_symmetry {G : Type} [Field G] [DecidableEq G] (sq : G → G)
    (m : Mesh G) (pr : Props G) (K : ℕ → ℕ → G)
    (h : assembleK sq m pr = .ok K) : ∀ i j, K i j = K j i := by
  rw [assembleK] at h
  cases hfa : formulateAll sq m pr with
  | error e => rw [hfa] at h; simp [Except.map] at h
  | ok ds =>
    rw [hfa] at h
    simp only [Except.map] at h
    injection h with h
    subst h
    intro i j
    refine assembleFrom_symm ds (fun _ _ => 0) ?_ (fun _ _ => rfl) i j
    intro d hd s t
    obtain ⟨c, hc, hfc⟩ := exMapM_ok_mem _ hfa d hd
    obtain ⟨-, hK⟩ := formulate_ok_spec hfc
    rw [hK]
    exact rodK_symm _ _ _ s t

/-- C2 witness: symmetry of one off-diagonal pair of the assembled bridge
stiffness matrix. -/
theorem C2_witness : bridgeK 2 3 = bridgeK 3 2 :=
  C2_global_symmetry sqrtQ5 bridgeMesh bridgeProps bridgeK bridge_assembleK 2 3

/-- C3: a successful solve reproduces every prescribed essential
displacement exactly, and in the bridge01 scenario the displacement arrays
of get_u carry exactly 0 for the ux and uy of vertex 0 and for the uy of
vertex 5. -/
theorem C3_essential_roundtrip :
    (∀ (G : Type) [Field G] [DecidableEq G] (K : ℕ → ℕ → G)
        (bc : ℕ → DofBC G) (nd : ℕ) (u : ℕ → G) (n : ℕ) (v : G),
        solve_steady K bc nd = .ok u → bc n = .ess v → u n = v) ∧
    (∃ u : ℕ → Qr5, solve_steady bridgeK bridgeBc 20 = .ok u ∧
      (get_u u 10).1.getD 0 1 = 0 ∧ (get_u u 10).2.getD 0 1 = 0 ∧
      (get_u u 10).2.getD 5 1 = 0) := by
  constructor
  · intro G iF iD K bc nd u n v hok hbc
    obtain ⟨-, rfl⟩ := solve_ok_shape hok
    exact composeU_ess hbc
  · refine ⟨bridgeU, bridge_solve, ?_, ?_, ?_⟩
    · exact (getD_map_range (fun i => bridgeU (2 * i)) (1 : Qr5)
        (show 0 < 10 by norm_num)).trans (by with_unfolding_all rfl)
    · exact (getD_map_range (fun i => bridgeU (2 * i + 1)) (1 : Qr5)
        (show 0 < 10 by norm_num)).trans (by with_unfolding_all rfl)
    · exact (getD_map_range (fun i => bridgeU (2 * i + 1)) (1 : Qr5)
        (show 5 < 10 by norm_num)).trans (by with_unfolding_all rfl)

/-- C3 witness: the generic round-trip property applied to the bridge
solve at the essential DOF 11 (vertex 5, uy). -/
theorem C3_witness : bridgeU 11 = 0 :=
  C3_essential_roundtrip.1 Qr5 bridgeK bridgeBc 20 bridgeU 11 0 bridge_solve
    (by with_unfolding_all rfl)

/-- C4: malformed meshes fail: duplicate vertex ids, duplicate cell ids and
dangling vertex references are validation errors of mesh construction, and
a cell whose two endpoints coincide is a geometry error of formulation (so
no stiffness data is ever produced from it). -/
theorem C4_malformed_inputs :
    (∀ (G : Type) [Field G] [DecidableEq G] (verts : List (Vert G))
      (cells : List Cell), ¬ (verts.map Vert.vid).Nodup →
      ∃ msg, FEMmesh verts cells = .error msg) ∧
    (∀ (G : Type) [Field G] [DecidableEq G] (verts : List (Vert G))
      (cells : List Cell), ¬ (cells.map Cell.cid).Nodup →
      ∃ msg, FEMmesh verts cells = .error msg) ∧
    (∀ (G : Type) [Field G] [DecidableEq G] (verts : List (Vert G))
      (cells : List Cell),
      (∃ c ∈ cells, c.va ∉ verts.map Vert.vid ∨ c.vb ∉ verts.map Vert.vid) →
      ∃ msg, FEMmesh verts cells = .error msg) ∧
    (∀ (G : Type) [Field G] [DecidableEq G] (sq : G → G) (m : Mesh G)
      (pr : Props G) (c : Cell) (v1 v2 : Vert G) (EA : G × G),
      sq 0 = 0 → m.vertAt c.va = some v1 → m.vertAt c.vb = some v2 →
      v2.x = v1.x → v2.y = v1.y → lookupProp pr c.tag = some EA →
      formulate sq m pr c = .error "geometry: zero-length rod" ∧
      (c ∈ m.cells → ∃ e, formulateAll sq m pr = .error e)) := by
  refine ⟨?_, ?_, ?_, ?_⟩
  · intro G _ _ verts cells h1
    exact ⟨"validation: duplicate vertex id", by unfold FEMmesh; rw [if_pos h1]⟩
  · intro G _ _ verts cells h2
    by_cases h1 : (verts.map Vert.vid).Nodup
    · exact ⟨"validation: duplicate cell id",
        by unfold FEMmesh; rw [if_neg (not_not_intro h1), if_pos h2]⟩
    · exact ⟨"validation: duplicate vertex id", by unfold FEMmesh; rw [if_pos h1]⟩
  · intro G _ _ verts cells hd
    by_cases h1 : (verts.map Vert.vid).Nodup
    · by_cases h2 : (cells.map Cell.cid).Nodup
      · have h3 : ¬ (cells.all fun c =>
            (verts.any fun v => v.vid == c.va) &&
              (verts.any fun v => v.vid == c.vb)) = true := by
          intro hall
          obtain ⟨c, hc, hmiss⟩ := hd
          have hcheck := List.all_eq_true.mp hall c hc
          rw [Bool.and_eq_true, List.any_eq_true, List.any_eq_true] at hcheck
          obtain ⟨⟨va, hvam, hva2⟩, vbv, hvbm, hvb2⟩ := hcheck
          rw [beq_iff_eq] at hva2 hvb2
          rcases hmiss with hm | hm
          · exact hm (List.mem_map.mpr ⟨va, hvam, hva2⟩)
          · exact hm (List.mem_map.mpr ⟨vbv, hvbm, hvb2⟩)
        exact ⟨"validation: cell references a non-existent vertex id",
          by unfold FEMmesh
             rw [if_neg (not_not_intro h1), if_neg (not_not_intro h2), if_pos h3]⟩
      · exact ⟨"validation: duplicate cell id",
          by unfold FEMmesh; rw [if_neg (not_not_intro h1), if_pos h2]⟩
    · exact ⟨"validation: duplicate vertex id", by unfold FEMmesh; rw [if_pos h1]⟩
  · intro G _ _ sq m pr c v1 v2 EA h0 hva hvb hx hy hEA
    have hgeom : sq ((v2.x - v1.x) ^ 2 + (v2.y - v1.y) ^ 2) = 0 := by
      rw [sub_eq_zero.mpr hx, sub_eq_zero.mpr hy]
      simpa using h0
    have hform : formulate sq m pr c = .error "geometry: zero-length rod" := by
      unfold formulate
      rw [hva, hvb]
      simp only
      rw [hEA]
      simp only
      rw [if_pos hgeom]
    exact ⟨hform, fun hc => exMapM_error_of_mem _ ⟨c, hc, _, hform⟩⟩

/-- C4 witness: each malformed-input case on concrete data. -/
theorem C4_witness :
    (∃ msg, FEMmesh badVertsDup ([] : List Cell) = .error msg) ∧
    (∃ msg, FEMmesh goodVerts2 badCellsDup = .error msg) ∧
    (∃ msg, FEMmesh goodVerts2 badCellsDangling = .error msg) ∧
    formulate sqrtQ zeroMesh zeroProps ⟨0, -1, 0, 1⟩ =
      .error "geometry: zero-length rod" := by
  refine ⟨?_, ?_, ?_, ?_⟩
  · exact C4_malformed_inputs.1 ℚ badVertsDup [] (by decide)
  · exact C4_malformed_inputs.2.1 ℚ goodVerts2 badCellsDup (by decide)
  · exact C4_malformed_inputs.2.2.1 ℚ goodVerts2 badCellsDangling
      ⟨⟨0, -1, 0, 7⟩, List.mem_singleton.mpr rfl, Or.inr (by decide)⟩
  · exact (C4_malformed_inputs.2.2.2 ℚ sqrtQ zeroMesh zeroProps ⟨0, -1, 0, 1⟩
      ⟨0, 0, 2, 3⟩ ⟨1, 0, 2, 3⟩ (1, 1) (by with_unfolding_all rfl)
      rfl rfl rfl rfl (by with_unfolding_all rfl)).1

/-- C5: the steady solve fails exactly when the reduced free-DOF stiffness
matrix is not invertible, and then exposes no displacement vector at all;
on success the free part of the returned vector solves the reduced system
K_ff · U_f = F_f - K_fc · U_c and the essential DOFs carry their
prescribed values. -/
theorem C5_solve_characterisation {G : Type} [Field G] [DecidableEq G]
    (K : ℕ → ℕ → G) (bc : ℕ → DofBC G) (nd : ℕ) :
    ((∃ msg, solve_steady K bc nd = .error msg) ↔
      ¬ IsUnit (reducedMatrix K (freeDofs bc nd))) ∧
    ((∃ msg, solve_steady K bc nd = .error msg) →
      ∀ u, ¬ solve_steady K bc nd = .ok u) ∧
    (∀ u, solve_steady K bc nd = .ok u →
      (reducedMatrix K (freeDofs bc nd)).mulVec
          (fun i => u ((freeDofs bc nd).get i)) =
        reducedRhs K bc (freeDofs bc nd) (fixedDofs bc nd) ∧
      ∀ n v, bc n = .ess v → u n = v) := by
  refine ⟨?_, ?_, ?_⟩
  · rw [solve_error_iff_det, Matrix.isUnit_iff_isUnit_det, isUnit_iff_ne_zero,
      not_not]
  · rintro ⟨msg, he⟩ u ho
    rw [he] at ho
    cases ho
  · intro u hok
    obtain ⟨hdet, rfl⟩ := solve_ok_shape hok
    constructor
    · have hvec : (fun i => composeU bc (freeDofs bc nd)
          ((reducedMatrix K (freeDofs bc nd)).det⁻¹ •
            (reducedMatrix K (freeDofs bc nd)).adjugate.mulVec
              (reducedRhs K bc (freeDofs bc nd) (fixedDofs bc nd)))
          ((freeDofs bc nd).get i)) =
          (reducedMatrix K (freeDofs bc nd)).det⁻¹ •
            (reducedMatrix K (freeDofs bc nd)).adjugate.mulVec
              (reducedRhs K bc (freeDofs bc nd) (fixedDofs bc nd)) := by
        funext i
        obtain ⟨f, hf⟩ := mem_freeDofs (List.get_mem (freeDofs bc nd) i.1 i.2)
        exact composeU_free (freeDofs_nodup bc nd) _ i hf
      rw [hvec, Matrix.mulVec_smul, Matrix.mulVec_mulVec, Matrix.mul_adjugate,
        Matrix.smul_mulVec_assoc, Matrix.one_mulVec, smul_smul,
        inv_mul_cancel₀ hdet, one_smul]
    · intro n v hn
      exact composeU_ess hn

/-- C5 witness: the singular one-DOF system is rejected as non-invertible,
and the invertible one-DOF system is solved exactly. -/
theorem C5_witness :
    ¬ IsUnit (reducedMatrix sysK0 (freeDofs sysBc 1)) ∧
    (reducedMatrix sysK1 (freeDofs sysBc 1)).mulVec
        (fun i => sysU ((freeDofs sysBc 1).get i)) =
      reducedRhs sysK1 sysBc (freeDofs sysBc 1) (fixedDofs sysBc 1) :=
  ⟨(C5_solve_characterisation sysK0 sysBc 1).1.mp
      ⟨"singular reduced stiffness matrix", by with_unfolding_all rfl⟩,
   ((C5_solve_characterisation sysK1 sysBc 1).2.2 sysU
      (by with_unfolding_all rfl)).1⟩

/-- A one-vertex mesh whose tag carries both a displacement and a load in
the x direction. -/
def cMesh : Mesh ℚ := ⟨[⟨0, -7, 0, 0⟩], []⟩

def cBCs : BCSpec ℚ := [(-7, [(.ux, 5), (.fx, 3)])]

/-- C6: every DOF-direction is classified in exactly one of the two states
essential or natural; when one direction carries both a prescribed
displacement and a prescribed load, the essential condition wins, the load
vector ignores the DOF, the DOF is excluded from the free set, and the
conflict is reported as a (non-fatal) warning entry of set_bcs. -/
theorem C6_bc_conflict {G : Type} [Field G] [DecidableEq G]
    (m : Mesh G) (vb : BCSpec G) :
    (∀ n, (∃ v, (set_bcs m vb).1 n = .ess v) ↔
      ¬ ∃ f, (set_bcs m vb).1 n = .nat f) ∧
    (∀ n ver es uv fv,
      m.verts.get? (n / 2) = some ver →
      (vb.find? fun e => e.1 == ver.tag).map (·.2) = some es →
      (if n % 2 = 0 then (lookupKey es .ux, lookupKey es .fx)
        else (lookupKey es .uy, lookupKey es .fy)) = (some uv, some fv) →
      (set_bcs m vb).1 n = .ess uv ∧
      loadVec (set_bcs m vb).1 n = 0 ∧
      n ∉ freeDofs (set_bcs m vb).1 (2 * m.verts.length) ∧
      n ∈ (set_bcs m vb).2) := by
  constructor
  · intro n
    constructor
    · rintro ⟨v, hv⟩ ⟨f, hf⟩
      rw [hv] at hf
      cases hf
    · intro hnot
      cases hb : (set_bcs m vb).1 n with
      | ess v => exact ⟨v, rfl⟩
      | nat f => exact absurd ⟨f, hb⟩ hnot
  · intro n ver es uv fv hver hes hkeys
    have hds := dofState_conflict hver hes hkeys
    have hbc : (set_bcs m vb).1 n = .ess uv := by
      show (dofState m vb n).1 = _
      rw [hds]
    refine ⟨hbc, ?_, ess_not_mem_freeDofs hbc, ?_⟩
    · simp only [loadVec, hbc]
    · have hlen : n / 2 < m.verts.length := by
        by_contra hge
        rw [List.get?_eq_none.mpr (by omega)] at hver
        cases hver
      show n ∈ (List.range (2 * m.verts.length)).filter
        fun k => (dofState m vb k).2
      refine List.mem_filter.mpr ⟨List.mem_range.mpr (by omega), ?_⟩
      rw [hds]

/-- C6 witness: the conflicting x direction of the one-vertex mesh. -/
theorem C6_witness :
    (set_bcs cMesh cBCs).1 0 = .ess 5 ∧
    loadVec (set_bcs cMesh cBCs).1 0 = 0 ∧
    0 ∉ freeDofs (set_bcs cMesh cBCs).1 (2 * cMesh.verts.length) ∧
    0 ∈ (set_bcs cMesh cBCs).2 :=
  (C6_bc_conflict cMesh cBCs).2 0 ⟨0, -7, 0, 0⟩ [(.ux, 5), (.fx, 3)] 5 3
    (by with_unfolding_all rfl) (by with_unfolding_all rfl)
    (by with_unfolding_all rfl)

/-- C7: assembly and solving are deterministic functions of the inputs (no
hidden state), and the assembler consumes the element list in stable list
order, scattering the head element first. -/
theorem C7_determinism {G : Type} [Field G] [DecidableEq G] (sq : G → G)
    (v1 v2 : List (Vert G)) (c1 c2 : List Cell) (p1 p2 : Props G)
    (b1 b2 : BCSpec G) (n1 n2 : ℕ)
    (hv : v1 = v2) (hc : c1 = c2) (hp : p1 = p2) (hb : b1 = b2)
    (hn : n1 = n2) :
    runPipeline sq v1 c1 p1 b1 n1 = runPipeline sq v2 c2 p2 b2 n2 ∧
    (∀ (K0 : ℕ → ℕ → G) (d : ElemDat G) (ds : List (ElemDat G)),
      assembleFrom K0 (d :: ds) =
        assembleFrom (scatterAdd (elemDofs d) d.K K0) ds) := by
  subst hv hc hp hb hn
  exact ⟨rfl, fun K0 d ds => rfl⟩

/-- C7 witness: determinism applied to the bridge inputs themselves. -/
theorem C7_witness :
    runPipeline sqrtQ5 bridgeVerts bridgeCells bridgeProps bridgeBCs 20 =
      runPipeline sqrtQ5 bridgeVerts bridgeCells bridgeProps bridgeBCs 20 :=
  (C7_determinism sqrtQ5 bridgeVerts bridgeVerts bridgeCells bridgeCells
    bridgeProps bridgeProps bridgeBCs bridgeBCs 20 20 rfl rfl rfl rfl rfl).1

/-- C8: stress recovery is pure post-processing: calc_secondary stores for
every element exactly σ = E · ε with ε the projected relative displacement
over the length, and changes neither the element list (hence no e.K) nor
the displacement vector, so get_u reads the same values afterwards. -/
theorem C8_secondary_frame {G : Type} [Field G] [DecidableEq G]
    (st : AnState G) (nv : ℕ) :
    (calc_secondary st).u = st.u ∧
    (calc_secondary st).elems = st.elems ∧
    ((calc_secondary st).elems.map fun d => d.K) =
      (st.elems.map fun d => d.K) ∧
    get_u (calc_secondary st).u nv = get_u st.u nv ∧
    (calc_secondary st).esvs = st.elems.map fun d =>
      d.E * (((d.dx / d.L) * (st.u (2 * d.ib) - st.u (2 * d.ia)) +
        (d.dy / d.L) * (st.u (2 * d.ib + 1) - st.u (2 * d.ia + 1))) / d.L) :=
  ⟨rfl, rfl, rfl, rfl, rfl⟩

/-- C9 (amended): every numeric field the formatter produces is exactly 23
characters wide and displays 16 significant digits (one leading digit plus
15 after the decimal point), not 15; the displacement rows of the report
are ordered by vertex id, pairing u(2i) with u(2i+1) from get_u; the
stress rows are ordered by element position; and the report built by the
accumulative separator loops equals the separator-joined sections the spec
describes. -/
theorem C9_report_format :
    (∀ q : ℚ, (fmtSci15 q).length = 23 ∧ sigCount (fmtSci15 q) = 16) ∧
    (∀ (fmt : Qr5 → String) (u : ℕ → Qr5) (nv i : ℕ), i < nv →
      (dispLines fmt (get_u u nv).1 (get_u u nv).2).getD i "" =
        "    [" ++ fmt (u (2 * i)) ++ "," ++ fmt (u (2 * i + 1)) ++ "]") ∧
    (∀ (fmt : Qr5 → String) (sa : List Qr5) (ic : ℕ), ic < sa.length →
      (sigmaLines fmt sa).getD ic "" = "    [[" ++ fmt (sa.getD ic 0) ++ "]]") ∧
    (∀ (fmt : Qr5 → String) (Ks : List (Fin 4 → Fin 4 → Qr5))
      (ux uy sa : List Qr5),
      buildReport fmt Ks ux uy sa =
        "[\n\x7b\n  \"Kmats\":[\n" ++
        joinSep ",\n" (Ks.map fun K => "    [\n" ++
          joinSep ",\n" ((List.finRange 4).map fun j => "      [" ++
            joinSep "," ((List.finRange 4).map fun k => fmt (K j k)) ++ "]") ++
          "\n    ]") ++
        "\n  ],\n  \"disp\":[\n" ++ joinSep ",\n" (dispLines fmt ux uy) ++
        "\n  ],\n  \"sigmas\":[\n" ++ joinSep ",\n" (sigmaLines fmt sa) ++
        "\n  ]\n\x7d\n]") := by
  refine ⟨fmt_width_sig, ?_, ?_, ?_⟩
  · intro fmt u nv i hi
    show ((((List.range nv).map fun k => u (2 * k)).zip
        ((List.range nv).map fun k => u (2 * k + 1))).map
        fun p => "    [" ++ fmt p.1 ++ "," ++ fmt p.2 ++ "]").getD i "" = _
    rw [List.zip_map', List.map_map]
    exact getD_map_range _ _ hi
  · intro fmt sa ic hic
    show ((sa.map fun s => "    [[" ++ fmt s ++ "]]").getD ic "") = _
    rw [List.getD_eq_getElem _ _ (by simpa using hic), List.getElem_map,
      List.getD_eq_getElem _ _ hic]
  · intro fmt Ks ux uy sa
    simp only [buildReport, sepFold_eq_joinSep]

/-- C9 witness of the amended claim: width of one field and the first
displacement and stress rows on concrete data. -/
theorem C9_format_witness :
    (fmtSci15 (67 / 21000)).length = 23 ∧
    (dispLines qfmt (get_u bridgeU 10).1 (get_u bridgeU 10).2).getD 0 "" =
      "    [" ++ qfmt (bridgeU 0) ++ "," ++ qfmt (bridgeU 1) ++ "]" ∧
    (sigmaLines qfmt [1]).getD 0 "" =
      "    [[" ++ qfmt (([1] : List Qr5).getD 0 0) ++ "]]" :=
  ⟨(C9_report_format.1 (67 / 21000)).1,
   C9_report_format.2.1 qfmt bridgeU 10 0 (by norm_num),
   C9_report_format.2.2.1 qfmt [1] 0 (by norm_num)⟩

/-- C9 counterexample to the original claim: the first stiffness entry of
the bridge report (element 0, entry (0,0), value 315000) is rendered by the
23-character field with 16 significant digits, not 15. -/
theorem C9_counterexample :
    (bridgeElemsL.head?.map fun d => d.K 0 0) = some (Qr5.ofRat 315000) ∧
    fmtSci15 315000 = "  3.150000000000000e+05" ∧
    (fmtSci15 315000).length = 23 ∧
    sigCount (fmtSci15 315000) = 16 ∧
    ¬ sigCount (fmtSci15 315000) = 15 := by
  have h16 : sigCount (fmtSci15 315000) = 16 := by with_unfolding_all rfl
  refine ⟨by with_unfolding_all rfl, by with_unfolding_all rfl,
    by with_unfolding_all rfl, h16,
    fun h => absurd (h16.symm.trans h) (by decide)⟩

theorem intEqb_refl (m : ℤ) : intEqb m m = true := by
  cases m <;> simp [intEqb]

theorem ratEqb_refl (p : ℚ) : ratEqb p p = true := by
  simp [ratEqb, intEqb_refl]

theorem qeqb_refl (x : Qr5) : qeqb x x = true := by
  simp [qeqb, ratEqb_refl]

/-- A failed Boolean comparison separates the values. -/
theorem ne_of_qeqb_false {x y : Qr5} (h : qeqb x y = false) : x ≠ y := by
  intro he
  rw [he, qeqb_refl] at h
  cases h

/-- C10: the concrete bridge01 inputs satisfy every pipeline precondition:
vertex and cell ids are dense, zero-based and unique; mesh validation
succeeds; every cell references two existing vertices; the single region
tag -1 has a property entry carrying E and A; formulation succeeds with
every rod of nonzero length; the steady solve succeeds; and stress
recovery yields all 18 stresses. -/
theorem C10_bridge_preconditions :
    bridgeVerts.map Vert.vid = (List.range 10).map Int.ofNat ∧
    (bridgeVerts.map Vert.vid).Nodup ∧
    bridgeCells.map Cell.cid = (List.range 18).map Int.ofNat ∧
    (bridgeCells.map Cell.cid).Nodup ∧
    FEMmesh bridgeVerts bridgeCells = .ok bridgeMesh ∧
    (∀ c ∈ bridgeCells, (bridgeMesh.vertAt c.va).isSome = true ∧
      (bridgeMesh.vertAt c.vb).isSome = true) ∧
    (∀ c ∈ bridgeCells,
      lookupProp bridgeProps c.tag =
        some (Qr5.ofRat 210000000, Qr5.ofRat (3 / 1000))) ∧
    formulateAll sqrtQ5 bridgeMesh bridgeProps = .ok bridgeElemsL ∧
    (∀ d ∈ bridgeElemsL, d.L ≠ 0) ∧
    solve_steady bridgeK bridgeBc 20 = .ok bridgeU ∧
    (calc_secondary ⟨bridgeElemsL, bridgeU, []⟩).esvs.length = 18 := by
  refine ⟨by decide, by decide, by decide, by decide,
    by with_unfolding_all rfl, by decide, ?_, bridge_formulateAll, ?_,
    bridge_solve, ?_⟩
  · intro c hc
    have ht : c.tag = -1 := by fin_cases hc <;> rfl
    rw [ht]
    with_unfolding_all rfl
  · have hall : bridgeElemsL.all (fun d => !(qeqb d.L 0)) = true := by
      with_unfolding_all rfl
    intro d hd
    have hb := List.all_eq_true.mp hall d hd
    refine ne_of_qeqb_false ?_
    cases hq : qeqb d.L 0
    · rfl
    · rw [hq] at hb
      exact absurd hb (by decide)
  · with_unfolding_all rfl
